import Mathlib

/-!
# Asynchronous command core of the Aerospike C client

A shallow embedding of `src/main/aerospike/as_event.c` (and of the status
names of `src/main/aerospike/as_error.c`).

The C code is a continuation-passing state machine over an external reactor.
It is embedded as functions on an explicit `World`: the command under
consideration, its event loop, the cluster's pending counter for that loop,
the connection pools, the executor of a command group, the clock, and a
time-stamped trace of the calls that leave `as_event.c` (listeners, timers,
connections, frees).  Counters are natural numbers: the structure
declarations (`as_event_internal.h`) are not among the sources, so no width
is attributed to them.
-/

namespace Aerospike

/-! ## Status codes and errors -/

/-- Modelled from the spec: the `as_status` enumeration, whose declaration
(`as_status.h`) is not among the sources.  The constructors are the
identifiers that `as_error_string` switches on (a C `switch` forces them to be
pairwise distinct); `other n` is a status whose numeric value `n` is none of
the named ones. -/
inductive as_status where
  | AEROSPIKE_OK
  | AEROSPIKE_QUERY_END
  | AEROSPIKE_ERR_CONNECTION
  | AEROSPIKE_ERR_TLS_ERROR
  | AEROSPIKE_ERR_INVALID_NODE
  | AEROSPIKE_ERR_NO_MORE_CONNECTIONS
  | AEROSPIKE_ERR_ASYNC_CONNECTION
  | AEROSPIKE_ERR_CLIENT_ABORT
  | AEROSPIKE_ERR_INVALID_HOST
  | AEROSPIKE_NO_MORE_RECORDS
  | AEROSPIKE_ERR_PARAM
  | AEROSPIKE_ERR_CLIENT
  | AEROSPIKE_ERR_SERVER
  | AEROSPIKE_ERR_RECORD_NOT_FOUND
  | AEROSPIKE_ERR_RECORD_GENERATION
  | AEROSPIKE_ERR_REQUEST_INVALID
  | AEROSPIKE_ERR_RECORD_EXISTS
  | AEROSPIKE_ERR_BIN_EXISTS
  | AEROSPIKE_ERR_CLUSTER_CHANGE
  | AEROSPIKE_ERR_SERVER_FULL
  | AEROSPIKE_ERR_TIMEOUT
  | AEROSPIKE_ERR_ALWAYS_FORBIDDEN
  | AEROSPIKE_ERR_CLUSTER
  | AEROSPIKE_ERR_BIN_INCOMPATIBLE_TYPE
  | AEROSPIKE_ERR_RECORD_TOO_BIG
  | AEROSPIKE_ERR_RECORD_BUSY
  | AEROSPIKE_ERR_SCAN_ABORTED
  | AEROSPIKE_ERR_UNSUPPORTED_FEATURE
  | AEROSPIKE_ERR_BIN_NOT_FOUND
  | AEROSPIKE_ERR_DEVICE_OVERLOAD
  | AEROSPIKE_ERR_RECORD_KEY_MISMATCH
  | AEROSPIKE_ERR_NAMESPACE_NOT_FOUND
  | AEROSPIKE_ERR_BIN_NAME
  | AEROSPIKE_ERR_FAIL_FORBIDDEN
  | AEROSPIKE_SECURITY_NOT_SUPPORTED
  | AEROSPIKE_SECURITY_NOT_ENABLED
  | AEROSPIKE_SECURITY_SCHEME_NOT_SUPPORTED
  | AEROSPIKE_INVALID_COMMAND
  | AEROSPIKE_INVALID_FIELD
  | AEROSPIKE_ILLEGAL_STATE
  | AEROSPIKE_INVALID_USER
  | AEROSPIKE_USER_ALREADY_EXISTS
  | AEROSPIKE_INVALID_PASSWORD
  | AEROSPIKE_EXPIRED_PASSWORD
  | AEROSPIKE_FORBIDDEN_PASSWORD
  | AEROSPIKE_INVALID_CREDENTIAL
  | AEROSPIKE_INVALID_ROLE
  | AEROSPIKE_ROLE_ALREADY_EXISTS
  | AEROSPIKE_INVALID_PRIVILEGE
  | AEROSPIKE_NOT_AUTHENTICATED
  | AEROSPIKE_ROLE_VIOLATION
  | AEROSPIKE_ERR_UDF
  | AEROSPIKE_ERR_LARGE_ITEM_NOT_FOUND
  | AEROSPIKE_ERR_BATCH_DISABLED
  | AEROSPIKE_ERR_BATCH_MAX_REQUESTS_EXCEEDED
  | AEROSPIKE_ERR_BATCH_QUEUES_FULL
  | AEROSPIKE_ERR_INDEX_FOUND
  | AEROSPIKE_ERR_INDEX_NOT_FOUND
  | AEROSPIKE_ERR_INDEX_OOM
  | AEROSPIKE_ERR_INDEX_NOT_READABLE
  | AEROSPIKE_ERR_INDEX
  | AEROSPIKE_ERR_INDEX_NAME_MAXLEN
  | AEROSPIKE_ERR_INDEX_MAXCOUNT
  | AEROSPIKE_ERR_QUERY_ABORTED
  | AEROSPIKE_ERR_QUERY_QUEUE_FULL
  | AEROSPIKE_ERR_QUERY_TIMEOUT
  | AEROSPIKE_ERR_QUERY
  | other (code : Int)
  deriving Repr

open as_status

/-- Position of a status in the enumeration above, with the numeric value of
an unnamed one: an injective code used to decide equality of statuses. -/
def as_status.encode : as_status → Nat × Int
  | AEROSPIKE_OK => (1, 0)
  | AEROSPIKE_QUERY_END => (2, 0)
  | AEROSPIKE_ERR_CONNECTION => (3, 0)
  | AEROSPIKE_ERR_TLS_ERROR => (4, 0)
  | AEROSPIKE_ERR_INVALID_NODE => (5, 0)
  | AEROSPIKE_ERR_NO_MORE_CONNECTIONS => (6, 0)
  | AEROSPIKE_ERR_ASYNC_CONNECTION => (7, 0)
  | AEROSPIKE_ERR_CLIENT_ABORT => (8, 0)
  | AEROSPIKE_ERR_INVALID_HOST => (9, 0)
  | AEROSPIKE_NO_MORE_RECORDS => (10, 0)
  | AEROSPIKE_ERR_PARAM => (11, 0)
  | AEROSPIKE_ERR_CLIENT => (12, 0)
  | AEROSPIKE_ERR_SERVER => (13, 0)
  | AEROSPIKE_ERR_RECORD_NOT_FOUND => (14, 0)
  | AEROSPIKE_ERR_RECORD_GENERATION => (15, 0)
  | AEROSPIKE_ERR_REQUEST_INVALID => (16, 0)
  | AEROSPIKE_ERR_RECORD_EXISTS => (17, 0)
  | AEROSPIKE_ERR_BIN_EXISTS => (18, 0)
  | AEROSPIKE_ERR_CLUSTER_CHANGE => (19, 0)
  | AEROSPIKE_ERR_SERVER_FULL => (20, 0)
  | AEROSPIKE_ERR_TIMEOUT => (21, 0)
  | AEROSPIKE_ERR_ALWAYS_FORBIDDEN => (22, 0)
  | AEROSPIKE_ERR_CLUSTER => (23, 0)
  | AEROSPIKE_ERR_BIN_INCOMPATIBLE_TYPE => (24, 0)
  | AEROSPIKE_ERR_RECORD_TOO_BIG => (25, 0)
  | AEROSPIKE_ERR_RECORD_BUSY => (26, 0)
  | AEROSPIKE_ERR_SCAN_ABORTED => (27, 0)
  | AEROSPIKE_ERR_UNSUPPORTED_FEATURE => (28, 0)
  | AEROSPIKE_ERR_BIN_NOT_FOUND => (29, 0)
  | AEROSPIKE_ERR_DEVICE_OVERLOAD => (30, 0)
  | AEROSPIKE_ERR_RECORD_KEY_MISMATCH => (31, 0)
  | AEROSPIKE_ERR_NAMESPACE_NOT_FOUND => (32, 0)
  | AEROSPIKE_ERR_BIN_NAME => (33, 0)
  | AEROSPIKE_ERR_FAIL_FORBIDDEN => (34, 0)
  | AEROSPIKE_SECURITY_NOT_SUPPORTED => (35, 0)
  | AEROSPIKE_SECURITY_NOT_ENABLED => (36, 0)
  | AEROSPIKE_SECURITY_SCHEME_NOT_SUPPORTED => (37, 0)
  | AEROSPIKE_INVALID_COMMAND => (38, 0)
  | AEROSPIKE_INVALID_FIELD => (39, 0)
  | AEROSPIKE_ILLEGAL_STATE => (40, 0)
  | AEROSPIKE_INVALID_USER => (41, 0)
  | AEROSPIKE_USER_ALREADY_EXISTS => (42, 0)
  | AEROSPIKE_INVALID_PASSWORD => (43, 0)
  | AEROSPIKE_EXPIRED_PASSWORD => (44, 0)
  | AEROSPIKE_FORBIDDEN_PASSWORD => (45, 0)
  | AEROSPIKE_INVALID_CREDENTIAL => (46, 0)
  | AEROSPIKE_INVALID_ROLE => (47, 0)
  | AEROSPIKE_ROLE_ALREADY_EXISTS => (48, 0)
  | AEROSPIKE_INVALID_PRIVILEGE => (49, 0)
  | AEROSPIKE_NOT_AUTHENTICATED => (50, 0)
  | AEROSPIKE_ROLE_VIOLATION => (51, 0)
  | AEROSPIKE_ERR_UDF => (52, 0)
  | AEROSPIKE_ERR_LARGE_ITEM_NOT_FOUND => (53, 0)
  | AEROSPIKE_ERR_BATCH_DISABLED => (54, 0)
  | AEROSPIKE_ERR_BATCH_MAX_REQUESTS_EXCEEDED => (55, 0)
  | AEROSPIKE_ERR_BATCH_QUEUES_FULL => (56, 0)
  | AEROSPIKE_ERR_INDEX_FOUND => (57, 0)
  | AEROSPIKE_ERR_INDEX_NOT_FOUND => (58, 0)
  | AEROSPIKE_ERR_INDEX_OOM => (59, 0)
  | AEROSPIKE_ERR_INDEX_NOT_READABLE => (60, 0)
  | AEROSPIKE_ERR_INDEX => (61, 0)
  | AEROSPIKE_ERR_INDEX_NAME_MAXLEN => (62, 0)
  | AEROSPIKE_ERR_INDEX_MAXCOUNT => (63, 0)
  | AEROSPIKE_ERR_QUERY_ABORTED => (64, 0)
  | AEROSPIKE_ERR_QUERY_QUEUE_FULL => (65, 0)
  | AEROSPIKE_ERR_QUERY_TIMEOUT => (66, 0)
  | AEROSPIKE_ERR_QUERY => (67, 0)
  | other code => (0, code)

/-- Inverse of `as_status.encode`. -/
def as_status.decode : Nat × Int → as_status
  | (1, _) => AEROSPIKE_OK
  | (2, _) => AEROSPIKE_QUERY_END
  | (3, _) => AEROSPIKE_ERR_CONNECTION
  | (4, _) => AEROSPIKE_ERR_TLS_ERROR
  | (5, _) => AEROSPIKE_ERR_INVALID_NODE
  | (6, _) => AEROSPIKE_ERR_NO_MORE_CONNECTIONS
  | (7, _) => AEROSPIKE_ERR_ASYNC_CONNECTION
  | (8, _) => AEROSPIKE_ERR_CLIENT_ABORT
  | (9, _) => AEROSPIKE_ERR_INVALID_HOST
  | (10, _) => AEROSPIKE_NO_MORE_RECORDS
  | (11, _) => AEROSPIKE_ERR_PARAM
  | (12, _) => AEROSPIKE_ERR_CLIENT
  | (13, _) => AEROSPIKE_ERR_SERVER
  | (14, _) => AEROSPIKE_ERR_RECORD_NOT_FOUND
  | (15, _) => AEROSPIKE_ERR_RECORD_GENERATION
  | (16, _) => AEROSPIKE_ERR_REQUEST_INVALID
  | (17, _) => AEROSPIKE_ERR_RECORD_EXISTS
  | (18, _) => AEROSPIKE_ERR_BIN_EXISTS
  | (19, _) => AEROSPIKE_ERR_CLUSTER_CHANGE
  | (20, _) => AEROSPIKE_ERR_SERVER_FULL
  | (21, _) => AEROSPIKE_ERR_TIMEOUT
  | (22, _) => AEROSPIKE_ERR_ALWAYS_FORBIDDEN
  | (23, _) => AEROSPIKE_ERR_CLUSTER
  | (24, _) => AEROSPIKE_ERR_BIN_INCOMPATIBLE_TYPE
  | (25, _) => AEROSPIKE_ERR_RECORD_TOO_BIG
  | (26, _) => AEROSPIKE_ERR_RECORD_BUSY
  | (27, _) => AEROSPIKE_ERR_SCAN_ABORTED
  | (28, _) => AEROSPIKE_ERR_UNSUPPORTED_FEATURE
  | (29, _) => AEROSPIKE_ERR_BIN_NOT_FOUND
  | (30, _) => AEROSPIKE_ERR_DEVICE_OVERLOAD
  | (31, _) => AEROSPIKE_ERR_RECORD_KEY_MISMATCH
  | (32, _) => AEROSPIKE_ERR_NAMESPACE_NOT_FOUND
  | (33, _) => AEROSPIKE_ERR_BIN_NAME
  | (34, _) => AEROSPIKE_ERR_FAIL_FORBIDDEN
  | (35, _) => AEROSPIKE_SECURITY_NOT_SUPPORTED
  | (36, _) => AEROSPIKE_SECURITY_NOT_ENABLED
  | (37, _) => AEROSPIKE_SECURITY_SCHEME_NOT_SUPPORTED
  | (38, _) => AEROSPIKE_INVALID_COMMAND
  | (39, _) => AEROSPIKE_INVALID_FIELD
  | (40, _) => AEROSPIKE_ILLEGAL_STATE
  | (41, _) => AEROSPIKE_INVALID_USER
  | (42, _) => AEROSPIKE_USER_ALREADY_EXISTS
  | (43, _) => AEROSPIKE_INVALID_PASSWORD
  | (44, _) => AEROSPIKE_EXPIRED_PASSWORD
  | (45, _) => AEROSPIKE_FORBIDDEN_PASSWORD
  | (46, _) => AEROSPIKE_INVALID_CREDENTIAL
  | (47, _) => AEROSPIKE_INVALID_ROLE
  | (48, _) => AEROSPIKE_ROLE_ALREADY_EXISTS
  | (49, _) => AEROSPIKE_INVALID_PRIVILEGE
  | (50, _) => AEROSPIKE_NOT_AUTHENTICATED
  | (51, _) => AEROSPIKE_ROLE_VIOLATION
  | (52, _) => AEROSPIKE_ERR_UDF
  | (53, _) => AEROSPIKE_ERR_LARGE_ITEM_NOT_FOUND
  | (54, _) => AEROSPIKE_ERR_BATCH_DISABLED
  | (55, _) => AEROSPIKE_ERR_BATCH_MAX_REQUESTS_EXCEEDED
  | (56, _) => AEROSPIKE_ERR_BATCH_QUEUES_FULL
  | (57, _) => AEROSPIKE_ERR_INDEX_FOUND
  | (58, _) => AEROSPIKE_ERR_INDEX_NOT_FOUND
  | (59, _) => AEROSPIKE_ERR_INDEX_OOM
  | (60, _) => AEROSPIKE_ERR_INDEX_NOT_READABLE
  | (61, _) => AEROSPIKE_ERR_INDEX
  | (62, _) => AEROSPIKE_ERR_INDEX_NAME_MAXLEN
  | (63, _) => AEROSPIKE_ERR_INDEX_MAXCOUNT
  | (64, _) => AEROSPIKE_ERR_QUERY_ABORTED
  | (65, _) => AEROSPIKE_ERR_QUERY_QUEUE_FULL
  | (66, _) => AEROSPIKE_ERR_QUERY_TIMEOUT
  | (67, _) => AEROSPIKE_ERR_QUERY
  | (_, code) => other code

instance : DecidableEq as_status := fun a b =>
  decidable_of_iff (a.encode = b.encode)
    ⟨fun h => by
        have ha : as_status.decode a.encode = a := by cases a <;> rfl
        have hb : as_status.decode b.encode = b := by cases b <;> rfl
        rw [← ha, ← hb, h],
     fun h => by rw [h]⟩

/-- The `as_error` value handed to listeners: status code and message. -/
structure as_error where
  code : as_status
  message : String
  deriving DecidableEq, Repr

/-- The function `as_error_string` of `as_error.c`: the identifier of a named
status; for an unnamed one, `AEROSPIKE_ERR_CLIENT` when negative and
`AEROSPIKE_ERR_SERVER` otherwise. -/
def as_error_string : as_status → String
  | AEROSPIKE_OK => "AEROSPIKE_OK"
  | AEROSPIKE_QUERY_END => "AEROSPIKE_QUERY_END"
  | AEROSPIKE_ERR_CONNECTION => "AEROSPIKE_ERR_CONNECTION"
  | AEROSPIKE_ERR_TLS_ERROR => "AEROSPIKE_ERR_TLS_ERROR"
  | AEROSPIKE_ERR_INVALID_NODE => "AEROSPIKE_ERR_INVALID_NODE"
  | AEROSPIKE_ERR_NO_MORE_CONNECTIONS => "AEROSPIKE_ERR_NO_MORE_CONNECTIONS"
  | AEROSPIKE_ERR_ASYNC_CONNECTION => "AEROSPIKE_ERR_ASYNC_CONNECTION"
  | AEROSPIKE_ERR_CLIENT_ABORT => "AEROSPIKE_ERR_CLIENT_ABORT"
  | AEROSPIKE_ERR_INVALID_HOST => "AEROSPIKE_ERR_INVALID_HOST"
  | AEROSPIKE_NO_MORE_RECORDS => "AEROSPIKE_NO_MORE_RECORDS"
  | AEROSPIKE_ERR_PARAM => "AEROSPIKE_ERR_PARAM"
  | AEROSPIKE_ERR_CLIENT => "AEROSPIKE_ERR_CLIENT"
  | AEROSPIKE_ERR_SERVER => "AEROSPIKE_ERR_SERVER"
  | AEROSPIKE_ERR_RECORD_NOT_FOUND => "AEROSPIKE_ERR_RECORD_NOT_FOUND"
  | AEROSPIKE_ERR_RECORD_GENERATION => "AEROSPIKE_ERR_RECORD_GENERATION"
  | AEROSPIKE_ERR_REQUEST_INVALID => "AEROSPIKE_ERR_REQUEST_INVALID"
  | AEROSPIKE_ERR_RECORD_EXISTS => "AEROSPIKE_ERR_RECORD_EXISTS"
  | AEROSPIKE_ERR_BIN_EXISTS => "AEROSPIKE_ERR_BIN_EXISTS"
  | AEROSPIKE_ERR_CLUSTER_CHANGE => "AEROSPIKE_ERR_CLUSTER_CHANGE"
  | AEROSPIKE_ERR_SERVER_FULL => "AEROSPIKE_ERR_SERVER_FULL"
  | AEROSPIKE_ERR_TIMEOUT => "AEROSPIKE_ERR_TIMEOUT"
  | AEROSPIKE_ERR_ALWAYS_FORBIDDEN => "AEROSPIKE_ERR_ALWAYS_FORBIDDEN"
  | AEROSPIKE_ERR_CLUSTER => "AEROSPIKE_ERR_CLUSTER"
  | AEROSPIKE_ERR_BIN_INCOMPATIBLE_TYPE => "AEROSPIKE_ERR_BIN_INCOMPATIBLE_TYPE"
  | AEROSPIKE_ERR_RECORD_TOO_BIG => "AEROSPIKE_ERR_RECORD_TOO_BIG"
  | AEROSPIKE_ERR_RECORD_BUSY => "AEROSPIKE_ERR_RECORD_BUSY"
  | AEROSPIKE_ERR_SCAN_ABORTED => "AEROSPIKE_ERR_SCAN_ABORTED"
  | AEROSPIKE_ERR_UNSUPPORTED_FEATURE => "AEROSPIKE_ERR_UNSUPPORTED_FEATURE"
  | AEROSPIKE_ERR_BIN_NOT_FOUND => "AEROSPIKE_ERR_BIN_NOT_FOUND"
  | AEROSPIKE_ERR_DEVICE_OVERLOAD => "AEROSPIKE_ERR_DEVICE_OVERLOAD"
  | AEROSPIKE_ERR_RECORD_KEY_MISMATCH => "AEROSPIKE_ERR_RECORD_KEY_MISMATCH"
  | AEROSPIKE_ERR_NAMESPACE_NOT_FOUND => "AEROSPIKE_ERR_NAMESPACE_NOT_FOUND"
  | AEROSPIKE_ERR_BIN_NAME => "AEROSPIKE_ERR_BIN_NAME"
  | AEROSPIKE_ERR_FAIL_FORBIDDEN => "AEROSPIKE_ERR_FAIL_FORBIDDEN"
  | AEROSPIKE_SECURITY_NOT_SUPPORTED => "AEROSPIKE_SECURITY_NOT_SUPPORTED"
  | AEROSPIKE_SECURITY_NOT_ENABLED => "AEROSPIKE_SECURITY_NOT_ENABLED"
  | AEROSPIKE_SECURITY_SCHEME_NOT_SUPPORTED => "AEROSPIKE_SECURITY_SCHEME_NOT_SUPPORTED"
  | AEROSPIKE_INVALID_COMMAND => "AEROSPIKE_INVALID_COMMAND"
  | AEROSPIKE_INVALID_FIELD => "AEROSPIKE_INVALID_FIELD"
  | AEROSPIKE_ILLEGAL_STATE => "AEROSPIKE_ILLEGAL_STATE"
  | AEROSPIKE_INVALID_USER => "AEROSPIKE_INVALID_USER"
  | AEROSPIKE_USER_ALREADY_EXISTS => "AEROSPIKE_USER_ALREADY_EXISTS"
  | AEROSPIKE_INVALID_PASSWORD => "AEROSPIKE_INVALID_PASSWORD"
  | AEROSPIKE_EXPIRED_PASSWORD => "AEROSPIKE_EXPIRED_PASSWORD"
  | AEROSPIKE_FORBIDDEN_PASSWORD => "AEROSPIKE_FORBIDDEN_PASSWORD"
  | AEROSPIKE_INVALID_CREDENTIAL => "AEROSPIKE_INVALID_CREDENTIAL"
  | AEROSPIKE_INVALID_ROLE => "AEROSPIKE_INVALID_ROLE"
  | AEROSPIKE_ROLE_ALREADY_EXISTS => "AEROSPIKE_ROLE_ALREADY_EXISTS"
  | AEROSPIKE_INVALID_PRIVILEGE => "AEROSPIKE_INVALID_PRIVILEGE"
  | AEROSPIKE_NOT_AUTHENTICATED => "AEROSPIKE_NOT_AUTHENTICATED"
  | AEROSPIKE_ROLE_VIOLATION => "AEROSPIKE_ROLE_VIOLATION"
  | AEROSPIKE_ERR_UDF => "AEROSPIKE_ERR_UDF"
  | AEROSPIKE_ERR_LARGE_ITEM_NOT_FOUND => "AEROSPIKE_ERR_LARGE_ITEM_NOT_FOUND"
  | AEROSPIKE_ERR_BATCH_DISABLED => "AEROSPIKE_ERR_BATCH_DISABLED"
  | AEROSPIKE_ERR_BATCH_MAX_REQUESTS_EXCEEDED => "AEROSPIKE_ERR_BATCH_MAX_REQUESTS_EXCEEDED"
  | AEROSPIKE_ERR_BATCH_QUEUES_FULL => "AEROSPIKE_ERR_BATCH_QUEUES_FULL"
  | AEROSPIKE_ERR_INDEX_FOUND => "AEROSPIKE_ERR_INDEX_FOUND"
  | AEROSPIKE_ERR_INDEX_NOT_FOUND => "AEROSPIKE_ERR_INDEX_NOT_FOUND"
  | AEROSPIKE_ERR_INDEX_OOM => "AEROSPIKE_ERR_INDEX_OOM"
  | AEROSPIKE_ERR_INDEX_NOT_READABLE => "AEROSPIKE_ERR_INDEX_NOT_READABLE"
  | AEROSPIKE_ERR_INDEX => "AEROSPIKE_ERR_INDEX"
  | AEROSPIKE_ERR_INDEX_NAME_MAXLEN => "AEROSPIKE_ERR_INDEX_NAME_MAXLEN"
  | AEROSPIKE_ERR_INDEX_MAXCOUNT => "AEROSPIKE_ERR_INDEX_MAXCOUNT"
  | AEROSPIKE_ERR_QUERY_ABORTED => "AEROSPIKE_ERR_QUERY_ABORTED"
  | AEROSPIKE_ERR_QUERY_QUEUE_FULL => "AEROSPIKE_ERR_QUERY_QUEUE_FULL"
  | AEROSPIKE_ERR_QUERY_TIMEOUT => "AEROSPIKE_ERR_QUERY_TIMEOUT"
  | AEROSPIKE_ERR_QUERY => "AEROSPIKE_ERR_QUERY"
  | other code => if code < 0 then "AEROSPIKE_ERR_CLIENT" else "AEROSPIKE_ERR_SERVER"

/-- The call `as_error_set_message(&err, code, message)`: the error it leaves
in `err`. -/
def as_error_set_message (code : as_status) (message : String) : as_error :=
  { code := code, message := message }

/-! ## Data model -/

/-- Modelled from the spec: the listener kind of a command (`cmd->type`).
`as_event_error_callback` names the three single-command kinds; every other
value is a member of a command group (batch, scan, query). -/
inductive as_async_type where
  | AS_ASYNC_TYPE_WRITE
  | AS_ASYNC_TYPE_RECORD
  | AS_ASYNC_TYPE_VALUE
  | AS_ASYNC_TYPE_GROUP
  deriving DecidableEq, Repr

/-- Modelled from the spec: the command states (`cmd->state`). -/
inductive as_async_state where
  | AS_ASYNC_STATE_UNREGISTERED
  | AS_ASYNC_STATE_REGISTERED
  | AS_ASYNC_STATE_CONNECT
  | AS_ASYNC_STATE_WRITE
  | AS_ASYNC_STATE_READ
  | AS_ASYNC_STATE_COMPLETE
  deriving DecidableEq, Repr

open as_async_type as_async_state

/-- The bit set `cmd->flags`, one boolean per `AS_ASYNC_FLAGS_*` bit. -/
structure as_async_flags where
  MASTER : Bool
  READ : Bool
  HAS_TIMER : Bool
  USING_SOCKET_TIMER : Bool
  EVENT_RECEIVED : Bool
  FREE_BUF : Bool
  deriving DecidableEq, Repr

/-- A cluster node as far as the command core reads it. -/
structure as_node where
  id : Nat
  name : String
  address : String
  deriving DecidableEq, Repr

/-- A non-pipelined connection; `validate` is what
`as_event_validate_connection` answers for it (0: usable). -/
structure as_async_connection where
  id : Nat
  validate : Int
  deriving DecidableEq, Repr

/-- Which of the two timers of a command is armed. -/
inductive as_timer_kind where
  | socket_timer
  | total_timer
  deriving DecidableEq, Repr

/-- An armed timer: its kind and the time at which it fires next. -/
structure as_event_timer where
  kind : as_timer_kind
  due : Nat
  deriving DecidableEq, Repr

/-- The fields of `as_event_command` that `as_event.c` reads or writes.
`partition` and `pipe_listener` say whether the pointer is non-null; `buf` is
the offset of the buffer pointer from the start of the command. -/
structure as_event_command where
  type : as_async_type
  state : as_async_state
  flags : as_async_flags
  total_deadline : Nat
  socket_timeout : Nat
  max_retries : Nat
  iteration : Nat
  partition : Bool
  pipe_listener : Bool
  node : Option as_node
  conn : Option as_async_connection
  timer : Option as_event_timer
  buf : Nat
  write_offset : Nat
  write_len : Nat
  deriving DecidableEq, Repr

/-- Modelled from the spec: the per (node, loop) connection pool of 4.2, a
bounded queue of idle connections, the count of open connections and its hard
limit. -/
structure as_conn_pool where
  queue : List as_async_connection
  capacity : Nat
  total : Nat
  limit : Nat
  deriving DecidableEq, Repr

/-- The functions that are posted to an event loop with `as_event_execute`
(a null function is the close request of `as_event_close_loops`). -/
inductive as_event_executable where
  | as_event_command_execute_in_loop
  | as_event_command_begin
  | as_event_close_cluster_cb
  | close_loop
  deriving DecidableEq, Repr

/-- The event loop of the command.  `accepting` says whether the loop still
takes tasks (`as_event_execute` answers it). -/
structure as_event_loop where
  thread : Nat
  index : Nat
  errors : Nat
  queue : List as_event_executable
  accepting : Bool
  deriving DecidableEq, Repr

/-- The executor of a command group, without its lock and command array. -/
structure as_event_executor where
  max_concurrent : Nat
  max : Nat
  count : Nat
  notify : Bool
  valid : Bool
  err : Option as_error
  deriving DecidableEq, Repr

/-- A parsed record as the record listener receives it. -/
structure as_record where
  gen : Nat
  ttl : Nat
  bins : List (String × Int)
  deriving DecidableEq, Repr

/-- The response in the read buffer: the header fields that the parsers read
and what the external parsers (`as_command_parse_bins`,
`as_command_parse_success_failure_bins`, `as_command_parse_udf_failure`) make
of the body. -/
structure as_msg where
  result_code : as_status
  generation : Nat
  record_ttl : Nat
  bins_status : as_status
  bins_err : as_error
  bins : List (String × Int)
  val : Int
  udf_message : String
  deriving DecidableEq, Repr

/-- Calls that leave `as_event.c`, in the order in which they are made. -/
inductive Effect where
  | write_listener (err : Option as_error)
  | record_listener (err : Option as_error) (record : Option as_record)
  | value_listener (err : Option as_error) (val : Option Int)
  | complete_fn (err : Option as_error)
  | executor_destroy
  | command_execute (index : Int)
  | command_release
  | free_command
  | free_buf
  | node_release (node : as_node)
  | get_node (master : Bool) (shm : Bool)
  | init_socket_timer
  | init_total_timer (timeout : Nat)
  | set_total_timer (timeout : Nat)
  | repeat_socket_timer
  | stop_timer
  | stop_watcher
  | connection_timeout
  | release_connection (conn : Option as_async_connection)
  | pool_put (conn : Option as_async_connection) (accepted : Bool)
  | write_start (conn : as_async_connection)
  | connect
  | enqueue (task : as_event_executable) (accepted : Bool)
  | pipe_get_connection
  | pipe_timeout (socket : Bool)
  | pipe_response_complete
  | pipe_response_error
  | pipe_socket_error (retry : Bool)
  deriving DecidableEq, Repr

/-- Everything a call into `as_event.c` can read or change. -/
structure World where
  /-- Answer of `cf_getms()`. -/
  now : Nat
  /-- Answer of `pthread_self()`. -/
  self : Nat
  /-- The command `cmd`. -/
  cmd : as_event_command
  /-- The loop `cmd->event_loop`. -/
  event_loop : as_event_loop
  /-- The counter `cmd->cluster->pending[event_loop->index]`. -/
  pending : Int
  /-- Whether `cmd->cluster->shm_info` is set. -/
  shm_info : Bool
  /-- Answer of the partition map for the master or the prole replica. -/
  partition_node : Bool → Option as_node
  /-- Answer of `cf_server_void_time_to_ttl`, which is declared outside
  `as_event.c`. -/
  cf_server_void_time_to_ttl : Nat → Nat
  /-- The pool `node->async_conn_pools[event_loop->index]` of each node. -/
  pools : Nat → as_conn_pool
  /-- The executor `cmd->udata` of a command of a group. -/
  executor : as_event_executor
  /-- The calls made so far, each with the time of the call. -/
  trace : List (Nat × Effect)

/-! ## The external collaborators -/

/-- Record a call that leaves `as_event.c`, with the time of the call. -/
def World.emit (w : World) (e : Effect) : World :=
  { w with trace := w.trace ++ [(w.now, e)] }

/-- Key of the pool `cmd->node->async_conn_pools[cmd->event_loop->index]`.
The C code dereferences `cmd->node` without a test; a command without a node
is outside its contract and reads key 0 here. -/
def World.pool_key (w : World) : Nat :=
  match w.cmd.node with
  | some n => n.id
  | none => 0

/-- The pool `&cmd->node->async_conn_pools[cmd->event_loop->index]`. -/
def World.pool (w : World) : as_conn_pool :=
  w.pools w.pool_key

/-- Write back the pool of the command's node. -/
def World.set_pool (w : World) (p : as_conn_pool) : World :=
  { w with pools := Function.update w.pools w.pool_key p }

/-- Modelled from the spec: post-task-to-loop of the host reactor
(`as_event_execute`, defined with the reactor bindings).  The task joins the
tail of the loop's queue; the call fails only when the loop no longer takes
tasks. -/
def as_event_execute (task : as_event_executable) (w : World) : Bool × World :=
  if w.event_loop.accepting then
    (true, ({ w with event_loop := { w.event_loop with queue := w.event_loop.queue ++ [task] } }).emit
      (Effect.enqueue task true))
  else
    (false, w.emit (Effect.enqueue task false))

/-- Modelled from the spec: arm the socket timer (`as_event_init_socket_timer`,
reactor bindings): it fires after `socket_timeout` ms. -/
def as_event_init_socket_timer (w : World) : World :=
  ({ w with cmd := { w.cmd with timer := some ⟨as_timer_kind.socket_timer, w.now + w.cmd.socket_timeout⟩ } }).emit
    Effect.init_socket_timer

/-- Modelled from the spec: arm the total timer for `timeout` ms
(`as_event_init_total_timer`, reactor bindings). -/
def as_event_init_total_timer (timeout : Nat) (w : World) : World :=
  ({ w with cmd := { w.cmd with timer := some ⟨as_timer_kind.total_timer, w.now + timeout⟩ } }).emit
    (Effect.init_total_timer timeout)

/-- Modelled from the spec: re-arm the command's timer as a total timer for
`timeout` ms (`as_event_set_total_timer`, reactor bindings). -/
def as_event_set_total_timer (timeout : Nat) (w : World) : World :=
  ({ w with cmd := { w.cmd with timer := some ⟨as_timer_kind.total_timer, w.now + timeout⟩ } }).emit
    (Effect.set_total_timer timeout)

/-- Modelled from the spec: re-arm the socket timer for another
`socket_timeout` ms (`as_event_repeat_socket_timer`, reactor bindings). -/
def as_event_repeat_socket_timer (w : World) : World :=
  ({ w with cmd := { w.cmd with timer := some ⟨as_timer_kind.socket_timer, w.now + w.cmd.socket_timeout⟩ } }).emit
    Effect.repeat_socket_timer

/-- Modelled from the spec: cancel the command's timer (`as_event_stop_timer`,
reactor bindings). -/
def as_event_stop_timer (w : World) : World :=
  ({ w with cmd := { w.cmd with timer := none } }).emit Effect.stop_timer

/-- Modelled from the spec: un-register the connection's I/O readiness
(`as_event_stop_watcher`, reactor bindings). -/
def as_event_stop_watcher (w : World) : World :=
  w.emit Effect.stop_watcher

/-- Modelled from the spec: `release(conn)` of 4.2 (`as_event_release_connection`):
close the connection and decrement the pool's open count. -/
def as_event_release_connection (conn : Option as_async_connection) (w : World) : World :=
  (w.set_pool { w.pool with total := w.pool.total - 1 }).emit (Effect.release_connection conn)

/-- Modelled from the spec: close the command's own connection
(`as_event_release_async_connection`). -/
def as_event_release_async_connection (w : World) : World :=
  let w1 := as_event_release_connection w.cmd.conn w
  { w1 with cmd := { w1.cmd with conn := none } }

/-- Modelled from the spec: close the connection of a command whose timer
fired (`as_event_connection_timeout`): nothing to close when the command holds
none. -/
def as_event_connection_timeout (w : World) : World :=
  let w1 := w.emit Effect.connection_timeout
  match w1.cmd.conn with
  | some _ =>
    let w2 := w1.set_pool { w1.pool with total := w1.pool.total - 1 }
    { w2 with cmd := { w2.cmd with conn := none } }
  | none => w1

/-- Modelled from the spec: `try_get` of 4.2 (`as_conn_pool_get`): pop an idle
connection. -/
def as_conn_pool_get (pool : as_conn_pool) : Option (as_async_connection × as_conn_pool) :=
  match pool.queue with
  | [] => none
  | c :: rest => some (c, { pool with queue := rest })

/-- Modelled from the spec: `put` of 4.2 (`as_conn_pool_put`): false when the
idle queue is at its cap. -/
def as_conn_pool_put (pool : as_conn_pool) (conn : as_async_connection) : Bool × as_conn_pool :=
  if pool.queue.length < pool.capacity then
    (true, { pool with queue := conn :: pool.queue })
  else
    (false, pool)

/-- Modelled from the spec: `inc_open` of 4.2 (`as_conn_pool_inc`): false when
the open count is at `limit`. -/
def as_conn_pool_inc (pool : as_conn_pool) : Bool × as_conn_pool :=
  if pool.total < pool.limit then
    (true, { pool with total := pool.total + 1 })
  else
    (false, pool)

/-- The call `as_node_release(cmd->node)` guarded by `if (cmd->node)`. -/
def release_node_if_any (w : World) : World :=
  match w.cmd.node with
  | some n => w.emit (Effect.node_release n)
  | none => w

/-! ## The functions of `as_event.c` -/

/-- The function `as_event_command_free`. -/
def as_event_command_free (w : World) : World :=
  let w1 := { w with pending := w.pending - 1 }
  let w2 := release_node_if_any w1
  let w3 := if w2.cmd.flags.FREE_BUF then w2.emit Effect.free_buf else w2
  w3.emit Effect.free_command

/-- Modelled from the spec: the terminal step of a command
(`as_event_command_release`, reactor bindings): the command is freed by
`as_event_command_free`. -/
def as_event_command_release (w : World) : World :=
  as_event_command_free (w.emit Effect.command_release)

/-- The function `as_event_executor_destroy`. -/
def as_event_executor_destroy (w : World) : World :=
  w.emit Effect.executor_destroy

/-- The call `executor->complete_fn(executor)`; the callee reads
`executor->err`. -/
def complete_fn (w : World) : World :=
  w.emit (Effect.complete_fn w.executor.err)

/-- The function `as_event_executor_error`. -/
def as_event_executor_error (err : as_error) (queued_count : Int) (w : World) : World :=
  let first_error := w.executor.valid
  let ex1 := { w.executor with valid := false }
  let ex2 :=
    if queued_count ≥ 0 then
      -- Add tasks that were never queued.
      { ex1 with count := ((ex1.count : Int) + ((ex1.max : Int) - queued_count)).toNat }
    else
      { ex1 with count := ex1.count + 1 }
  let complete := ex2.count == ex2.max
  let w1 := { w with executor := ex2 }
  if complete then
    let w2 :=
      if w1.executor.notify then
        if first_error then
          let w3 := { w1 with executor := { w1.executor with err := some err } }
          let w4 := complete_fn w3
          { w4 with executor := { w4.executor with err := none } }
        else
          complete_fn w1
      else w1
    as_event_executor_destroy w2
  else if first_error then
    { w1 with executor := { w1.executor with err := some err } }
  else w1

/-- The function `as_event_error_callback`. -/
def as_event_error_callback (err : as_error) (w : World) : World :=
  let w1 :=
    match w.cmd.type with
    | AS_ASYNC_TYPE_WRITE => w.emit (Effect.write_listener (some err))
    | AS_ASYNC_TYPE_RECORD => w.emit (Effect.record_listener (some err) none)
    | AS_ASYNC_TYPE_VALUE => w.emit (Effect.value_listener (some err) none)
    | AS_ASYNC_TYPE_GROUP => as_event_executor_error err (-1) w
  as_event_command_release w1

/-- The function `as_event_put_connection`.  A command without a connection
is outside the contract of the C code; no pool takes its null connection. -/
def as_event_put_connection (w : World) : World :=
  let (ok, pool) :=
    match w.cmd.conn with
    | some c => as_conn_pool_put w.pool c
    | none => (false, w.pool)
  let w1 := (w.set_pool pool).emit (Effect.pool_put w.cmd.conn ok)
  if ! ok then as_event_release_connection w.cmd.conn w1 else w1

/-- The function `as_event_response_complete`. -/
def as_event_response_complete (w : World) : World :=
  if w.cmd.pipe_listener then
    w.emit Effect.pipe_response_complete
  else
    let w1 := if w.cmd.flags.HAS_TIMER then as_event_stop_timer w else w
    let w2 := as_event_stop_watcher w1
    as_event_put_connection w2

/-- The function `as_event_response_error`. -/
def as_event_response_error (err : as_error) (w : World) : World :=
  if w.cmd.pipe_listener then
    w.emit Effect.pipe_response_error
  else
    let w1 := if w.cmd.flags.HAS_TIMER then as_event_stop_timer w else w
    let w2 := as_event_stop_watcher w1
    -- Close socket on errors that can leave unread data in socket.
    let w3 :=
      match err.code with
      | AEROSPIKE_ERR_QUERY_ABORTED
      | AEROSPIKE_ERR_SCAN_ABORTED
      | AEROSPIKE_ERR_ASYNC_CONNECTION
      | AEROSPIKE_ERR_TLS_ERROR
      | AEROSPIKE_ERR_CLIENT_ABORT
      | AEROSPIKE_ERR_CLIENT
      | AEROSPIKE_NOT_AUTHENTICATED => as_event_release_connection w2.cmd.conn w2
      | _ => as_event_put_connection w2
    as_event_error_callback err w3

/-- The function `as_event_command_parse_header` on the response `msg`. -/
def as_event_command_parse_header (msg : as_msg) (w : World) : Bool × World :=
  if msg.result_code = AEROSPIKE_OK then
    let w1 := as_event_response_complete w
    let w2 := w1.emit (Effect.write_listener none)
    (true, as_event_command_release w2)
  else
    let err := as_error_set_message msg.result_code (as_error_string msg.result_code)
    (true, as_event_response_error err w)

/-- The function `as_event_command_parse_result` on the response `msg`. -/
def as_event_command_parse_result (msg : as_msg) (w : World) : Bool × World :=
  let status := msg.result_code
  match status with
  | AEROSPIKE_OK =>
    let record : as_record :=
      { gen := msg.generation, ttl := w.cf_server_void_time_to_ttl msg.record_ttl, bins := msg.bins }
    let status := msg.bins_status
    if status = AEROSPIKE_OK then
      let w1 := as_event_response_complete w
      let w2 := w1.emit (Effect.record_listener none (some record))
      (true, as_event_command_release w2)
    else
      (true, as_event_response_error msg.bins_err w)
  | AEROSPIKE_ERR_UDF =>
    let err : as_error := { code := status, message := msg.udf_message }
    (true, as_event_response_error err w)
  | _ =>
    let err := as_error_set_message status (as_error_string status)
    (true, as_event_response_error err w)

/-- The function `as_event_command_parse_success_failure` on the response
`msg`. -/
def as_event_command_parse_success_failure (msg : as_msg) (w : World) : Bool × World :=
  let status := msg.result_code
  match status with
  | AEROSPIKE_OK =>
    let status := msg.bins_status
    if status = AEROSPIKE_OK then
      let w1 := as_event_response_complete w
      let w2 := w1.emit (Effect.value_listener none (some msg.val))
      (true, as_event_command_release w2)
    else
      (true, as_event_response_error msg.bins_err w)
  | AEROSPIKE_ERR_UDF =>
    let err : as_error := { code := status, message := msg.udf_message }
    (true, as_event_response_error err w)
  | _ =>
    let err := as_error_set_message status (as_error_string status)
    (true, as_event_response_error err w)

/-- The end of `as_event_command_retry` (lines 509-514), reached when the
retry is not refused: toggle MASTER if `alternate`, then queue
`as_event_command_begin`. -/
def retry_enqueue (alternate : Bool) (w : World) : Bool × World :=
  let w1 :=
    if alternate then
      -- Alternate between master and prole.
      { w with cmd := { w.cmd with flags := { w.cmd.flags with MASTER := ! w.cmd.flags.MASTER } } }
    else w
  -- Retry command at the end of the queue so other commands have a chance to run first.
  as_event_execute as_event_executable.as_event_command_begin w1

/-- The function `as_event_command_retry`. -/
def as_event_command_retry (alternate : Bool) (w : World) : Bool × World :=
  -- Check max retries.
  let w1 := { w with cmd := { w.cmd with iteration := w.cmd.iteration + 1 } }
  if w1.cmd.iteration > w1.cmd.max_retries then
    (false, w1)
  else if w1.cmd.total_deadline > 0 then
    -- Check total timeout.
    let now := w1.now
    if now ≥ w1.cmd.total_deadline then
      (false, w1)
    else if w1.cmd.flags.USING_SOCKET_TIMER then
      let remaining := w1.cmd.total_deadline - now
      if remaining ≤ w1.cmd.socket_timeout then
        -- Transition to total timer.
        let w2 := { w1 with cmd := { w1.cmd with flags := { w1.cmd.flags with USING_SOCKET_TIMER := false } } }
        retry_enqueue alternate (as_event_set_total_timer remaining (as_event_stop_timer w2))
      else
        retry_enqueue alternate (as_event_repeat_socket_timer w1)
    else
      retry_enqueue alternate w1
  else if w1.cmd.flags.USING_SOCKET_TIMER then
    retry_enqueue alternate (as_event_repeat_socket_timer w1)
  else
    retry_enqueue alternate w1

/-- String `node ? as_node_get_address_string(node) : "null"` of the timeout
messages. -/
def node_string (w : World) : String :=
  match w.cmd.node with
  | some n => n.address
  | none => "null"

/-- The error of `as_event_socket_timeout` and `as_event_total_timeout`:
`"Timeout: iterations=%u lastNode=%s"`. -/
def timeout_error (w : World) : as_error :=
  { code := AEROSPIKE_ERR_TIMEOUT,
    message := "Timeout: iterations=" ++ toString w.cmd.iteration ++ " lastNode=" ++ node_string w }

/-- The function `as_event_total_timeout`. -/
def as_event_total_timeout (w : World) : World :=
  if w.cmd.pipe_listener then
    w.emit (Effect.pipe_timeout false)
  else
    let err := timeout_error w
    let w1 := as_event_connection_timeout w
    as_event_error_callback err w1

/-- The function `as_event_socket_timeout`. -/
def as_event_socket_timeout (w : World) : World :=
  if w.cmd.flags.EVENT_RECEIVED then
    -- Event(s) received within socket timeout period.
    let w1 := { w with cmd := { w.cmd with flags := { w.cmd.flags with EVENT_RECEIVED := false } } }
    if w1.cmd.total_deadline > 0 then
      -- Check total timeout.
      let now := w1.now
      if now ≥ w1.cmd.total_deadline then
        let w2 := { w1 with cmd := { w1.cmd with iteration := w1.cmd.iteration + 1 } }
        as_event_total_timeout (as_event_stop_timer w2)
      else
        let remaining := w1.cmd.total_deadline - now
        if remaining ≤ w1.cmd.socket_timeout then
          -- Transition to total timer.
          let w2 := { w1 with cmd := { w1.cmd with flags := { w1.cmd.flags with USING_SOCKET_TIMER := false } } }
          as_event_set_total_timer remaining (as_event_stop_timer w2)
        else
          as_event_repeat_socket_timer w1
    else
      as_event_repeat_socket_timer w1
  else if w.cmd.pipe_listener then
    w.emit (Effect.pipe_timeout true)
  else
    -- Close connection.
    let w1 := as_event_connection_timeout w
    -- Attempt retry.  Read commands shift to prole node on timeout.
    let (ok, w2) := as_event_command_retry w1.cmd.flags.READ w1
    if ! ok then
      let w3 := as_event_stop_timer w2
      let err := timeout_error w3
      as_event_error_callback err w3
    else w2

/-- The loop `while (as_conn_pool_get(pool, &conn))` of
`as_event_command_begin` over the idle connections `queue` of the pool: the
first connection that validates, every one before it being released. -/
def find_connection : List as_async_connection → World → Option as_async_connection × World
  | [], w => (none, w)
  | c :: rest, w =>
    let w1 := w.set_pool { w.pool with queue := rest }
    -- Verify that socket is active and receive buffer is empty.
    if c.validate = 0 then
      (some c, w1)
    else
      find_connection rest (as_event_release_connection (some c) w1)

/-- The function `as_event_command_begin`. -/
def as_event_command_begin (w : World) : World :=
  let selected : World :=
    if w.cmd.partition then
      -- If in retry, need to release node from prior attempt.
      let w1 := release_node_if_any w
      let w2 := w1.emit (Effect.get_node w1.cmd.flags.MASTER w1.shm_info)
      { w2 with cmd := { w2.cmd with node := w2.partition_node w2.cmd.flags.MASTER } }
    else w
  if selected.cmd.partition && selected.cmd.node.isNone then
    let err := as_error_set_message AEROSPIKE_ERR_CLIENT "Cluster is empty"
    let w3 := if selected.cmd.flags.HAS_TIMER then as_event_stop_timer selected else selected
    as_event_error_callback err w3
  else if selected.cmd.pipe_listener then
    selected.emit Effect.pipe_get_connection
  else
    -- Find connection.
    match find_connection selected.pool.queue selected with
    | (some conn, w4) =>
      let w5 := { w4 with cmd := { w4.cmd with conn := some conn },
                          event_loop := { w4.event_loop with errors := 0 } }
      w5.emit (Effect.write_start conn)
    | (none, w4) =>
      -- Create connection structure only when node connection count within queue limit.
      let (ok, pool) := as_conn_pool_inc w4.pool
      if ok then
        let w5 := w4.set_pool pool
        let w6 := { w5 with cmd := { w5.cmd with conn := some { id := 0, validate := 0 } } }
        w6.emit Effect.connect
      else
        let w5 := { w4 with event_loop := { w4.event_loop with errors := w4.event_loop.errors + 1 } }
        let (retried, w6) := as_event_command_retry true w5
        if ! retried then
          let err : as_error :=
            { code := AEROSPIKE_ERR_NO_MORE_CONNECTIONS,
              message := "Max node/event loop " ++ (match w6.cmd.node with | some n => n.name | none => "") ++
                " async connections would be exceeded: " ++ toString w6.pool.limit }
          let w7 := if w6.cmd.flags.HAS_TIMER then as_event_stop_timer w6 else w6
          as_event_error_callback err w7
        else w6

/-- The timer choice of `as_event_command_execute_in_loop` for a command with
a total deadline, `total_timeout` ms away (lines 297-306). -/
def start_timer (total_timeout : Nat) (w : World) : World :=
  if w.cmd.socket_timeout > 0 ∧ w.cmd.socket_timeout < total_timeout then
    -- Use socket timer.
    let w1 := as_event_init_socket_timer w
    { w1 with cmd := { w1.cmd with flags := { w1.cmd.flags with HAS_TIMER := true, USING_SOCKET_TIMER := true } } }
  else
    -- Use total timer.
    let w1 := as_event_init_total_timer total_timeout w
    { w1 with cmd := { w1.cmd with flags := { w1.cmd.flags with HAS_TIMER := true } } }

/-- The function `as_event_command_execute_in_loop`. -/
def as_event_command_execute_in_loop (w : World) : World :=
  let previous := w.pending
  let w1 := { w with pending := w.pending + 1 }
  if previous = -1 then
    let w2 := { w1 with event_loop := { w1.event_loop with errors := w1.event_loop.errors + 1 },
                        cmd := { w1.cmd with state := AS_ASYNC_STATE_COMPLETE } }
    let err := as_error_set_message AEROSPIKE_ERR_CLIENT "Cluster has been closed"
    as_event_error_callback err w2
  else if w1.cmd.total_deadline > 0 then
    let now := w1.now
    if w1.cmd.state = AS_ASYNC_STATE_REGISTERED then
      -- Command was queued to event loop thread.
      if now ≥ w1.cmd.total_deadline then
        -- Command already timed out.
        let w2 := { w1 with event_loop := { w1.event_loop with errors := w1.event_loop.errors + 1 },
                            cmd := { w1.cmd with state := AS_ASYNC_STATE_COMPLETE } }
        let err := as_error_set_message AEROSPIKE_ERR_TIMEOUT "Register timeout"
        as_event_error_callback err w2
      else
        let total_timeout := w1.cmd.total_deadline - now
        -- Start processing.
        as_event_command_begin (start_timer total_timeout w1)
    else
      -- Convert total timeout to deadline.
      let total_timeout := w1.cmd.total_deadline
      let w2 := { w1 with cmd := { w1.cmd with total_deadline := w1.cmd.total_deadline + now } }
      as_event_command_begin (start_timer total_timeout w2)
  else if w1.cmd.socket_timeout > 0 then
    -- Use socket timer.
    let w2 := as_event_init_socket_timer w1
    let w3 := { w2 with cmd := { w2.cmd with flags := { w2.cmd.flags with HAS_TIMER := true, USING_SOCKET_TIMER := true } } }
    as_event_command_begin w3
  else
    as_event_command_begin w1

/-- The function `as_event_command_execute`: the returned status, the error
written to `err` (if any) and the world after the call. -/
def as_event_command_execute (w : World) : as_status × Option as_error × World :=
  -- Initialize read buffer (buf) to be located after write buffer.
  let w1 := { w with cmd := { w.cmd with write_offset := w.cmd.buf, buf := w.cmd.buf + w.cmd.write_len } }
  if w1.event_loop.thread = w1.self ∧ w1.event_loop.errors < 5 then
    -- We are already in event loop thread, so start processing.
    (AEROSPIKE_OK, none, as_event_command_execute_in_loop w1)
  else
    -- Send command through queue so it can be executed in event loop thread.
    let w2 :=
      if w1.cmd.total_deadline > 0 then
        -- Convert total timeout to deadline.
        { w1 with cmd := { w1.cmd with total_deadline := w1.cmd.total_deadline + w1.now } }
      else w1
    let w3 := { w2 with cmd := { w2.cmd with state := AS_ASYNC_STATE_REGISTERED } }
    let (ok, w4) := as_event_execute as_event_executable.as_event_command_execute_in_loop w3
    if ! ok then
      let w5 := { w4 with event_loop := { w4.event_loop with errors := w4.event_loop.errors + 1 } }
      let w6 := release_node_if_any w5
      let w7 := w6.emit Effect.free_command
      (AEROSPIKE_ERR_CLIENT, some (as_error_set_message AEROSPIKE_ERR_CLIENT "Failed to queue command"), w7)
    else
      (AEROSPIKE_OK, none, w4)

/-- The function `as_event_executor_cancel`. -/
def as_event_executor_cancel (queued_count : Int) (w : World) : World :=
  let ex1 := { w.executor with valid := false }
  -- Add tasks that were never queued.
  let ex2 := { ex1 with count := ((ex1.count : Int) + ((ex1.max : Int) - queued_count)).toNat }
  let complete := ex2.count == ex2.max
  let w1 := { w with executor := ex2 }
  if complete then as_event_executor_destroy w1 else w1

/-- The function `as_event_executor_complete`.  The command that it starts,
`executor->commands[next]`, is another command than `cmd`: the call of
`as_event_command_execute` on it is recorded, and `launch` is the error that
this call returns (`none` for `AEROSPIKE_OK`). -/
def as_event_executor_complete (launch : Option as_error) (w : World) : World :=
  let w1 := as_event_response_complete w
  let w2 := { w1 with executor := { w1.executor with count := w1.executor.count + 1 } }
  let complete := w2.executor.count == w2.executor.max
  let next : Int := (w2.executor.count : Int) + (w2.executor.max_concurrent : Int) - 1
  let start_new_command := decide (next < (w2.executor.max : Int)) && w2.executor.valid
  let w3 :=
    if complete then
      -- All commands completed.
      let w4 := if w2.executor.notify then complete_fn w2 else w2
      as_event_executor_destroy w4
    else if start_new_command then
      -- Determine if a new command needs to be started.
      let w4 := w2.emit (Effect.command_execute next)
      match launch with
      | some err => as_event_executor_error err next w4
      | none => w4
    else w2
  as_event_command_release w3

/-- The function `as_event_parse_error`. -/
def as_event_parse_error (err : as_error) (w : World) : World :=
  if w.cmd.pipe_listener then
    w.emit (Effect.pipe_socket_error false)
  else
    -- Close connection.
    let w1 := as_event_stop_watcher w
    let w2 := as_event_release_async_connection w1
    -- Stop timer.
    let w3 := if w2.cmd.flags.HAS_TIMER then as_event_stop_timer w2 else w2
    as_event_error_callback err w3

/-- The function `as_event_socket_error`. -/
def as_event_socket_error (err : as_error) (w : World) : World :=
  if w.cmd.pipe_listener then
    -- Retry pipeline commands.
    w.emit (Effect.pipe_socket_error true)
  else
    -- Connection should already have been closed before calling this function.
    let w1 := if w.cmd.flags.HAS_TIMER then as_event_stop_timer w else w
    as_event_error_callback err w1

/-! ## Reading the trace -/

/-- The calls recorded in the trace, without their times. -/
def World.effects (w : World) : List Effect :=
  w.trace.map Prod.snd

/-- The recorded calls that satisfy `p`, in order. -/
def World.sel (p : Effect → Bool) (w : World) : List Effect :=
  w.effects.filter p

/-- Whether a call is a call of the user listener of a single command. -/
def Effect.is_listener : Effect → Bool
  | Effect.write_listener _ => true
  | Effect.record_listener _ _ => true
  | Effect.value_listener _ _ => true
  | _ => false

/-- Whether a call is `as_event_command_release`. -/
def Effect.is_release : Effect → Bool
  | Effect.command_release => true
  | _ => false

/-- Whether a call is the group callback `complete_fn`. -/
def Effect.is_complete_fn : Effect → Bool
  | Effect.complete_fn _ => true
  | _ => false

/-- Whether a call is `as_event_executor_destroy`. -/
def Effect.is_executor_destroy : Effect → Bool
  | Effect.executor_destroy => true
  | _ => false

/-- Whether a call starts a command of the group. -/
def Effect.is_command_execute : Effect → Bool
  | Effect.command_execute _ => true
  | _ => false

/-- Whether a call arms, re-arms or cancels a timer. -/
def Effect.is_timer : Effect → Bool
  | Effect.init_socket_timer => true
  | Effect.init_total_timer _ => true
  | Effect.set_total_timer _ => true
  | Effect.repeat_socket_timer => true
  | Effect.stop_timer => true
  | _ => false

/-- Whether a call closes a connection or offers it to the pool. -/
def Effect.is_put_or_close : Effect → Bool
  | Effect.release_connection _ => true
  | Effect.pool_put _ _ => true
  | _ => false

/-- Whether a call posts a task to the loop. -/
def Effect.is_enqueue : Effect → Bool
  | Effect.enqueue _ _ => true
  | _ => false

/-- Whether a call frees the command. -/
def Effect.is_free_command : Effect → Bool
  | Effect.free_command => true
  | _ => false

/-- Whether a call is one of the frees made by `as_event_command_release`. -/
def Effect.is_free : Effect → Bool
  | Effect.command_release => true
  | Effect.node_release _ => true
  | Effect.free_buf => true
  | Effect.free_command => true
  | _ => false

/-- Whether a call is one of those made while a response is completed: timer
stop, watcher stop, return or close of the connection. -/
def Effect.is_response : Effect → Bool
  | Effect.stop_timer => true
  | Effect.stop_watcher => true
  | Effect.pool_put _ _ => true
  | Effect.release_connection _ => true
  | _ => false

/-- Whether a call is one of those made by the executor for the whole group. -/
def Effect.is_group : Effect → Bool
  | Effect.complete_fn _ => true
  | Effect.executor_destroy => true
  | _ => false

/-- The listener call by which `as_event_error_callback` hands `err` to the
user of a single command; a command of a group has no listener of its own. -/
def error_listener_call : as_async_type → as_error → List Effect
  | AS_ASYNC_TYPE_WRITE, err => [Effect.write_listener (some err)]
  | AS_ASYNC_TYPE_RECORD, err => [Effect.record_listener (some err) none]
  | AS_ASYNC_TYPE_VALUE, err => [Effect.value_listener (some err) none]
  | AS_ASYNC_TYPE_GROUP, _ => []

/-- The listener calls of the trace, in order. -/
def World.listener_calls (w : World) : List Effect :=
  w.sel Effect.is_listener

/-- The number of `as_event_command_release` calls of the trace. -/
def World.releases (w : World) : Nat :=
  (w.sel Effect.is_release).length

/-- Whether the pool of the command's node takes one more idle connection. -/
def World.pool_accepts (w : World) : Bool :=
  w.cmd.conn.isSome && decide (w.pool.queue.length < w.pool.capacity)

/-! ## Runs -/

/-- Sequence of `as_event_command_retry(cmd, true)` calls, one at each of the
given clock readings; the boolean says whether every call returned true. -/
def retry_alternate_run : List Nat → World → Bool × World
  | [], w => (true, w)
  | t :: ts, w =>
    let (ok, w1) := as_event_command_retry true { w with now := t }
    if ok then retry_alternate_run ts w1 else (false, w1)

/-- Sequence of `as_event_executor_error` calls on one executor, each with its
error and its `queued_count`.  The call that completes the group destroys the
executor, so no call follows it. -/
def executor_error_run : List (as_error × Int) → World → World
  | [], w => w
  | (err, queued_count) :: rest, w =>
    let w1 := as_event_executor_error err queued_count w
    if w1.executor.count = w1.executor.max then w1 else executor_error_run rest w1

/-- How a command of a group terminates: through `as_event_executor_complete`
(with the outcome of the start of the next command, if one is started) or
through `as_event_error_callback`. -/
inductive Termination where
  | complete (cmd : as_event_command) (launch : Option as_error)
  | error (cmd : as_event_command) (err : as_error)

/-- One termination of a command of the group. -/
def terminate (t : Termination) (w : World) : World :=
  match t with
  | Termination.complete cmd launch => as_event_executor_complete launch { w with cmd := cmd }
  | Termination.error cmd err => as_event_error_callback err { w with cmd := cmd }

/-- The terminations of a run, in order. -/
def terminate_all : List Termination → World → World
  | [], w => w
  | t :: ts, w => terminate_all ts (terminate t w)

/-- The index of the command that a recorded start is about. -/
def Effect.started_index : Effect → Option Int
  | Effect.command_execute i => some i
  | _ => none

/-- The indices of the commands started by `as_event_executor_complete`, in
order. -/
def World.started (w : World) : List Int :=
  (w.sel Effect.is_command_execute).filterMap Effect.started_index

/-- Number of commands of the group in flight after `terminated` terminations,
when the first `max_concurrent` commands were started at the beginning. -/
def World.in_flight (w : World) (terminated : Nat) : Nat :=
  w.executor.max_concurrent + w.started.length - terminated

/-- Modelled from the spec: the host reactor in a run in which no I/O event
arrives and timers fire exactly on time.  A queued task runs at once;
otherwise the clock moves to the time at which the armed timer is due and its
callback runs (a total timer fires once, a socket timer is re-armed or
cancelled by its callback); a freed command has nothing left to run. -/
def reactor_step (w : World) : Option World :=
  if (w.sel Effect.is_free_command).length > 0 then none
  else
    match w.event_loop.queue with
    | task :: rest =>
      let w1 := { w with event_loop := { w.event_loop with queue := rest } }
      match task with
      | as_event_executable.as_event_command_execute_in_loop => some (as_event_command_execute_in_loop w1)
      | as_event_executable.as_event_command_begin => some (as_event_command_begin w1)
      | _ => some w1
    | [] =>
      match w.cmd.timer with
      | none => none
      | some t =>
        let w1 := { w with now := max w.now t.due }
        match t.kind with
        | as_timer_kind.socket_timer => some (as_event_socket_timeout w1)
        | as_timer_kind.total_timer =>
          some (as_event_total_timeout { w1 with cmd := { w1.cmd with timer := none } })

/-- At most `fuel` steps of the reactor. -/
def reactor_run : Nat → World → World
  | 0, w => w
  | fuel + 1, w =>
    match reactor_step w with
    | none => w
    | some w1 => reactor_run fuel w1

/-! ## Concrete worlds -/

/-- A node that holds the master replica in the examples. -/
def node_a : as_node := { id := 1, name := "A", address := "10.0.0.1:3000" }

/-- A node that holds the prole replica in the examples. -/
def node_b : as_node := { id := 2, name := "B", address := "10.0.0.2:3000" }

/-- A single-record read with total timeout 100 ms, socket timeout 30 ms and
`max_retries` 2, not yet started, on the calling thread's own loop (thread 7),
with both replicas known and room for connections. -/
def read_world : World :=
  { now := 0, self := 7,
    cmd := { type := AS_ASYNC_TYPE_RECORD, state := AS_ASYNC_STATE_UNREGISTERED,
             flags := { MASTER := true, READ := true, HAS_TIMER := false,
                        USING_SOCKET_TIMER := false, EVENT_RECEIVED := false, FREE_BUF := false },
             total_deadline := 100, socket_timeout := 30, max_retries := 2, iteration := 0,
             partition := true, pipe_listener := false, node := none, conn := none, timer := none,
             buf := 0, write_offset := 0, write_len := 40 },
    event_loop := { thread := 7, index := 0, errors := 0, queue := [], accepting := true },
    pending := 0, shm_info := false,
    partition_node := fun master => if master then some node_a else some node_b,
    cf_server_void_time_to_ttl := fun _ => 3600,
    pools := fun _ => { queue := [], capacity := 10, total := 0, limit := 10 },
    executor := { max_concurrent := 0, max := 0, count := 0, notify := false, valid := false,
                  err := none },
    trace := [] }

/-- The read of `read_world` once its request is written: it holds node A and
a connection and waits for the response. -/
def response_world : World :=
  { read_world with
    cmd := { read_world.cmd with state := AS_ASYNC_STATE_READ, node := some node_a,
                                 conn := some { id := 5, validate := 0 } },
    pending := 1,
    pools := fun _ => { queue := [], capacity := 10, total := 1, limit := 10 } }

/-- A successful response with one bin. -/
def ok_msg : as_msg :=
  { result_code := AEROSPIKE_OK, generation := 3, record_ttl := 100,
    bins_status := AEROSPIKE_OK, bins_err := { code := AEROSPIKE_OK, message := "" },
    bins := [("a", 1)], val := 0, udf_message := "" }

/-- A command of a group (batch, scan, query) that has its response. -/
def group_command : as_event_command :=
  { response_world.cmd with type := AS_ASYNC_TYPE_GROUP }

/-- A group of 10 commands, at most 3 of them running at a time, none of them
terminated yet, whose user wants the final callback. -/
def group_world : World :=
  { response_world with
    cmd := group_command,
    pending := 3,
    executor := { max_concurrent := 3, max := 10, count := 0, notify := true, valid := true,
                  err := none } }

/-- The error with which a command of the group fails. -/
def group_failure : as_error :=
  { code := AEROSPIKE_ERR_SERVER, message := "AEROSPIKE_ERR_SERVER" }

/-- The run of scenario 4: command 0 completes and starts command 3, command 3
fails, commands 1 and 2 complete. -/
def group_run : List Termination :=
  [Termination.complete group_command none,
   Termination.error group_command group_failure,
   Termination.complete group_command none,
   Termination.complete group_command none]

/-! ## The executor's record after a call -/

/-- The executor record that `as_event_executor_error` leaves behind, as a
function of the record it finds (used to state that the call reads nothing
else). -/
def executor_after_error (err : as_error) (queued_count : Int) (ex : as_event_executor) :
    as_event_executor :=
  let count :=
    if queued_count ≥ 0 then ((ex.count : Int) + ((ex.max : Int) - queued_count)).toNat
    else ex.count + 1
  { ex with
    valid := false,
    count := count,
    err :=
      if count = ex.max then
        if ex.notify && ex.valid then none else ex.err
      else if ex.valid then some err else ex.err }

/-- The run of scenario 2: `read_world` is started at t = 0 with
`as_event_command_execute` and the reactor runs until nothing is left to run
(20 steps are more than the run takes). -/
def read_timeout_run : World :=
  reactor_run 20 (as_event_command_execute read_world).2.2

/-! ## Cluster close -/

/-- What `as_event_close_cluster` and its callbacks read and change: the
registry size, the cluster's pending counter of each loop, the number of
close callbacks waiting in each loop's queue, whether each loop takes tasks,
the shared `uint32_t` count of loops still to be closed, whether a monitor was
allocated, the loop variable of the enqueueing `for` of
`as_event_close_cluster`, and the calls of `as_cluster_destroy` and
`as_monitor_notify` made so far. -/
structure CloseWorld where
  as_event_loop_size : Nat
  pending : Nat → Int
  queued : Nat → Nat
  accepting : Nat → Bool
  event_loop_count : Nat
  monitor : Bool
  next : Nat
  destroyed : Nat
  notified : Nat

/-- The primitive `ck_pr_dec_32_zero` on a `uint32_t` counter: the counter
decremented, with wrap-around from 0 to 2^32 - 1, and whether the result is
zero. -/
def ck_pr_dec_32_zero (count : Nat) : Nat × Bool :=
  let result := if count = 0 then 4294967295 else count - 1
  (result, decide (result = 0))

/-- The function `as_event_close_cluster_event_loop` for the state of loop
`i`. -/
def as_event_close_cluster_event_loop (i : Nat) (s : CloseWorld) : CloseWorld :=
  let s1 := { s with pending := Function.update s.pending i (-1) }
  let (count, destroy) := ck_pr_dec_32_zero s1.event_loop_count
  let s2 := { s1 with event_loop_count := count }
  if destroy then
    let s3 := { s2 with destroyed := s2.destroyed + 1 }
    if s3.monitor then { s3 with notified := s3.notified + 1 } else s3
  else s2

/-- The function `as_event_close_cluster_cb` for the state of loop `i`. -/
def as_event_close_cluster_cb (i : Nat) (s : CloseWorld) : CloseWorld :=
  let pending := s.pending i
  if pending < 0 then
    -- Cluster's event loop connections are already closed.
    s
  else if pending > 0 ∧ s.accepting i = true then
    -- Cluster has pending commands.  Check again after all other commands run.
    { s with queued := Function.update s.queued i (s.queued i + 1) }
  else
    as_event_close_cluster_event_loop i s

/-- The start of `as_event_close_cluster` on `size` loops, up to the second
`for`: the monitor is allocated unless the caller is on a loop thread, the
shared count is set to the number of loops. -/
def as_event_close_cluster_begin (size : Nat) (in_event_loop : Bool) (pending : Nat → Int)
    (accepting : Nat → Bool) : CloseWorld :=
  { as_event_loop_size := size, pending := pending, queued := fun _ => 0,
    accepting := accepting, event_loop_count := size, monitor := ! in_event_loop,
    next := 0, destroyed := 0, notified := 0 }

/-- One iteration of the second `for` of `as_event_close_cluster`: the close
callback is posted to loop `next`; a loop that refuses is finalised at once. -/
def as_event_close_cluster_enqueue (s : CloseWorld) : CloseWorld :=
  if s.next < s.as_event_loop_size then
    let i := s.next
    let s1 := { s with next := s.next + 1 }
    if s1.accepting i then
      { s1 with queued := Function.update s1.queued i (s1.queued i + 1) }
    else
      as_event_close_cluster_event_loop i s1
  else s

/-- What can happen next while a cluster is being closed: the closing thread
posts the callback to the next loop; loop `i` takes a close callback from its
queue and runs it; or commands start and finish on loop `i`, which moves an
open loop's pending counter to some value `v ≥ 0` (a closed loop refuses
commands and its counter is back at -1 when the refused command is freed). -/
inductive CloseStep where
  | enqueue
  | callback (i : Nat)
  | commands (i : Nat) (v : Nat)

/-- One step of the closing of a cluster. -/
def close_step (st : CloseStep) (s : CloseWorld) : CloseWorld :=
  match st with
  | CloseStep.enqueue => as_event_close_cluster_enqueue s
  | CloseStep.callback i =>
    if i < s.as_event_loop_size ∧ 0 < s.queued i then
      as_event_close_cluster_cb i { s with queued := Function.update s.queued i (s.queued i - 1) }
    else s
  | CloseStep.commands i v =>
    if s.pending i < 0 then s
    else { s with pending := Function.update s.pending i (v : Int) }

/-- An interleaving: the steps in the order in which they happen. -/
def close_run : List CloseStep → CloseWorld → CloseWorld
  | [], s => s
  | st :: rest, s => close_run rest (close_step st s)

/-- The number of loops among the first `n` whose pending counter is not -1. -/
def open_loops (pending : Nat → Int) : Nat → Nat
  | 0 => 0
  | n + 1 => open_loops pending n + (if pending n = -1 then 0 else 1)

/-- The invariant of the closing of a cluster with `size` loops: a loop is
either finalised (pending -1, nothing queued, its callback was posted) or open
(pending ≥ 0, one callback queued once it was posted, none before); the shared
count is the number of open loops; `as_cluster_destroy` and the monitor's
notification have happened exactly if that count is zero. -/
def close_invariant (size : Nat) (s : CloseWorld) : Prop :=
  s.as_event_loop_size = size ∧
  (∀ i, s.accepting i = true) ∧
  s.next ≤ size ∧
  (∀ i, i < size →
    (s.pending i = -1 ∧ s.queued i = 0 ∧ i < s.next) ∨
    (0 ≤ s.pending i ∧ s.queued i = (if i < s.next then 1 else 0))) ∧
  s.event_loop_count = open_loops s.pending size ∧
  s.destroyed = (if s.event_loop_count = 0 then 1 else 0) ∧
  s.notified = (if s.monitor = true ∧ s.event_loop_count = 0 then 1 else 0)

/-- Scenario 5: two loops, the cluster is closed from loop 0 while loop 1 has
two commands pending.  Both callbacks are posted, loop 0 finalises, loop 1
re-queues its callback twice while its two commands finish, then finalises. -/
def close_scenario : List CloseStep :=
  [CloseStep.enqueue, CloseStep.enqueue, CloseStep.callback 0, CloseStep.callback 1,
   CloseStep.commands 1 1, CloseStep.callback 1, CloseStep.commands 1 0, CloseStep.callback 1]

/-! ## The statuses that `as_error_string` names -/

/-- The statuses listed in the `switch` of `as_error_string`, in the order of
the source. -/
def listed_statuses : List as_status :=
  [AEROSPIKE_OK, AEROSPIKE_QUERY_END, AEROSPIKE_ERR_CONNECTION, AEROSPIKE_ERR_TLS_ERROR,
   AEROSPIKE_ERR_INVALID_NODE, AEROSPIKE_ERR_NO_MORE_CONNECTIONS, AEROSPIKE_ERR_ASYNC_CONNECTION,
   AEROSPIKE_ERR_CLIENT_ABORT, AEROSPIKE_ERR_INVALID_HOST, AEROSPIKE_NO_MORE_RECORDS,
   AEROSPIKE_ERR_PARAM, AEROSPIKE_ERR_CLIENT, AEROSPIKE_ERR_SERVER,
   AEROSPIKE_ERR_RECORD_NOT_FOUND, AEROSPIKE_ERR_RECORD_GENERATION,
   AEROSPIKE_ERR_REQUEST_INVALID, AEROSPIKE_ERR_RECORD_EXISTS, AEROSPIKE_ERR_BIN_EXISTS,
   AEROSPIKE_ERR_CLUSTER_CHANGE, AEROSPIKE_ERR_SERVER_FULL, AEROSPIKE_ERR_TIMEOUT,
   AEROSPIKE_ERR_ALWAYS_FORBIDDEN, AEROSPIKE_ERR_CLUSTER, AEROSPIKE_ERR_BIN_INCOMPATIBLE_TYPE,
   AEROSPIKE_ERR_RECORD_TOO_BIG, AEROSPIKE_ERR_RECORD_BUSY, AEROSPIKE_ERR_SCAN_ABORTED,
   AEROSPIKE_ERR_UNSUPPORTED_FEATURE, AEROSPIKE_ERR_BIN_NOT_FOUND,
   AEROSPIKE_ERR_DEVICE_OVERLOAD, AEROSPIKE_ERR_RECORD_KEY_MISMATCH,
   AEROSPIKE_ERR_NAMESPACE_NOT_FOUND, AEROSPIKE_ERR_BIN_NAME, AEROSPIKE_ERR_FAIL_FORBIDDEN,
   AEROSPIKE_SECURITY_NOT_SUPPORTED, AEROSPIKE_SECURITY_NOT_ENABLED,
   AEROSPIKE_SECURITY_SCHEME_NOT_SUPPORTED, AEROSPIKE_INVALID_COMMAND, AEROSPIKE_INVALID_FIELD,
   AEROSPIKE_ILLEGAL_STATE, AEROSPIKE_INVALID_USER, AEROSPIKE_USER_ALREADY_EXISTS,
   AEROSPIKE_INVALID_PASSWORD, AEROSPIKE_EXPIRED_PASSWORD, AEROSPIKE_FORBIDDEN_PASSWORD,
   AEROSPIKE_INVALID_CREDENTIAL, AEROSPIKE_INVALID_ROLE, AEROSPIKE_ROLE_ALREADY_EXISTS,
   AEROSPIKE_INVALID_PRIVILEGE, AEROSPIKE_NOT_AUTHENTICATED, AEROSPIKE_ROLE_VIOLATION,
   AEROSPIKE_ERR_UDF, AEROSPIKE_ERR_LARGE_ITEM_NOT_FOUND, AEROSPIKE_ERR_BATCH_DISABLED,
   AEROSPIKE_ERR_BATCH_MAX_REQUESTS_EXCEEDED, AEROSPIKE_ERR_BATCH_QUEUES_FULL,
   AEROSPIKE_ERR_INDEX_FOUND, AEROSPIKE_ERR_INDEX_NOT_FOUND, AEROSPIKE_ERR_INDEX_OOM,
   AEROSPIKE_ERR_INDEX_NOT_READABLE, AEROSPIKE_ERR_INDEX, AEROSPIKE_ERR_INDEX_NAME_MAXLEN,
   AEROSPIKE_ERR_INDEX_MAXCOUNT, AEROSPIKE_ERR_QUERY_ABORTED, AEROSPIKE_ERR_QUERY_QUEUE_FULL,
   AEROSPIKE_ERR_QUERY_TIMEOUT, AEROSPIKE_ERR_QUERY]

/-- The identifiers of the listed statuses as they are spelled in the source,
in the same order. -/
def listed_identifiers : List String :=
  ["AEROSPIKE_OK", "AEROSPIKE_QUERY_END", "AEROSPIKE_ERR_CONNECTION", "AEROSPIKE_ERR_TLS_ERROR",
   "AEROSPIKE_ERR_INVALID_NODE", "AEROSPIKE_ERR_NO_MORE_CONNECTIONS",
   "AEROSPIKE_ERR_ASYNC_CONNECTION", "AEROSPIKE_ERR_CLIENT_ABORT", "AEROSPIKE_ERR_INVALID_HOST",
   "AEROSPIKE_NO_MORE_RECORDS", "AEROSPIKE_ERR_PARAM", "AEROSPIKE_ERR_CLIENT",
   "AEROSPIKE_ERR_SERVER", "AEROSPIKE_ERR_RECORD_NOT_FOUND", "AEROSPIKE_ERR_RECORD_GENERATION",
   "AEROSPIKE_ERR_REQUEST_INVALID", "AEROSPIKE_ERR_RECORD_EXISTS", "AEROSPIKE_ERR_BIN_EXISTS",
   "AEROSPIKE_ERR_CLUSTER_CHANGE", "AEROSPIKE_ERR_SERVER_FULL", "AEROSPIKE_ERR_TIMEOUT",
   "AEROSPIKE_ERR_ALWAYS_FORBIDDEN", "AEROSPIKE_ERR_CLUSTER",
   "AEROSPIKE_ERR_BIN_INCOMPATIBLE_TYPE", "AEROSPIKE_ERR_RECORD_TOO_BIG",
   "AEROSPIKE_ERR_RECORD_BUSY", "AEROSPIKE_ERR_SCAN_ABORTED",
   "AEROSPIKE_ERR_UNSUPPORTED_FEATURE", "AEROSPIKE_ERR_BIN_NOT_FOUND",
   "AEROSPIKE_ERR_DEVICE_OVERLOAD", "AEROSPIKE_ERR_RECORD_KEY_MISMATCH",
   "AEROSPIKE_ERR_NAMESPACE_NOT_FOUND", "AEROSPIKE_ERR_BIN_NAME", "AEROSPIKE_ERR_FAIL_FORBIDDEN",
   "AEROSPIKE_SECURITY_NOT_SUPPORTED", "AEROSPIKE_SECURITY_NOT_ENABLED",
   "AEROSPIKE_SECURITY_SCHEME_NOT_SUPPORTED", "AEROSPIKE_INVALID_COMMAND",
   "AEROSPIKE_INVALID_FIELD", "AEROSPIKE_ILLEGAL_STATE", "AEROSPIKE_INVALID_USER",
   "AEROSPIKE_USER_ALREADY_EXISTS", "AEROSPIKE_INVALID_PASSWORD", "AEROSPIKE_EXPIRED_PASSWORD",
   "AEROSPIKE_FORBIDDEN_PASSWORD", "AEROSPIKE_INVALID_CREDENTIAL", "AEROSPIKE_INVALID_ROLE",
   "AEROSPIKE_ROLE_ALREADY_EXISTS", "AEROSPIKE_INVALID_PRIVILEGE", "AEROSPIKE_NOT_AUTHENTICATED",
   "AEROSPIKE_ROLE_VIOLATION", "AEROSPIKE_ERR_UDF", "AEROSPIKE_ERR_LARGE_ITEM_NOT_FOUND",
   "AEROSPIKE_ERR_BATCH_DISABLED", "AEROSPIKE_ERR_BATCH_MAX_REQUESTS_EXCEEDED",
   "AEROSPIKE_ERR_BATCH_QUEUES_FULL", "AEROSPIKE_ERR_INDEX_FOUND",
   "AEROSPIKE_ERR_INDEX_NOT_FOUND", "AEROSPIKE_ERR_INDEX_OOM",
   "AEROSPIKE_ERR_INDEX_NOT_READABLE", "AEROSPIKE_ERR_INDEX", "AEROSPIKE_ERR_INDEX_NAME_MAXLEN",
   "AEROSPIKE_ERR_INDEX_MAXCOUNT", "AEROSPIKE_ERR_QUERY_ABORTED",
   "AEROSPIKE_ERR_QUERY_QUEUE_FULL", "AEROSPIKE_ERR_QUERY_TIMEOUT", "AEROSPIKE_ERR_QUERY"]

/-! ## Timer choice at in-loop start -/

/-- The time that remains to the total deadline when a command with a total
timeout starts in its loop: for a command that was queued, `total_deadline` is
already absolute and the remainder is `total_deadline - now`; for a command
started inline it still holds the timeout itself. -/
def time_to_deadline (w : World) : Nat :=
  if w.cmd.state = AS_ASYNC_STATE_REGISTERED then w.cmd.total_deadline - w.now
  else w.cmd.total_deadline

/-- The read of `read_world` with a socket timeout of 30 ms and no total
timeout. -/
def socket_only_world : World :=
  { read_world with cmd := { read_world.cmd with total_deadline := 0 } }

/-- The read of `read_world` with no timeout at all. -/
def untimed_world : World :=
  { read_world with cmd := { read_world.cmd with total_deadline := 0, socket_timeout := 0 } }

/-- The read of `response_world` at t = 30 ms, its socket timer running and a
read event received since the timer was armed. -/
def event_world : World :=
  { response_world with
    now := 30,
    cmd := { response_world.cmd with
             flags := { MASTER := true, READ := true, HAS_TIMER := true,
                        USING_SOCKET_TIMER := true, EVENT_RECEIVED := true, FREE_BUF := false },
             timer := some { kind := as_timer_kind.socket_timer, due := 30 } } }

/-! ## Repeated firing of the socket timer -/

/-- The `j`-th firing of the socket timer of a command started at time 0, when
the timer fires exactly every `socket_timeout` ms and a read event arrived
since the previous firing: the clock reads `j * socket_timeout`,
EVENT_RECEIVED is set, and `as_event_socket_timeout` runs. -/
def socket_timer_firing (j : Nat) (w : World) : World :=
  as_event_socket_timeout
    { w with now := j * w.cmd.socket_timeout,
             cmd := { w.cmd with flags := { w.cmd.flags with EVENT_RECEIVED := true } } }

/-- The firings 1, ..., `n` of the socket timer, in order. -/
def socket_timer_firings : Nat → World → World
  | 0, w => w
  | n + 1, w => socket_timer_firing (n + 1) (socket_timer_firings n w)


/-! ## The operations on the pending counter of one loop -/

/-- An element of the array `as_event_loops`, as far as the registry
functions go: the reactor handle `loop` (0 is the null handle), the owning
thread, the index, the error count, and the index of the element that `next`
points to (`none` is the null pointer of a zeroed element). -/
structure as_event_loop_slot where
  loop : Nat
  thread : Nat
  index : Nat
  errors : Nat
  next : Option Nat
  deriving DecidableEq, Repr

/-- The globals of the registry: the array `as_event_loops` (its length is the
number of elements allocated; the empty list is the null pointer), and the
`uint32_t` counters `as_event_loop_capacity` and `as_event_loop_size`. -/
structure Registry where
  as_event_loops : List as_event_loop_slot
  as_event_loop_capacity : Nat
  as_event_loop_size : Nat
  as_event_threads_created : Bool
  deriving DecidableEq, Repr

/-- The globals at program start. -/
def registry_at_start : Registry :=
  { as_event_loops := [], as_event_loop_capacity := 0, as_event_loop_size := 0,
    as_event_threads_created := false }

/-- The function `as_event_initialize_loops`, the allocation succeeding: the
array is `cf_calloc(capacity, ...)`, all zero, and the first element points to
itself. -/
def as_event_initialize_loops (capacity : Nat) (r : Registry) : Bool × Registry :=
  if capacity = 0 then (false, r)
  else
    let zeroed : as_event_loop_slot := { loop := 0, thread := 0, index := 0, errors := 0, next := none }
    let loops := (List.replicate capacity zeroed).modify (fun s => { s with next := some 0 }) 0
    (true, { r with as_event_loops := loops, as_event_loop_capacity := capacity })

/-- The function `as_event_set_external_loop_capacity`. -/
def as_event_set_external_loop_capacity (capacity : Nat) (r : Registry) : Bool × Registry :=
  match as_event_initialize_loops capacity r with
  | (false, r1) => (false, r1)
  | (true, r1) => (true, { r1 with as_event_threads_created := false })

/-- The primitive `ck_pr_faa_32(&x, 1)` on a `uint32_t`: the old value and the
value incremented, with wrap-around from 2^32 - 1 to 0. -/
def ck_pr_faa_32_one (x : Nat) : Nat × Nat :=
  (x, if x = 4294967295 then 0 else x + 1)

/-- The function `as_event_set_external_loop` called with the reactor handle
`loop` on the thread `self`: the index of the element returned (`none` is the
null pointer) and the registry after the call. -/
def as_event_set_external_loop (loop self : Nat) (r : Registry) : Option Nat × Registry :=
  let (current, size) := ck_pr_faa_32_one r.as_event_loop_size
  let r1 := { r with as_event_loop_size := size }
  if current ≥ r1.as_event_loop_capacity then
    (none, r1)
  else
    let loops := r1.as_event_loops.modify
      (fun s => { s with loop := loop, thread := self, index := current, errors := 0 }) current
    let loops :=
      if current > 0 then
        -- This loop points to first loop to create circular round-robin linked list.
        let linked := loops.modify (fun s => { s with next := some 0 }) current
        -- Adjust previous loop to point to this loop.
        linked.modify (fun s => { s with next := some current }) (current - 1)
      else loops
    (some current, { r1 with as_event_loops := loops })

/-- What a walk over the array `as_event_loops` comes to: the index of the
element found, the null pointer, or a read of `as_event_loops[index]` past the
end of the allocated array. -/
inductive Lookup where
  | found (index : Nat)
  | null
  | outside (index : Nat)
  deriving DecidableEq, Repr

/-- The `for` loop of `as_event_loop_find` from index `i`, with `n` indices
left before `as_event_loop_size`. -/
def loop_find_from (loop : Nat) (r : Registry) : Nat → Nat → Lookup
  | 0, _ => Lookup.null
  | n + 1, i =>
    match r.as_event_loops.get? i with
    | none => Lookup.outside i
    | some event_loop =>
      if event_loop.loop = loop then Lookup.found i else loop_find_from loop r n (i + 1)

/-- The function `as_event_loop_find`. -/
def as_event_loop_find (loop : Nat) (r : Registry) : Lookup :=
  loop_find_from loop r r.as_event_loop_size 0

/-- The registry invariant: the size is at most the capacity, which is the
number of elements allocated. -/
def registry_invariant (r : Registry) : Prop :=
  r.as_event_loop_size ≤ r.as_event_loop_capacity ∧
  r.as_event_loops.length = r.as_event_loop_capacity

/-- A registry of capacity 1 with the external loop 7 registered from thread
1: it is full. -/
def full_registry : Registry :=
  (as_event_set_external_loop 7 1 (as_event_set_external_loop_capacity 1 registry_at_start).2).2

@[simp] theorem emit_trace (w : World) (e : Effect) : (w.emit e).trace = w.trace ++ [(w.now, e)] := rfl
@[simp] theorem emit_now (w : World) (e : Effect) : (w.emit e).now = w.now := rfl
@[simp] theorem emit_self (w : World) (e : Effect) : (w.emit e).self = w.self := rfl
@[simp] theorem emit_cmd (w : World) (e : Effect) : (w.emit e).cmd = w.cmd := rfl
@[simp] theorem emit_event_loop (w : World) (e : Effect) : (w.emit e).event_loop = w.event_loop := rfl
@[simp] theorem emit_pending (w : World) (e : Effect) : (w.emit e).pending = w.pending := rfl
@[simp] theorem emit_shm_info (w : World) (e : Effect) : (w.emit e).shm_info = w.shm_info := rfl
@[simp] theorem emit_partition_node (w : World) (e : Effect) :
    (w.emit e).partition_node = w.partition_node := rfl
@[simp] theorem emit_cf_server_void_time_to_ttl (w : World) (e : Effect) :
    (w.emit e).cf_server_void_time_to_ttl = w.cf_server_void_time_to_ttl := rfl
@[simp] theorem emit_pools (w : World) (e : Effect) : (w.emit e).pools = w.pools := rfl
@[simp] theorem emit_executor (w : World) (e : Effect) : (w.emit e).executor = w.executor := rfl

@[simp] theorem set_pool_trace (w : World) (p : as_conn_pool) : (w.set_pool p).trace = w.trace := rfl
@[simp] theorem set_pool_now (w : World) (p : as_conn_pool) : (w.set_pool p).now = w.now := rfl
@[simp] theorem set_pool_self (w : World) (p : as_conn_pool) : (w.set_pool p).self = w.self := rfl
@[simp] theorem set_pool_cmd (w : World) (p : as_conn_pool) : (w.set_pool p).cmd = w.cmd := rfl
@[simp] theorem set_pool_event_loop (w : World) (p : as_conn_pool) :
    (w.set_pool p).event_loop = w.event_loop := rfl
@[simp] theorem set_pool_pending (w : World) (p : as_conn_pool) : (w.set_pool p).pending = w.pending := rfl
@[simp] theorem set_pool_shm_info (w : World) (p : as_conn_pool) : (w.set_pool p).shm_info = w.shm_info := rfl
@[simp] theorem set_pool_partition_node (w : World) (p : as_conn_pool) :
    (w.set_pool p).partition_node = w.partition_node := rfl
@[simp] theorem set_pool_cf_server_void_time_to_ttl (w : World) (p : as_conn_pool) :
    (w.set_pool p).cf_server_void_time_to_ttl = w.cf_server_void_time_to_ttl := rfl
@[simp] theorem set_pool_executor (w : World) (p : as_conn_pool) : (w.set_pool p).executor = w.executor := rfl


/-! ## Shared lemmas on the terminal steps -/


theorem release_sel (p : Effect → Bool) (hp : ∀ e, e.is_free = true → p e = false) (w : World) :
    ((as_event_command_release w).trace.map Prod.snd).filter p = (w.trace.map Prod.snd).filter p := by
  have h1 := hp Effect.command_release rfl
  have h2 := hp Effect.free_buf rfl
  have h3 := hp Effect.free_command rfl
  have h4 : ∀ n, p (Effect.node_release n) = false := fun n => hp _ rfl
  cases hn : w.cmd.node <;> cases hf : w.cmd.flags.FREE_BUF <;>
    simp [as_event_command_release, as_event_command_free, release_node_if_any, hn, hf, h1, h2, h3, h4]

theorem release_releases (w : World) :
    (as_event_command_release w).releases = w.releases + 1 := by
  cases hn : w.cmd.node <;> cases hf : w.cmd.flags.FREE_BUF <;>
    simp [as_event_command_release, as_event_command_free, release_node_if_any,
      World.releases, World.sel, World.effects, hn, hf, Effect.is_release]

theorem release_cmd (w : World) : (as_event_command_release w).cmd = w.cmd := by
  cases hn : w.cmd.node <;> cases hf : w.cmd.flags.FREE_BUF <;>
    simp [as_event_command_release, as_event_command_free, release_node_if_any, hn, hf]

theorem release_executor (w : World) : (as_event_command_release w).executor = w.executor := by
  cases hn : w.cmd.node <;> cases hf : w.cmd.flags.FREE_BUF <;>
    simp [as_event_command_release, as_event_command_free, release_node_if_any, hn, hf]

theorem release_event_loop (w : World) : (as_event_command_release w).event_loop = w.event_loop := by
  cases hn : w.cmd.node <;> cases hf : w.cmd.flags.FREE_BUF <;>
    simp [as_event_command_release, as_event_command_free, release_node_if_any, hn, hf]

theorem put_connection_sel (p : Effect → Bool) (hp : ∀ e, e.is_response = true → p e = false)
    (w : World) :
    ((as_event_put_connection w).trace.map Prod.snd).filter p = (w.trace.map Prod.snd).filter p := by
  have h1 : ∀ c b, p (Effect.pool_put c b) = false := fun c b => hp _ rfl
  have h2 : ∀ c, p (Effect.release_connection c) = false := fun c => hp _ rfl
  cases hc : w.cmd.conn <;> by_cases hq : w.pool.queue.length < w.pool.capacity <;>
    simp [as_event_put_connection, as_conn_pool_put, as_event_release_connection, hc, hq, h1, h2]

theorem put_connection_cmd (w : World) : (as_event_put_connection w).cmd = w.cmd := by
  cases hc : w.cmd.conn <;> by_cases hq : w.pool.queue.length < w.pool.capacity <;>
    simp [as_event_put_connection, as_conn_pool_put, as_event_release_connection, hc, hq]

theorem put_connection_executor (w : World) :
    (as_event_put_connection w).executor = w.executor := by
  cases hc : w.cmd.conn <;> by_cases hq : w.pool.queue.length < w.pool.capacity <;>
    simp [as_event_put_connection, as_conn_pool_put, as_event_release_connection, hc, hq]

theorem response_complete_sel (p : Effect → Bool) (hp : ∀ e, e.is_response = true → p e = false)
    (w : World) (hpipe : w.cmd.pipe_listener = false) :
    ((as_event_response_complete w).trace.map Prod.snd).filter p = (w.trace.map Prod.snd).filter p := by
  have h1 := hp Effect.stop_timer rfl
  have h2 := hp Effect.stop_watcher rfl
  cases ht : w.cmd.flags.HAS_TIMER <;>
    simp [as_event_response_complete, hpipe, ht, put_connection_sel p hp, as_event_stop_watcher,
      as_event_stop_timer, h1, h2]

theorem response_complete_type (w : World) :
    (as_event_response_complete w).cmd.type = w.cmd.type := by
  cases hpipe : w.cmd.pipe_listener <;> cases ht : w.cmd.flags.HAS_TIMER <;>
    simp [as_event_response_complete, hpipe, ht, put_connection_cmd, as_event_stop_watcher,
      as_event_stop_timer]

theorem response_complete_executor (w : World) :
    (as_event_response_complete w).executor = w.executor := by
  cases hpipe : w.cmd.pipe_listener <;> cases ht : w.cmd.flags.HAS_TIMER <;>
    simp [as_event_response_complete, hpipe, ht, put_connection_executor, as_event_stop_watcher,
      as_event_stop_timer]

theorem executor_error_sel (p : Effect → Bool) (hp : ∀ e, e.is_group = true → p e = false)
    (err : as_error) (q : Int) (w : World) :
    ((as_event_executor_error err q w).trace.map Prod.snd).filter p =
      (w.trace.map Prod.snd).filter p := by
  have h1 : ∀ x, p (Effect.complete_fn x) = false := fun x => hp _ rfl
  have h2 := hp Effect.executor_destroy rfl
  unfold as_event_executor_error
  simp only []
  split_ifs <;> simp [as_event_executor_destroy, complete_fn, h1, h2]

theorem executor_error_cmd (err : as_error) (q : Int) (w : World) :
    (as_event_executor_error err q w).cmd = w.cmd := by
  unfold as_event_executor_error
  simp only []
  split_ifs <;> simp [as_event_executor_destroy, complete_fn]

theorem error_callback_listener_calls (err : as_error) (w : World) :
    (as_event_error_callback err w).listener_calls =
      w.listener_calls ++ error_listener_call w.cmd.type err := by
  have hf : ∀ e, e.is_free = true → Effect.is_listener e = false := by
    intro e; cases e <;> simp [Effect.is_free, Effect.is_listener]
  have hg : ∀ e, e.is_group = true → Effect.is_listener e = false := by
    intro e; cases e <;> simp [Effect.is_group, Effect.is_listener]
  unfold as_event_error_callback World.listener_calls World.sel World.effects
  cases ht : w.cmd.type <;>
    simp [release_sel _ hf, executor_error_sel _ hg, error_listener_call, Effect.is_listener]

theorem error_callback_releases (err : as_error) (w : World) :
    (as_event_error_callback err w).releases = w.releases + 1 := by
  have hg : ∀ e, e.is_group = true → Effect.is_release e = false := by
    intro e; cases e <;> simp [Effect.is_group, Effect.is_release]
  unfold as_event_error_callback
  rw [release_releases]
  cases ht : w.cmd.type <;>
    simp [World.releases, World.sel, World.effects, executor_error_sel _ hg, Effect.is_release]

theorem response_error_quiet (p : Effect → Bool) (hp : ∀ e, e.is_response = true → p e = false)
    (err : as_error) (w : World) (hpipe : w.cmd.pipe_listener = false) :
    ∃ w1 : World, as_event_response_error err w = as_event_error_callback err w1 ∧
      (w1.trace.map Prod.snd).filter p = (w.trace.map Prod.snd).filter p ∧
      w1.cmd.type = w.cmd.type ∧ w1.executor = w.executor := by
  have h1 := hp Effect.stop_timer rfl
  have h2 := hp Effect.stop_watcher rfl
  have h3 : ∀ c, p (Effect.release_connection c) = false := fun c => hp _ rfl
  unfold as_event_response_error
  rw [if_neg (by simp [hpipe])]
  simp only []
  refine ⟨_, rfl, ?_, ?_, ?_⟩
  · split <;> cases ht : w.cmd.flags.HAS_TIMER <;>
      simp [put_connection_sel p hp, as_event_release_connection, as_event_stop_watcher,
        as_event_stop_timer, h1, h2, h3]
  · split <;> cases ht : w.cmd.flags.HAS_TIMER <;>
      simp [put_connection_cmd, as_event_release_connection, as_event_stop_watcher,
        as_event_stop_timer]
  · split <;> cases ht : w.cmd.flags.HAS_TIMER <;>
      simp [put_connection_executor, as_event_release_connection, as_event_stop_watcher,
        as_event_stop_timer]

theorem response_error_listener_calls (err : as_error) (w : World)
    (hpipe : w.cmd.pipe_listener = false) :
    (as_event_response_error err w).listener_calls =
      w.listener_calls ++ error_listener_call w.cmd.type err := by
  obtain ⟨w1, h, hs, ht, _⟩ := response_error_quiet Effect.is_listener
    (by intro e; cases e <;> simp [Effect.is_response, Effect.is_listener]) err w hpipe
  rw [h, error_callback_listener_calls, ht]
  unfold World.listener_calls World.sel World.effects
  rw [hs]

theorem response_error_releases (err : as_error) (w : World)
    (hpipe : w.cmd.pipe_listener = false) :
    (as_event_response_error err w).releases = w.releases + 1 := by
  obtain ⟨w1, h, hs, _, _⟩ := response_error_quiet Effect.is_release
    (by intro e; cases e <;> simp [Effect.is_response, Effect.is_release]) err w hpipe
  rw [h, error_callback_releases]
  unfold World.releases World.sel World.effects
  rw [hs]

theorem response_complete_listener_calls (w : World) (hpipe : w.cmd.pipe_listener = false) :
    (as_event_response_complete w).listener_calls = w.listener_calls := by
  unfold World.listener_calls World.sel World.effects
  exact response_complete_sel _
    (by intro e; cases e <;> simp [Effect.is_response, Effect.is_listener]) w hpipe

theorem response_complete_releases (w : World) (hpipe : w.cmd.pipe_listener = false) :
    (as_event_response_complete w).releases = w.releases := by
  unfold World.releases World.sel World.effects
  rw [response_complete_sel _
    (by intro e; cases e <;> simp [Effect.is_response, Effect.is_release]) w hpipe]

/-- The success path shared by the three parsers: response completed, listener
called with `e`, command released. -/
theorem success_path (w : World) (e : Effect) (he : e.is_listener = true)
    (hpipe : w.cmd.pipe_listener = false) :
    (as_event_command_release ((as_event_response_complete w).emit e)).listener_calls =
        w.listener_calls ++ [e] ∧
    (as_event_command_release ((as_event_response_complete w).emit e)).releases = w.releases + 1 := by
  have hf : ∀ e, e.is_free = true → Effect.is_listener e = false := by
    intro e; cases e <;> simp [Effect.is_free, Effect.is_listener]
  have hr : e.is_release = false := by cases e <;> simp_all [Effect.is_listener, Effect.is_release]
  constructor
  · have h := response_complete_listener_calls w hpipe
    unfold World.listener_calls World.sel World.effects at h ⊢
    rw [release_sel _ hf]
    simp [h, he]
  · rw [release_releases]
    have h := response_complete_releases w hpipe
    unfold World.releases World.sel World.effects at h ⊢
    simp [hr]
    simpa using h

/-- The error that the record and value parsers hand to
`as_event_response_error` for a result code other than `AEROSPIKE_OK`. -/
theorem parse_result_not_ok (msg : as_msg) (w : World) (hc : msg.result_code ≠ AEROSPIKE_OK) :
    ∃ err : as_error,
      as_event_command_parse_result msg w = (true, as_event_response_error err w) ∧
      as_event_command_parse_success_failure msg w = (true, as_event_response_error err w) := by
  unfold as_event_command_parse_result as_event_command_parse_success_failure
  cases h : msg.result_code <;> first | exact absurd h hc | exact ⟨_, rfl, rfl⟩

theorem parse_result_ok (msg : as_msg) (w : World) (hc : msg.result_code = AEROSPIKE_OK) :
    as_event_command_parse_result msg w =
      (if msg.bins_status = AEROSPIKE_OK then
        (true, as_event_command_release ((as_event_response_complete w).emit
          (Effect.record_listener none
            (some { gen := msg.generation, ttl := w.cf_server_void_time_to_ttl msg.record_ttl,
                    bins := msg.bins }))))
      else (true, as_event_response_error msg.bins_err w)) := by
  unfold as_event_command_parse_result
  simp only [hc]

theorem parse_success_failure_ok (msg : as_msg) (w : World) (hc : msg.result_code = AEROSPIKE_OK) :
    as_event_command_parse_success_failure msg w =
      (if msg.bins_status = AEROSPIKE_OK then
        (true, as_event_command_release ((as_event_response_complete w).emit
          (Effect.value_listener none (some msg.val))))
      else (true, as_event_response_error msg.bins_err w)) := by
  unfold as_event_command_parse_success_failure
  simp only [hc]

/-! ## C1 -/

/-- C1: for a non-pipelined command whose type matches the parser, one call of
`as_event_command_parse_header` (WRITE), `as_event_command_parse_result`
(RECORD) or `as_event_command_parse_success_failure` (VALUE) returns true,
releases the command exactly once and calls the listener exactly once: with a
null error exactly when the result code is `AEROSPIKE_OK` and (for the two
parsers that parse bins) the bins parsed, otherwise with an error and no
record or value. -/
theorem parsers_invoke_listener_exactly_once (msg : as_msg) (w : World)
    (hpipe : w.cmd.pipe_listener = false) :
    (w.cmd.type = AS_ASYNC_TYPE_WRITE →
      (as_event_command_parse_header msg w).1 = true ∧
      (as_event_command_parse_header msg w).2.releases = w.releases + 1 ∧
      ∃ err : Option as_error,
        (as_event_command_parse_header msg w).2.listener_calls =
          w.listener_calls ++ [Effect.write_listener err] ∧
        (err = none ↔ msg.result_code = AEROSPIKE_OK)) ∧
    (w.cmd.type = AS_ASYNC_TYPE_RECORD →
      (as_event_command_parse_result msg w).1 = true ∧
      (as_event_command_parse_result msg w).2.releases = w.releases + 1 ∧
      ∃ (err : Option as_error) (record : Option as_record),
        (as_event_command_parse_result msg w).2.listener_calls =
          w.listener_calls ++ [Effect.record_listener err record] ∧
        (err = none ↔ msg.result_code = AEROSPIKE_OK ∧ msg.bins_status = AEROSPIKE_OK) ∧
        (err ≠ none → record = none)) ∧
    (w.cmd.type = AS_ASYNC_TYPE_VALUE →
      (as_event_command_parse_success_failure msg w).1 = true ∧
      (as_event_command_parse_success_failure msg w).2.releases = w.releases + 1 ∧
      ∃ (err : Option as_error) (val : Option Int),
        (as_event_command_parse_success_failure msg w).2.listener_calls =
          w.listener_calls ++ [Effect.value_listener err val] ∧
        (err = none ↔ msg.result_code = AEROSPIKE_OK ∧ msg.bins_status = AEROSPIKE_OK) ∧
        (err ≠ none → val = none)) := by
  refine ⟨fun ht => ?_, fun ht => ?_, fun ht => ?_⟩
  · unfold as_event_command_parse_header
    by_cases hc : msg.result_code = AEROSPIKE_OK
    · rw [if_pos hc]
      obtain ⟨h1, h2⟩ := success_path w (Effect.write_listener none) rfl hpipe
      exact ⟨rfl, h2, none, h1, by simp [hc]⟩
    · rw [if_neg hc]
      refine ⟨rfl, response_error_releases _ w hpipe,
        some (as_error_set_message msg.result_code (as_error_string msg.result_code)), ?_,
        by simp [hc]⟩
      show (as_event_response_error _ w).listener_calls = _
      rw [response_error_listener_calls _ w hpipe, ht]
      rfl
  · by_cases hc : msg.result_code = AEROSPIKE_OK
    · rw [parse_result_ok msg w hc]
      by_cases hb : msg.bins_status = AEROSPIKE_OK
      · rw [if_pos hb]
        obtain ⟨h1, h2⟩ := success_path w (Effect.record_listener none
          (some { gen := msg.generation, ttl := w.cf_server_void_time_to_ttl msg.record_ttl,
                    bins := msg.bins })) rfl hpipe
        exact ⟨rfl, h2, none, _, h1, by simp [hc, hb], by simp⟩
      · rw [if_neg hb]
        refine ⟨rfl, response_error_releases _ w hpipe, some msg.bins_err, none, ?_,
          by simp [hb], by simp⟩
        show (as_event_response_error _ w).listener_calls = _
        rw [response_error_listener_calls _ w hpipe, ht]
        rfl
    · obtain ⟨err, h, _⟩ := parse_result_not_ok msg w hc
      rw [h]
      refine ⟨rfl, response_error_releases _ w hpipe, some err, none, ?_, by simp [hc], by simp⟩
      show (as_event_response_error _ w).listener_calls = _
      rw [response_error_listener_calls _ w hpipe, ht]
      rfl
  · by_cases hc : msg.result_code = AEROSPIKE_OK
    · rw [parse_success_failure_ok msg w hc]
      by_cases hb : msg.bins_status = AEROSPIKE_OK
      · rw [if_pos hb]
        obtain ⟨h1, h2⟩ := success_path w (Effect.value_listener none (some msg.val)) rfl hpipe
        exact ⟨rfl, h2, none, _, h1, by simp [hc, hb], by simp⟩
      · rw [if_neg hb]
        refine ⟨rfl, response_error_releases _ w hpipe, some msg.bins_err, none, ?_,
          by simp [hb], by simp⟩
        show (as_event_response_error _ w).listener_calls = _
        rw [response_error_listener_calls _ w hpipe, ht]
        rfl
    · obtain ⟨err, _, h⟩ := parse_result_not_ok msg w hc
      rw [h]
      refine ⟨rfl, response_error_releases _ w hpipe, some err, none, ?_, by simp [hc], by simp⟩
      show (as_event_response_error _ w).listener_calls = _
      rw [response_error_listener_calls _ w hpipe, ht]
      rfl

theorem parsers_invoke_listener_exactly_once_witness :
    response_world.cmd.pipe_listener = false ∧
    response_world.cmd.type = AS_ASYNC_TYPE_RECORD ∧
    (as_event_command_parse_result ok_msg response_world).1 = true ∧
    (as_event_command_parse_result ok_msg response_world).2.releases = response_world.releases + 1 :=
  ⟨rfl, rfl, ((parsers_invoke_listener_exactly_once ok_msg response_world rfl).2.1 rfl).1,
    ((parsers_invoke_listener_exactly_once ok_msg response_world rfl).2.1 rfl).2.1⟩

/-! ## C2 -/

/-- C2 (the code at the failing input): with `max = 10`, `max_concurrent = 3`
and `notify` set, after command 0 completed (starting command 3), command 3
failed through `as_event_error_callback` and commands 1 and 2 completed, no
command of the group is in flight, `count` is 4 and not 10, the error is saved,
and neither `complete_fn` nor `as_event_executor_destroy` has been called. -/
theorem executor_error_leaves_group_unfinished :
    (terminate_all group_run group_world).started = [3] ∧
    (terminate_all group_run group_world).in_flight group_run.length = 0 ∧
    (terminate_all group_run group_world).executor.count = 4 ∧
    (terminate_all group_run group_world).executor.max = 10 ∧
    (terminate_all group_run group_world).executor.valid = false ∧
    (terminate_all group_run group_world).executor.err = some group_failure ∧
    (terminate_all group_run group_world).sel Effect.is_complete_fn = [] ∧
    (terminate_all group_run group_world).sel Effect.is_executor_destroy = [] := by
  decide!

/-! ## C3 -/

/-- C3: `as_event_command_execute` runs `as_event_command_execute_in_loop`
at once exactly when the caller is the loop's thread and the loop's error
count is below 5.  Otherwise it turns a non-zero total timeout into a deadline,
sets the state REGISTERED and posts the command to the loop, the pending
counter untouched; if the loop refuses, the node is released and the command
freed, with no listener call.  It returns `AEROSPIKE_ERR_CLIENT` with
"Failed to queue command" exactly when it chose to post and the loop refused,
and `AEROSPIKE_OK` without an error otherwise. -/
theorem execute_in_loop_or_queue (w : World) :
    (w.event_loop.thread = w.self ∧ w.event_loop.errors < 5 →
      as_event_command_execute w =
        (AEROSPIKE_OK, none, as_event_command_execute_in_loop
          { w with cmd := { w.cmd with write_offset := w.cmd.buf,
                                       buf := w.cmd.buf + w.cmd.write_len } })) ∧
    (¬ (w.event_loop.thread = w.self ∧ w.event_loop.errors < 5) →
      (as_event_command_execute w).2.2.cmd.total_deadline =
        (if w.cmd.total_deadline > 0 then w.cmd.total_deadline + w.now else w.cmd.total_deadline) ∧
      (as_event_command_execute w).2.2.cmd.state = AS_ASYNC_STATE_REGISTERED ∧
      (as_event_command_execute w).2.2.pending = w.pending ∧
      (as_event_command_execute w).2.2.event_loop.queue =
        (if w.event_loop.accepting
          then w.event_loop.queue ++ [as_event_executable.as_event_command_execute_in_loop]
          else w.event_loop.queue) ∧
      (as_event_command_execute w).2.2.effects = w.effects ++
        (Effect.enqueue as_event_executable.as_event_command_execute_in_loop w.event_loop.accepting ::
          (if w.event_loop.accepting then []
           else (match w.cmd.node with
                 | some n => [Effect.node_release n]
                 | none => []) ++ [Effect.free_command])) ∧
      (as_event_command_execute w).2.2.listener_calls = w.listener_calls) ∧
    (((as_event_command_execute w).1 = AEROSPIKE_ERR_CLIENT ∧
        (as_event_command_execute w).2.1 =
          some { code := AEROSPIKE_ERR_CLIENT, message := "Failed to queue command" }) ↔
      (¬ (w.event_loop.thread = w.self ∧ w.event_loop.errors < 5) ∧
        w.event_loop.accepting = false)) ∧
    ((as_event_command_execute w).1 ≠ AEROSPIKE_ERR_CLIENT →
      (as_event_command_execute w).1 = AEROSPIKE_OK ∧ (as_event_command_execute w).2.1 = none) := by
  by_cases hin : w.event_loop.thread = w.self ∧ w.event_loop.errors < 5
  · simp [as_event_command_execute, hin]
  · cases hacc : w.event_loop.accepting <;> cases hn : w.cmd.node <;>
      by_cases htd : w.cmd.total_deadline > 0 <;>
      simp [as_event_command_execute, hin, hacc, hn, htd, as_event_execute, release_node_if_any,
        World.effects, World.listener_calls, World.sel, Effect.is_listener, as_error_set_message]

theorem execute_in_loop_or_queue_witness :
    ¬ (4 = read_world.self ∧ read_world.event_loop.errors < 5) ∧
    (as_event_command_execute { read_world with event_loop := { read_world.event_loop with thread := 4 } }).2.2.cmd.state =
      AS_ASYNC_STATE_REGISTERED :=
  ⟨by decide, ((execute_in_loop_or_queue
    { read_world with event_loop := { read_world.event_loop with thread := 4 } }).2.1 (by decide)).2.1⟩

/-- The error handed over by `as_event_command_execute_in_loop` on a closed
cluster. -/
theorem error_callback_sel (p : Effect → Bool) (hf : ∀ e, e.is_free = true → p e = false)
    (hg : ∀ e, e.is_group = true → p e = false) (hl : ∀ e, e.is_listener = true → p e = false)
    (err : as_error) (w : World) :
    ((as_event_error_callback err w).trace.map Prod.snd).filter p =
      (w.trace.map Prod.snd).filter p := by
  have h1 : ∀ x, p (Effect.write_listener x) = false := fun x => hl _ rfl
  have h2 : ∀ x y, p (Effect.record_listener x y) = false := fun x y => hl _ rfl
  have h3 : ∀ x y, p (Effect.value_listener x y) = false := fun x y => hl _ rfl
  unfold as_event_error_callback
  cases ht : w.cmd.type <;> simp [release_sel _ hf, executor_error_sel _ hg, h1, h2, h3]

theorem error_callback_cmd (err : as_error) (w : World) :
    (as_event_error_callback err w).cmd = w.cmd := by
  unfold as_event_error_callback
  cases ht : w.cmd.type <;> simp [release_cmd, executor_error_cmd]

theorem error_callback_executor (err : as_error) (w : World) :
    (as_event_error_callback err w).executor =
      (if w.cmd.type = AS_ASYNC_TYPE_GROUP then (as_event_executor_error err (-1) w).executor
       else w.executor) := by
  unfold as_event_error_callback
  cases ht : w.cmd.type <;> simp [release_executor]

theorem executor_error_executor (err : as_error) (q : Int) (w : World) :
    (as_event_executor_error err q w).executor = executor_after_error err q w.executor := by
  unfold as_event_executor_error executor_after_error
  simp only []
  by_cases hq : q ≥ 0 <;> cases hv : w.executor.valid <;> cases hn : w.executor.notify <;>
    simp only [hq, hv, hn, if_true, if_false] <;>
    split_ifs <;> simp_all [as_event_executor_destroy, complete_fn]


/-! ## C5 -/

/-- C5 (counterexample): in the run of scenario 2 (total timeout 100 ms, socket
timeout 30 ms, `max_retries` 2, no I/O event, timers on time) the run is over,
and the only listener call is made at t = 90 ms, not at t = 100 ms. -/
theorem read_timeout_is_not_reported_at_100 :
    (reactor_step read_timeout_run).isNone = true ∧
    (read_timeout_run.trace.filter (fun x => x.2.is_listener)).map Prod.fst = [90] ∧
    (read_timeout_run.trace.filter (fun x => x.2.is_listener && x.1 == 100)) = [] := by
  decide!

/-- C5 (amended): in the run of scenario 2 the socket timer fires at t = 30 ms,
the connection is closed and retry 1 is queued and begun on the prole replica
(MASTER toggled); at t = 60 ms the same happens for retry 2, back on the
master; at t = 90 ms the third firing finds the retries exhausted, stops the
timer and hands the listener a single `AEROSPIKE_ERR_TIMEOUT` reporting
iterations=3, after which the command is freed and the run is over. -/
theorem read_timeout_run_trace :
    read_timeout_run.trace =
      [(0, Effect.init_socket_timer),
       (0, Effect.get_node true false),
       (0, Effect.connect),
       (30, Effect.connection_timeout),
       (30, Effect.repeat_socket_timer),
       (30, Effect.enqueue as_event_executable.as_event_command_begin true),
       (30, Effect.node_release node_a),
       (30, Effect.get_node false false),
       (30, Effect.connect),
       (60, Effect.connection_timeout),
       (60, Effect.repeat_socket_timer),
       (60, Effect.enqueue as_event_executable.as_event_command_begin true),
       (60, Effect.node_release node_b),
       (60, Effect.get_node true false),
       (60, Effect.connect),
       (90, Effect.connection_timeout),
       (90, Effect.stop_timer),
       (90, Effect.record_listener
         (some { code := AEROSPIKE_ERR_TIMEOUT,
                 message := "Timeout: iterations=3 lastNode=10.0.0.1:3000" }) none),
       (90, Effect.command_release),
       (90, Effect.node_release node_a),
       (90, Effect.free_command)] ∧
    read_timeout_run.cmd.iteration = 3 ∧
    read_timeout_run.cmd.timer = none ∧
    (reactor_step read_timeout_run).isNone = true := by
  decide!

/-! ## C6 -/

theorem open_loops_le (p : Nat → Int) (n : Nat) : open_loops p n ≤ n := by
  induction n with
  | zero => simp [open_loops]
  | succ n ih => unfold open_loops; split_ifs <;> omega

theorem open_loops_update_ge (p : Nat → Int) (i : Nat) (v : Int) (n : Nat) (h : n ≤ i) :
    open_loops (Function.update p i v) n = open_loops p n := by
  induction n with
  | zero => simp [open_loops]
  | succ n ih =>
    unfold open_loops
    have hne : n ≠ i := by omega
    rw [ih (by omega), Function.update_noteq hne]

theorem open_loops_update_open (p : Nat → Int) (i : Nat) (v : Int) (n : Nat)
    (hp : p i ≠ -1) (hv : v ≠ -1) :
    open_loops (Function.update p i v) n = open_loops p n := by
  induction n with
  | zero => simp [open_loops]
  | succ n ih =>
    unfold open_loops
    rw [ih]
    by_cases hni : n = i
    · subst hni
      simp [hp, hv]
    · rw [Function.update_noteq hni]

theorem open_loops_update_close (p : Nat → Int) (i : Nat) (n : Nat) (hi : i < n)
    (hp : p i ≠ -1) :
    open_loops (Function.update p i (-1)) n + 1 = open_loops p n := by
  induction n with
  | zero => omega
  | succ n ih =>
    unfold open_loops
    by_cases hni : n = i
    · subst hni
      rw [open_loops_update_ge p n (-1) n (le_refl n)]
      simp [hp]
    · rw [Function.update_noteq hni]
      have := ih (by omega)
      omega

theorem open_loops_eq_zero (p : Nat → Int) (n : Nat) (h : open_loops p n = 0) :
    ∀ i, i < n → p i = -1 := by
  induction n with
  | zero => intro i hi; omega
  | succ n ih =>
    unfold open_loops at h
    intro i hi
    by_cases hn : p n = -1
    · rw [if_pos hn] at h
      by_cases hin : i = n
      · rw [hin]; exact hn
      · exact ih (by omega) i (by omega)
    · rw [if_neg hn] at h
      omega

theorem open_loops_pos (p : Nat → Int) (n i : Nat) (hi : i < n) (hp : p i ≠ -1) :
    0 < open_loops p n := by
  by_contra hc
  exact hp (open_loops_eq_zero p n (by omega) i hi)

theorem ck_pr_dec_32_zero_pos (n : Nat) (h : 0 < n) :
    ck_pr_dec_32_zero n = (n - 1, decide (n - 1 = 0)) := by
  unfold ck_pr_dec_32_zero
  have : n ≠ 0 := by omega
  simp [this]

theorem close_invariant_begin (size : Nat) (in_event_loop : Bool) (pending : Nat → Int)
    (accepting : Nat → Bool) (hsize1 : 1 ≤ size)
    (hp : ∀ i, i < size → 0 ≤ pending i) (hacc : ∀ i, accepting i = true) :
    close_invariant size (as_event_close_cluster_begin size in_event_loop pending accepting) := by
  have hopen : ∀ n, n ≤ size → open_loops pending n = n := by
    intro n
    induction n with
    | zero => intro _; rfl
    | succ n ih =>
      intro hn
      unfold open_loops
      have h0 := hp n (by omega)
      have hne : pending n ≠ -1 := by omega
      rw [ih (by omega), if_neg hne]
  unfold close_invariant as_event_close_cluster_begin
  have hne : size ≠ 0 := by omega
  refine ⟨rfl, hacc, Nat.zero_le _, ?_, ?_, ?_, ?_⟩
  · intro i hi
    right
    exact ⟨hp i hi, by simp⟩
  · exact (hopen size (le_refl _)).symm
  · simp [hne]
  · simp [hne]

/-- Finalisation of an open loop `i` whose callback is no longer queued keeps
the invariant. -/
theorem close_invariant_finalise (size : Nat) (s : CloseWorld) (i : Nat)
    (h1 : s.as_event_loop_size = size) (h2 : ∀ j, s.accepting j = true) (h3 : s.next ≤ size)
    (hi : i < s.next) (hpi : 0 ≤ s.pending i) (hqi : s.queued i = 0)
    (h4 : ∀ j, j < size → j ≠ i →
      (s.pending j = -1 ∧ s.queued j = 0 ∧ j < s.next) ∨
      (0 ≤ s.pending j ∧ s.queued j = (if j < s.next then 1 else 0)))
    (h5 : s.event_loop_count = open_loops s.pending size)
    (h6 : s.destroyed = 0) (h7 : s.notified = 0) :
    close_invariant size (as_event_close_cluster_event_loop i s) := by
  have hne : s.pending i ≠ -1 := by omega
  have hlt : i < size := by omega
  have hdec := open_loops_update_close s.pending i size hlt hne
  have hle := open_loops_le s.pending size
  have hpos : 0 < s.event_loop_count := by omega
  have hcount : ck_pr_dec_32_zero s.event_loop_count =
      (open_loops (Function.update s.pending i (-1)) size,
        decide (open_loops (Function.update s.pending i (-1)) size = 0)) := by
    have e : s.event_loop_count - 1 = open_loops (Function.update s.pending i (-1)) size := by
      omega
    rw [ck_pr_dec_32_zero_pos _ hpos, e]
  have hloops : ∀ j, j < size →
      ((Function.update s.pending i (-1)) j = -1 ∧ s.queued j = 0 ∧ j < s.next) ∨
      (0 ≤ (Function.update s.pending i (-1)) j ∧ s.queued j = (if j < s.next then 1 else 0)) := by
    intro j hj
    by_cases hji : j = i
    · subst hji
      left
      exact ⟨by simp, hqi, hi⟩
    · rw [Function.update_noteq hji]
      exact h4 j hj hji
  unfold as_event_close_cluster_event_loop
  dsimp only
  rw [hcount]
  dsimp only
  by_cases hz : open_loops (Function.update s.pending i (-1)) size = 0
  · rw [if_pos (by simp [hz])]
    cases hm : s.monitor
    · rw [if_neg (by simp)]
      exact ⟨h1, h2, h3, hloops, rfl, by simp [h6, hz], by simp [hm, h7]⟩
    · rw [if_pos rfl]
      exact ⟨h1, h2, h3, hloops, rfl, by simp [h6, hz], by simp [hm, h7, hz]⟩
  · rw [if_neg (by simp [hz])]
    exact ⟨h1, h2, h3, hloops, rfl, by simp [hz, h6], by simp [hz, h7]⟩

theorem close_invariant_step (size : Nat) (st : CloseStep) (s : CloseWorld)
    (h : close_invariant size s) : close_invariant size (close_step st s) := by
  obtain ⟨h1, h2, h3, h4, h5, h6, h7⟩ := h
  cases st with
  | enqueue =>
    unfold close_step as_event_close_cluster_enqueue
    simp only []
    by_cases hn : s.next < s.as_event_loop_size
    · rw [if_pos hn, if_pos (h2 s.next)]
      rw [h1] at hn
      have hcur := h4 s.next hn
      have hq : s.queued s.next = 0 := by
        rcases hcur with ⟨_, _, c⟩ | ⟨_, c⟩
        · omega
        · simpa using c
      refine ⟨h1, h2, by simp only []; omega, ?_, h5, h6, h7⟩
      intro j hj
      simp only []
      by_cases hjn : j = s.next
      · subst hjn
        right
        rcases hcur with ⟨_, _, c⟩ | ⟨a, _⟩
        · omega
        · exact ⟨a, by simp [hq]⟩
      · rw [Function.update_noteq hjn]
        rcases h4 j hj with ⟨a, b, c⟩ | ⟨a, b⟩
        · left; exact ⟨a, b, by omega⟩
        · right
          refine ⟨a, ?_⟩
          rw [b]
          by_cases hlt : j < s.next
          · have : j < s.next + 1 := by omega
            simp [hlt, this]
          · have : ¬ j < s.next + 1 := by omega
            simp [hlt, this]
    · rw [if_neg hn]
      exact ⟨h1, h2, h3, h4, h5, h6, h7⟩
  | callback i =>
    unfold close_step
    simp only []
    by_cases hc : i < s.as_event_loop_size ∧ 0 < s.queued i
    · rw [if_pos hc]
      obtain ⟨hi, hq⟩ := hc
      rw [h1] at hi
      have hcur := h4 i hi
      have hopen : 0 ≤ s.pending i ∧ s.queued i = 1 ∧ i < s.next := by
        rcases hcur with ⟨_, b, _⟩ | ⟨a, b⟩
        · omega
        · by_cases hlt : i < s.next
          · simp only [hlt, if_true] at b
            exact ⟨a, b, hlt⟩
          · simp only [hlt, if_false] at b
            omega
      obtain ⟨hp0, hq1, hlt⟩ := hopen
      unfold as_event_close_cluster_cb
      simp only []
      have hnotneg : ¬ s.pending i < 0 := by omega
      rw [if_neg hnotneg]
      by_cases hpos : s.pending i > 0
      · rw [if_pos ⟨hpos, h2 i⟩]
        refine ⟨h1, h2, h3, ?_, h5, h6, h7⟩
        intro j hj
        simp only []
        by_cases hji : j = i
        · subst hji
          right
          exact ⟨hp0, by simp [hq1, hlt]⟩
        · rw [Function.update_noteq hji, Function.update_noteq hji]
          exact h4 j hj
      · have hnot : ¬ (s.pending i > 0 ∧ s.accepting i = true) := fun c => hpos c.1
        rw [if_neg hnot]
        have hne : s.pending i ≠ -1 := by omega
        have hcnt := open_loops_pos s.pending size i hi hne
        have hd : s.destroyed = 0 := by
          rw [h6, h5]
          have : open_loops s.pending size ≠ 0 := by omega
          simp [this]
        have hnf : s.notified = 0 := by
          rw [h7, h5]
          have : open_loops s.pending size ≠ 0 := by omega
          simp [this]
        have hq0 : Function.update s.queued i (s.queued i - 1) i = 0 := by simp [hq1]
        have h4b : ∀ j, j < size → j ≠ i →
            (s.pending j = -1 ∧ Function.update s.queued i (s.queued i - 1) j = 0 ∧ j < s.next) ∨
            (0 ≤ s.pending j ∧
              Function.update s.queued i (s.queued i - 1) j = (if j < s.next then 1 else 0)) := by
          intro j hj hji
          rw [Function.update_noteq hji]
          exact h4 j hj
        exact close_invariant_finalise size
          { s with queued := Function.update s.queued i (s.queued i - 1) } i h1 h2 h3 hlt
          hp0 hq0 h4b h5 hd hnf
    · rw [if_neg hc]
      exact ⟨h1, h2, h3, h4, h5, h6, h7⟩
  | commands i v =>
    unfold close_step
    simp only []
    by_cases hneg : s.pending i < 0
    · rw [if_pos hneg]
      exact ⟨h1, h2, h3, h4, h5, h6, h7⟩
    · rw [if_neg hneg]
      have hne : s.pending i ≠ -1 := by omega
      have hv : (v : Int) ≠ -1 := by omega
      have hol := open_loops_update_open s.pending i (v : Int) size hne hv
      refine ⟨h1, h2, h3, ?_, ?_, ?_, ?_⟩
      · intro j hj
        simp only []
        by_cases hji : j = i
        · subst hji
          right
          rcases h4 j hj with ⟨a, _, _⟩ | ⟨_, b⟩
          · omega
          · exact ⟨by simp, b⟩
        · rw [Function.update_noteq hji]
          exact h4 j hj
      · simp only []
        rw [hol]
        exact h5
      · exact h6
      · exact h7

theorem close_invariant_run (size : Nat) (steps : List CloseStep)
    (s : CloseWorld) (h : close_invariant size s) : close_invariant size (close_run steps s) := by
  induction steps generalizing s with
  | nil => exact h
  | cons st rest ih => exact ih _ (close_invariant_step size st s h)

theorem open_loops_all_closed (p : Nat → Int) (n : Nat) (h : ∀ i, i < n → p i = -1) :
    open_loops p n = 0 := by
  induction n with
  | zero => rfl
  | succ n ih =>
    unfold open_loops
    rw [ih (fun i hi => h i (by omega)), if_pos (h n (by omega))]

theorem close_cluster_event_loop_effect (i : Nat) (t : CloseWorld) :
    (as_event_close_cluster_event_loop i t).pending i = -1 ∧
    (as_event_close_cluster_event_loop i t).event_loop_count =
      (ck_pr_dec_32_zero t.event_loop_count).1 ∧
    ((ck_pr_dec_32_zero t.event_loop_count).1 = 0 →
      (as_event_close_cluster_event_loop i t).destroyed = t.destroyed + 1) ∧
    ((ck_pr_dec_32_zero t.event_loop_count).1 ≠ 0 →
      (as_event_close_cluster_event_loop i t).destroyed = t.destroyed) := by
  have h : (ck_pr_dec_32_zero t.event_loop_count).2 =
      decide ((ck_pr_dec_32_zero t.event_loop_count).1 = 0) := by
    rfl
  unfold as_event_close_cluster_event_loop
  dsimp only
  generalize ck_pr_dec_32_zero t.event_loop_count = r at h ⊢
  obtain ⟨c, d⟩ := r
  dsimp only at h ⊢
  rw [h]
  by_cases hc : c = 0
  · cases hm : t.monitor <;> simp [hc, hm]
  · simp [hc]

/-- C6: one call of `as_event_close_cluster` on `size ≥ 1` loops of an open
cluster, every loop taking its tasks, in any interleaving of the enqueueing
thread, the loops' close callbacks and the commands that start and finish.
`as_event_close_cluster_cb` returns without effect on a negative pending
counter, re-queues itself and changes nothing else on a positive one, and
finalises on zero; finalisation writes -1 and calls `as_cluster_destroy`
exactly if it brings the shared count to zero.  At every point of the run
`as_cluster_destroy` has been called at most once, it has been called exactly
if the shared count is zero, only when the pending counter of every loop is
-1, and it has been called once when every callback has been posted and none
is queued any more. -/
theorem close_cluster_destroys_exactly_once (size : Nat) (in_event_loop : Bool)
    (pending : Nat → Int) (accepting : Nat → Bool) (hsize1 : 1 ≤ size)
    (hp : ∀ i, i < size → 0 ≤ pending i) (hacc : ∀ i, accepting i = true)
    (steps : List CloseStep) :
    (∀ (t : CloseWorld) (i : Nat), (∀ j, t.accepting j = true) →
      (t.pending i < 0 → as_event_close_cluster_cb i t = t) ∧
      (t.pending i > 0 → as_event_close_cluster_cb i t =
        { t with queued := Function.update t.queued i (t.queued i + 1) }) ∧
      (t.pending i = 0 → as_event_close_cluster_cb i t = as_event_close_cluster_event_loop i t) ∧
      (as_event_close_cluster_event_loop i t).pending i = -1 ∧
      ((as_event_close_cluster_event_loop i t).event_loop_count = 0 →
        (as_event_close_cluster_event_loop i t).destroyed = t.destroyed + 1) ∧
      ((as_event_close_cluster_event_loop i t).event_loop_count ≠ 0 →
        (as_event_close_cluster_event_loop i t).destroyed = t.destroyed)) ∧
    (close_run steps
      (as_event_close_cluster_begin size in_event_loop pending accepting)).destroyed ≤ 1 ∧
    ((close_run steps
      (as_event_close_cluster_begin size in_event_loop pending accepting)).destroyed = 1 ↔
     (close_run steps
      (as_event_close_cluster_begin size in_event_loop pending accepting)).event_loop_count = 0) ∧
    ((close_run steps
      (as_event_close_cluster_begin size in_event_loop pending accepting)).destroyed = 1 →
     ∀ i, i < size → (close_run steps
      (as_event_close_cluster_begin size in_event_loop pending accepting)).pending i = -1) ∧
    (((close_run steps
        (as_event_close_cluster_begin size in_event_loop pending accepting)).next = size ∧
      ∀ i, i < size → (close_run steps
        (as_event_close_cluster_begin size in_event_loop pending accepting)).queued i = 0) →
     (close_run steps
      (as_event_close_cluster_begin size in_event_loop pending accepting)).destroyed = 1) := by
  have hinv := close_invariant_run size steps _
    (close_invariant_begin size in_event_loop pending accepting hsize1 hp hacc)
  generalize close_run steps (as_event_close_cluster_begin size in_event_loop pending accepting) = s
    at hinv
  obtain ⟨h1, h2, h3, h4, h5, h6, h7⟩ := hinv
  refine ⟨?_, ?_, ?_, ?_, ?_⟩
  · intro t i hta
    obtain ⟨e1, e2, e3, e4⟩ := close_cluster_event_loop_effect i t
    refine ⟨?_, ?_, ?_, e1, fun hz => e3 (e2 ▸ hz), fun hz => e4 (e2 ▸ hz)⟩
    · intro hneg
      unfold as_event_close_cluster_cb
      simp only []
      rw [if_pos hneg]
    · intro hpos
      unfold as_event_close_cluster_cb
      simp only []
      rw [if_neg (by omega), if_pos ⟨hpos, hta i⟩]
    · intro hz
      unfold as_event_close_cluster_cb
      simp only []
      rw [if_neg (by omega), if_neg (by omega)]
  · rw [h6]; split_ifs <;> omega
  · rw [h6]; split_ifs <;> simp_all
  · intro hd i hi
    have hz : s.event_loop_count = 0 := by
      by_contra hc
      rw [h6, if_neg hc] at hd
      omega
    rw [h5] at hz
    exact open_loops_eq_zero s.pending size hz i hi
  · intro ⟨hn, hq⟩
    have hall : ∀ i, i < size → s.pending i = -1 := by
      intro i hi
      rcases h4 i hi with ⟨a, _, _⟩ | ⟨_, b⟩
      · exact a
      · have hlt : i < s.next := by omega
        rw [if_pos hlt, hq i hi] at b
        omega
    have hz := open_loops_all_closed s.pending size hall
    rw [h6, h5, hz]
    simp

theorem close_cluster_destroys_exactly_once_witness :
    1 ≤ 2 ∧
    (∀ i, i < 2 → (0 : Int) ≤ (fun i => if i = 1 then (2 : Int) else 0) i) ∧
    (close_run close_scenario
      (as_event_close_cluster_begin 2 true (fun i => if i = 1 then 2 else 0)
        (fun _ => true))).destroyed = 1 :=
  ⟨by decide, by intro i _; dsimp only; split_ifs <;> omega,
    (close_cluster_destroys_exactly_once 2 true (fun i => if i = 1 then 2 else 0) (fun _ => true)
      (by decide) (by intro i _; dsimp only; split_ifs <;> omega) (fun _ => rfl)
      close_scenario).2.2.2.2
      ⟨by decide, by intro i hi; interval_cases i <;> decide⟩⟩

/-! ## C7 -/

theorem retry_refused (alternate : Bool) (w : World)
    (h : w.cmd.iteration + 1 > w.cmd.max_retries ∨
      (w.cmd.total_deadline > 0 ∧ w.now ≥ w.cmd.total_deadline)) :
    as_event_command_retry alternate w =
      (false, { w with cmd := { w.cmd with iteration := w.cmd.iteration + 1 } }) := by
  unfold as_event_command_retry
  simp only []
  split_ifs <;> first | rfl | (exfalso; omega)

theorem retry_enqueue_accepted (alternate : Bool) (w : World)
    (hacc : w.event_loop.accepting = true) :
    (retry_enqueue alternate w).1 = true ∧
    (retry_enqueue alternate w).2.cmd.iteration = w.cmd.iteration ∧
    (retry_enqueue alternate w).2.cmd.flags.MASTER =
      (if alternate then ! w.cmd.flags.MASTER else w.cmd.flags.MASTER) ∧
    (retry_enqueue alternate w).2.sel Effect.is_enqueue =
      w.sel Effect.is_enqueue ++ [Effect.enqueue as_event_executable.as_event_command_begin true] ∧
    (retry_enqueue alternate w).2.event_loop.queue =
      w.event_loop.queue ++ [as_event_executable.as_event_command_begin] ∧
    (retry_enqueue alternate w).2.event_loop.accepting = true ∧
    (retry_enqueue alternate w).2.cmd.max_retries = w.cmd.max_retries := by
  cases alternate <;>
    simp [retry_enqueue, hacc, as_event_execute, World.sel, World.effects, Effect.is_enqueue]

theorem retry_not_refused (alternate : Bool) (w : World)
    (h1 : ¬ w.cmd.iteration + 1 > w.cmd.max_retries)
    (h2 : ¬ (w.cmd.total_deadline > 0 ∧ w.now ≥ w.cmd.total_deadline)) :
    ∃ w1 : World, as_event_command_retry alternate w = retry_enqueue alternate w1 ∧
      w1.cmd.iteration = w.cmd.iteration + 1 ∧
      w1.cmd.flags.MASTER = w.cmd.flags.MASTER ∧
      w1.sel Effect.is_enqueue = w.sel Effect.is_enqueue ∧
      w1.event_loop = w.event_loop ∧
      w1.cmd.max_retries = w.cmd.max_retries := by
  unfold as_event_command_retry
  simp only []
  split_ifs
  all_goals
    first
    | (exfalso; omega)
    | (refine ⟨_, rfl, ?_⟩
       simp [as_event_set_total_timer, as_event_stop_timer, as_event_repeat_socket_timer,
         World.sel, World.effects, Effect.is_enqueue])

theorem retry_accepted (alternate : Bool) (w : World)
    (h1 : ¬ w.cmd.iteration + 1 > w.cmd.max_retries)
    (h2 : ¬ (w.cmd.total_deadline > 0 ∧ w.now ≥ w.cmd.total_deadline))
    (hacc : w.event_loop.accepting = true) :
    (as_event_command_retry alternate w).1 = true ∧
    (as_event_command_retry alternate w).2.cmd.iteration = w.cmd.iteration + 1 ∧
    (as_event_command_retry alternate w).2.cmd.flags.MASTER =
      (if alternate then ! w.cmd.flags.MASTER else w.cmd.flags.MASTER) ∧
    (as_event_command_retry alternate w).2.sel Effect.is_enqueue =
      w.sel Effect.is_enqueue ++ [Effect.enqueue as_event_executable.as_event_command_begin true] ∧
    (as_event_command_retry alternate w).2.event_loop.queue =
      w.event_loop.queue ++ [as_event_executable.as_event_command_begin] ∧
    (as_event_command_retry alternate w).2.event_loop.accepting = true ∧
    (as_event_command_retry alternate w).2.cmd.max_retries = w.cmd.max_retries := by
  obtain ⟨w1, h, e1, e2, e3, e4, e5⟩ := retry_not_refused alternate w h1 h2
  have hacc1 : w1.event_loop.accepting = true := by rw [e4]; exact hacc
  have hq := retry_enqueue_accepted alternate w1 hacc1
  rw [h, ← e1, ← e2, ← e3, ← e4, ← e5]
  exact hq

theorem retry_enqueue_cmd (alternate : Bool) (w : World) :
    (retry_enqueue alternate w).2.cmd.iteration = w.cmd.iteration ∧
    (retry_enqueue alternate w).2.cmd.flags.MASTER =
      (if alternate then ! w.cmd.flags.MASTER else w.cmd.flags.MASTER) := by
  cases alternate <;> cases hacc : w.event_loop.accepting <;>
    simp [retry_enqueue, hacc, as_event_execute]

theorem retry_iteration (alternate : Bool) (w : World) :
    (as_event_command_retry alternate w).2.cmd.iteration = w.cmd.iteration + 1 := by
  by_cases h : w.cmd.iteration + 1 > w.cmd.max_retries ∨
      (w.cmd.total_deadline > 0 ∧ w.now ≥ w.cmd.total_deadline)
  · rw [retry_refused alternate w h]
  · obtain ⟨w1, e, e1, _⟩ := retry_not_refused alternate w (fun c => h (Or.inl c))
      (fun c => h (Or.inr c))
    rw [e, (retry_enqueue_cmd alternate w1).1, e1]

theorem retry_true_master (alternate : Bool) (w : World)
    (h : (as_event_command_retry alternate w).1 = true) :
    (as_event_command_retry alternate w).2.cmd.flags.MASTER =
      (if alternate then ! w.cmd.flags.MASTER else w.cmd.flags.MASTER) := by
  by_cases hr : w.cmd.iteration + 1 > w.cmd.max_retries ∨
      (w.cmd.total_deadline > 0 ∧ w.now ≥ w.cmd.total_deadline)
  · rw [retry_refused alternate w hr] at h
    exact absurd h (by simp)
  · obtain ⟨w1, e, _, e2, _⟩ := retry_not_refused alternate w (fun c => hr (Or.inl c))
      (fun c => hr (Or.inr c))
    rw [e, (retry_enqueue_cmd alternate w1).2, e2]

theorem retry_alternate_run_master (ts : List Nat) (w w1 : World)
    (h : retry_alternate_run ts w = (true, w1)) :
    w1.cmd.flags.MASTER = (if ts.length % 2 = 0 then w.cmd.flags.MASTER else ! w.cmd.flags.MASTER) := by
  induction ts generalizing w with
  | nil =>
    simp [retry_alternate_run] at h
    simp [h]
  | cons t ts ih =>
    unfold retry_alternate_run at h
    cases hok : (as_event_command_retry true { w with now := t }).1
    · simp [hok] at h
    · simp only [hok, if_true] at h
      have hm := retry_true_master true { w with now := t } hok
      rw [ih _ h, hm]
      simp only [List.length_cons, if_true]
      rcases Nat.mod_two_eq_zero_or_one ts.length with h0 | h1
      · have : (ts.length + 1) % 2 = 1 := by omega
        simp [h0, this]
      · have : (ts.length + 1) % 2 = 0 := by omega
        simp [h1, this]

/-- C7: `as_event_command_retry` increments `cmd.iteration` on every call.  It
refuses, changing nothing else (no flag, no timer, no queue entry, no call),
when the incremented iteration exceeds `max_retries` or when a total deadline
is set and reached.  In every other case, on a loop that takes the task, it
returns true, queues `as_event_command_begin` exactly once and flips MASTER
exactly when `alternate` is set; so after a run of accepted retries with
`alternate = true` the MASTER flag has its original value iff their number is
even. -/
theorem retry_contract (alternate : Bool) (w : World) :
    (as_event_command_retry alternate w).2.cmd.iteration = w.cmd.iteration + 1 ∧
    ((w.cmd.iteration + 1 > w.cmd.max_retries ∨
        (w.cmd.total_deadline > 0 ∧ w.now ≥ w.cmd.total_deadline)) →
      as_event_command_retry alternate w =
        (false, { w with cmd := { w.cmd with iteration := w.cmd.iteration + 1 } })) ∧
    (¬ (w.cmd.iteration + 1 > w.cmd.max_retries ∨
        (w.cmd.total_deadline > 0 ∧ w.now ≥ w.cmd.total_deadline)) →
      w.event_loop.accepting = true →
      (as_event_command_retry alternate w).1 = true ∧
      (as_event_command_retry alternate w).2.sel Effect.is_enqueue =
        w.sel Effect.is_enqueue ++ [Effect.enqueue as_event_executable.as_event_command_begin true] ∧
      (as_event_command_retry alternate w).2.event_loop.queue =
        w.event_loop.queue ++ [as_event_executable.as_event_command_begin] ∧
      ((as_event_command_retry alternate w).2.cmd.flags.MASTER ≠ w.cmd.flags.MASTER ↔
        alternate = true)) ∧
    (∀ (ts : List Nat) (w1 : World), retry_alternate_run ts w = (true, w1) →
      (w1.cmd.flags.MASTER = w.cmd.flags.MASTER ↔ ts.length % 2 = 0)) := by
  refine ⟨retry_iteration alternate w, retry_refused alternate w, ?_, ?_⟩
  · intro hr hacc
    obtain ⟨a, _, c, d, e, _, _⟩ := retry_accepted alternate w (fun x => hr (Or.inl x))
      (fun x => hr (Or.inr x)) hacc
    refine ⟨a, d, e, ?_⟩
    rw [c]
    cases alternate <;> cases w.cmd.flags.MASTER <;> simp
  · intro ts w1 h
    rw [retry_alternate_run_master ts w w1 h]
    by_cases hp : ts.length % 2 = 0 <;> cases w.cmd.flags.MASTER <;> simp [hp]

theorem retry_contract_witness :
    ¬ (response_world.cmd.iteration + 1 > response_world.cmd.max_retries ∨
        (response_world.cmd.total_deadline > 0 ∧
          response_world.now ≥ response_world.cmd.total_deadline)) ∧
    response_world.event_loop.accepting = true ∧
    (as_event_command_retry true response_world).1 = true :=
  ⟨by decide, rfl, ((retry_contract true response_world).2.2.1 (by decide) rfl).1⟩

/-! ## C8 -/

/-- The group calls made by one `as_event_executor_error`. -/
theorem executor_error_group_calls (err : as_error) (q : Int) (w : World) :
    (as_event_executor_error err q w).sel Effect.is_complete_fn =
      w.sel Effect.is_complete_fn ++
        (if (executor_after_error err q w.executor).count = w.executor.max ∧
            w.executor.notify = true then
          [Effect.complete_fn (if w.executor.valid then some err else w.executor.err)]
        else []) ∧
    (as_event_executor_error err q w).sel Effect.is_executor_destroy =
      w.sel Effect.is_executor_destroy ++
        (if (executor_after_error err q w.executor).count = w.executor.max then
          [Effect.executor_destroy]
        else []) := by
  unfold as_event_executor_error executor_after_error
  simp only []
  by_cases hq : q ≥ 0 <;> cases hv : w.executor.valid <;> cases hn : w.executor.notify <;>
    simp only [hq, hv, hn, if_true, if_false] <;>
    split_ifs <;>
    simp_all [as_event_executor_destroy, complete_fn, World.sel, World.effects,
      Effect.is_complete_fn, Effect.is_executor_destroy]

theorem executor_after_error_fields (err : as_error) (q : Int) (ex : as_event_executor) :
    (executor_after_error err q ex).valid = false ∧
    (executor_after_error err q ex).max = ex.max ∧
    (executor_after_error err q ex).notify = ex.notify ∧
    (executor_after_error err q ex).max_concurrent = ex.max_concurrent ∧
    ((executor_after_error err q ex).count ≠ ex.max →
      (executor_after_error err q ex).err = (if ex.valid then some err else ex.err)) := by
  unfold executor_after_error
  refine ⟨rfl, rfl, rfl, rfl, ?_⟩
  intro h
  simp only [] at h ⊢
  rw [if_neg h]

/-- Calls that follow the first error: the saved error stays, and the callback
of the completing call sees it. -/
theorem executor_error_run_later (e1 : as_error) (rest : List (as_error × Int)) (w : World)
    (hv : w.executor.valid = false) (he : w.executor.err = some e1)
    (hc : w.executor.count ≠ w.executor.max) :
    (executor_error_run rest w).executor.valid = false ∧
    (executor_error_run rest w).executor.max = w.executor.max ∧
    ((executor_error_run rest w).executor.count ≠ w.executor.max →
      (executor_error_run rest w).executor.err = some e1) ∧
    (executor_error_run rest w).sel Effect.is_complete_fn =
      w.sel Effect.is_complete_fn ++
        (if (executor_error_run rest w).executor.count = w.executor.max ∧
            w.executor.notify = true then [Effect.complete_fn (some e1)] else []) ∧
    (executor_error_run rest w).sel Effect.is_executor_destroy =
      w.sel Effect.is_executor_destroy ++
        (if (executor_error_run rest w).executor.count = w.executor.max then
          [Effect.executor_destroy] else []) := by
  induction rest generalizing w with
  | nil =>
    simp [executor_error_run, hv, he, hc]
  | cons c rest ih =>
    obtain ⟨err, q⟩ := c
    unfold executor_error_run
    simp only []
    have hex := executor_error_executor err q w
    obtain ⟨f1, f2, f3, _, f5⟩ := executor_after_error_fields err q w.executor
    obtain ⟨g1, g2⟩ := executor_error_group_calls err q w
    rw [← hex] at f1 f2 f3 f5 g1 g2
    by_cases hdone : (as_event_executor_error err q w).executor.count =
        (as_event_executor_error err q w).executor.max
    · rw [if_pos hdone]
      rw [f2] at hdone
      refine ⟨f1, f2, fun h => absurd hdone h, ?_, ?_⟩
      · rw [g1]; simp [hdone, hv, he]
      · rw [g2]
    · rw [if_neg hdone]
      have hdone2 : (as_event_executor_error err q w).executor.count ≠ w.executor.max := by
        rw [← f2]; exact hdone
      have he2 : (as_event_executor_error err q w).executor.err = some e1 := by
        rw [f5 hdone2]; simp [hv, he]
      obtain ⟨i1, i2, i3, i4, i5⟩ := ih (as_event_executor_error err q w) f1 he2 hdone
      rw [f2] at i2 i3 i4 i5
      rw [f3] at i4
      refine ⟨i1, i2, i3, ?_, ?_⟩
      · rw [i4, g1]; simp [hdone2]
      · rw [i5, g2]; simp [hdone2]

/-- C8: over any sequence of `as_event_executor_error` calls on an executor
that starts valid (whatever it has saved as error), `valid` is false after the first
call and after every later one; as long as the group is not complete the saved
error is the error of the first call; and the only `complete_fn` call of the
sequence, made (with `notify` set) by the call that completes the group, be it
the first or a later one, sees the error of the first call in
`executor->err`; the executor is destroyed by that same call. -/
theorem first_executor_error_is_kept (e1 : as_error) (q1 : Int) (rest : List (as_error × Int))
    (w : World) (hv : w.executor.valid = true) :
    (executor_error_run ((e1, q1) :: rest) w).executor.valid = false ∧
    ((executor_error_run ((e1, q1) :: rest) w).executor.count ≠ w.executor.max →
      (executor_error_run ((e1, q1) :: rest) w).executor.err = some e1) ∧
    (executor_error_run ((e1, q1) :: rest) w).sel Effect.is_complete_fn =
      w.sel Effect.is_complete_fn ++
        (if (executor_error_run ((e1, q1) :: rest) w).executor.count = w.executor.max ∧
            w.executor.notify = true then [Effect.complete_fn (some e1)] else []) ∧
    (executor_error_run ((e1, q1) :: rest) w).sel Effect.is_executor_destroy =
      w.sel Effect.is_executor_destroy ++
        (if (executor_error_run ((e1, q1) :: rest) w).executor.count = w.executor.max then
          [Effect.executor_destroy] else []) := by
  unfold executor_error_run
  simp only []
  have hex := executor_error_executor e1 q1 w
  obtain ⟨f1, f2, f3, _, f5⟩ := executor_after_error_fields e1 q1 w.executor
  obtain ⟨g1, g2⟩ := executor_error_group_calls e1 q1 w
  rw [← hex] at f1 f2 f3 f5 g1 g2
  by_cases hdone : (as_event_executor_error e1 q1 w).executor.count =
      (as_event_executor_error e1 q1 w).executor.max
  · rw [if_pos hdone]
    rw [f2] at hdone
    refine ⟨f1, fun h => absurd hdone h, ?_, ?_⟩
    · rw [g1]; simp [hdone, hv]
    · rw [g2]
  · rw [if_neg hdone]
    have hdone2 : (as_event_executor_error e1 q1 w).executor.count ≠ w.executor.max := by
      rw [← f2]; exact hdone
    have he2 : (as_event_executor_error e1 q1 w).executor.err = some e1 := by
      rw [f5 hdone2]; simp [hv]
    obtain ⟨i1, i2, i3, i4, i5⟩ :=
      executor_error_run_later e1 rest (as_event_executor_error e1 q1 w) f1 he2 hdone
    rw [f2] at i2 i3 i4 i5
    rw [f3] at i4
    refine ⟨i1, i3, ?_, ?_⟩
    · rw [i4, g1]; simp [hdone2]
    · rw [i5, g2]; simp [hdone2]

theorem first_executor_error_is_kept_witness :
    group_world.executor.valid = true ∧
    (executor_error_run [(group_failure, -1), (group_failure, 4)] group_world).executor.valid =
      false :=
  ⟨rfl, (first_executor_error_is_kept group_failure (-1) [(group_failure, 4)] group_world
    rfl).1⟩

/-! ## C4 -/

theorem response_complete_group_sel (p : Effect → Bool)
    (hp : ∀ e, e.is_response = true → p e = false) (hpp : p Effect.pipe_response_complete = false)
    (w : World) :
    ((as_event_response_complete w).trace.map Prod.snd).filter p = (w.trace.map Prod.snd).filter p := by
  cases hpipe : w.cmd.pipe_listener
  · exact response_complete_sel p hp w hpipe
  · simp [as_event_response_complete, hpipe, hpp]

/-- One `as_event_executor_complete` on a valid executor, the start of the
next command succeeding. -/
theorem executor_complete_step (c : as_event_command) (w : World)
    (hv : w.executor.valid = true) :
    (as_event_executor_complete none { w with cmd := c }).executor =
      { w.executor with count := w.executor.count + 1 } ∧
    (as_event_executor_complete none { w with cmd := c }).sel Effect.is_command_execute =
      w.sel Effect.is_command_execute ++
        (if w.executor.count + 1 ≠ w.executor.max ∧
            w.executor.count + w.executor.max_concurrent < w.executor.max then
          [Effect.command_execute ((w.executor.count + w.executor.max_concurrent : Nat) : Int)]
        else []) ∧
    (as_event_executor_complete none { w with cmd := c }).sel Effect.is_complete_fn =
      w.sel Effect.is_complete_fn ++
        (if w.executor.count + 1 = w.executor.max ∧ w.executor.notify = true then
          [Effect.complete_fn w.executor.err]
        else []) ∧
    (as_event_executor_complete none { w with cmd := c }).sel Effect.is_executor_destroy =
      w.sel Effect.is_executor_destroy ++
        (if w.executor.count + 1 = w.executor.max then [Effect.executor_destroy] else []) := by
  have hex := response_complete_executor { w with cmd := c }
  have hs1 := response_complete_group_sel Effect.is_command_execute
    (by intro e; cases e <;> simp [Effect.is_response, Effect.is_command_execute]) rfl
    { w with cmd := c }
  have hs2 := response_complete_group_sel Effect.is_complete_fn
    (by intro e; cases e <;> simp [Effect.is_response, Effect.is_complete_fn]) rfl
    { w with cmd := c }
  have hs3 := response_complete_group_sel Effect.is_executor_destroy
    (by intro e; cases e <;> simp [Effect.is_response, Effect.is_executor_destroy]) rfl
    { w with cmd := c }
  have hr1 := release_sel Effect.is_command_execute
    (by intro e; cases e <;> simp [Effect.is_free, Effect.is_command_execute])
  have hr2 := release_sel Effect.is_complete_fn
    (by intro e; cases e <;> simp [Effect.is_free, Effect.is_complete_fn])
  have hr3 := release_sel Effect.is_executor_destroy
    (by intro e; cases e <;> simp [Effect.is_free, Effect.is_executor_destroy])
  have hnext : (((w.executor.count + 1 : Nat) : Int) + (w.executor.max_concurrent : Int) - 1) =
      ((w.executor.count + w.executor.max_concurrent : Nat) : Int) := by
    push_cast; ring
  unfold as_event_executor_complete
  simp only [World.sel, World.effects, release_executor, hr1, hr2, hr3]
  generalize as_event_response_complete { w with cmd := c } = w0 at hex hs1 hs2 hs3 ⊢
  simp only [] at hex hs1 hs2 hs3
  simp only [hex, hnext, hv, Bool.and_true]
  by_cases hdone : w.executor.count + 1 = w.executor.max
  · cases hn : w.executor.notify <;>
      simp [hdone, hn, hex, as_event_executor_destroy, complete_fn, hs1, hs2, hs3,
        Effect.is_command_execute, Effect.is_complete_fn, Effect.is_executor_destroy]
  · by_cases hlt : w.executor.count + w.executor.max_concurrent < w.executor.max
    · have hlt2 : (w.executor.count : Int) + (w.executor.max_concurrent : Int) <
          (w.executor.max : Int) := by exact_mod_cast hlt
      simp [hdone, hlt, hlt2, hex, hs1, hs2, hs3,
        Effect.is_command_execute, Effect.is_complete_fn, Effect.is_executor_destroy]
    · have hlt2 : ¬ (w.executor.count : Int) + (w.executor.max_concurrent : Int) <
          (w.executor.max : Int) := by
        intro hc; exact hlt (by exact_mod_cast hc)
      have hlt3 : (w.executor.max : Int) ≤
          (w.executor.count : Int) + (w.executor.max_concurrent : Int) := by omega
      simp [hdone, hlt, hlt2, hlt3, hex, hs1, hs2, hs3]

/-- A run of completions, each starting the next command successfully, on a
valid executor that has room for them. -/
theorem complete_run (cs : List as_event_command) (w : World)
    (hv : w.executor.valid = true) (h1 : 1 ≤ w.executor.max_concurrent)
    (hle : w.executor.count + cs.length ≤ w.executor.max) :
    (terminate_all (cs.map (fun c => Termination.complete c none)) w).executor =
      { w.executor with count := w.executor.count + cs.length } ∧
    (terminate_all (cs.map (fun c => Termination.complete c none)) w).sel Effect.is_command_execute =
      w.sel Effect.is_command_execute ++
        (List.range' (w.executor.count + w.executor.max_concurrent)
          (min (w.executor.count + cs.length + w.executor.max_concurrent) w.executor.max -
            (w.executor.count + w.executor.max_concurrent))).map
          (fun i : Nat => Effect.command_execute (i : Int)) ∧
    (terminate_all (cs.map (fun c => Termination.complete c none)) w).sel Effect.is_complete_fn =
      w.sel Effect.is_complete_fn ++
        (if cs ≠ [] ∧ w.executor.count + cs.length = w.executor.max ∧ w.executor.notify = true then
          [Effect.complete_fn w.executor.err] else []) ∧
    (terminate_all (cs.map (fun c => Termination.complete c none)) w).sel Effect.is_executor_destroy =
      w.sel Effect.is_executor_destroy ++
        (if cs ≠ [] ∧ w.executor.count + cs.length = w.executor.max then
          [Effect.executor_destroy] else []) := by
  induction cs generalizing w with
  | nil => simp [terminate_all]
  | cons c rest ih =>
    obtain ⟨s1, s2, s3, s4⟩ := executor_complete_step c w hv
    simp only [List.map_cons, terminate_all, terminate, List.length_cons] at hle ⊢
    generalize as_event_executor_complete none { w with cmd := c } = w1 at s1 s2 s3 s4 ⊢
    have hv1 : w1.executor.valid = true := by rw [s1]; exact hv
    have hc1 : w1.executor.count = w.executor.count + 1 := by rw [s1]
    have hm1 : w1.executor.max = w.executor.max := by rw [s1]
    have hmc1 : w1.executor.max_concurrent = w.executor.max_concurrent := by rw [s1]
    have hn1 : w1.executor.notify = w.executor.notify := by rw [s1]
    have he1 : w1.executor.err = w.executor.err := by rw [s1]
    obtain ⟨i1, i2, i3, i4⟩ := ih w1 hv1 (by rw [hmc1]; exact h1) (by rw [hc1, hm1]; omega)
    rw [hc1, hm1, hmc1] at i2
    rw [hc1, hm1, hn1, he1] at i3
    rw [hc1, hm1] at i4
    refine ⟨?_, ?_, ?_, ?_⟩
    · rw [i1, s1]
      simp only [as_event_executor.mk.injEq, true_and, and_true]
      omega
    · rw [i2, s2, List.append_assoc]
      congr 1
      by_cases hlt : w.executor.count + w.executor.max_concurrent < w.executor.max
      · have hne : w.executor.count + 1 ≠ w.executor.max := by omega
        rw [if_pos ⟨hne, hlt⟩]
        have e1 : min (w.executor.count + (rest.length + 1) + w.executor.max_concurrent)
            w.executor.max - (w.executor.count + w.executor.max_concurrent) =
            (min (w.executor.count + 1 + rest.length + w.executor.max_concurrent)
              w.executor.max - (w.executor.count + 1 + w.executor.max_concurrent)) + 1 := by
          omega
        have e2 : w.executor.count + 1 + w.executor.max_concurrent =
            w.executor.count + w.executor.max_concurrent + 1 := by omega
        rw [e1, List.range'_succ, e2]
        simp
      · have hno : ¬ (w.executor.count + 1 ≠ w.executor.max ∧
            w.executor.count + w.executor.max_concurrent < w.executor.max) := fun hc => hlt hc.2
        rw [if_neg hno]
        have e1 : min (w.executor.count + (rest.length + 1) + w.executor.max_concurrent)
            w.executor.max - (w.executor.count + w.executor.max_concurrent) = 0 := by omega
        have e2 : min (w.executor.count + 1 + rest.length + w.executor.max_concurrent)
            w.executor.max - (w.executor.count + 1 + w.executor.max_concurrent) = 0 := by omega
        rw [e1, e2]
        simp
    · rw [i3, s3, List.append_assoc]
      congr 1
      by_cases hdone : w.executor.count + 1 = w.executor.max
      · have hrest : rest = [] := by
          cases rest with
          | nil => rfl
          | cons a t => simp only [List.length_cons] at hle; omega
        subst hrest
        cases hn : w.executor.notify <;> simp [hdone]
      · have e : w.executor.count + 1 + rest.length = w.executor.count + (rest.length + 1) := by
          omega
        rw [e]
        by_cases hr : rest = []
        · subst hr
          simp [hdone]
        · simp [hdone, hr]
    · rw [i4, s4, List.append_assoc]
      congr 1
      by_cases hdone : w.executor.count + 1 = w.executor.max
      · have hrest : rest = [] := by
          cases rest with
          | nil => rfl
          | cons a t => simp only [List.length_cons] at hle; omega
        subst hrest
        simp [hdone]
      · have e : w.executor.count + 1 + rest.length = w.executor.count + (rest.length + 1) := by
          omega
        rw [e]
        by_cases hr : rest = []
        · subst hr
          simp [hdone]
        · simp [hdone, hr]

theorem started_index_map (l : List Nat) :
    (l.map (fun i : Nat => Effect.command_execute (i : Int))).filterMap Effect.started_index =
      l.map Int.ofNat := by
  induction l with
  | nil => rfl
  | cons a t ih => simp [Effect.started_index, ih]

/-- C9: an executor with `1 ≤ max_concurrent ≤ max`, count 0 and valid, whose
first `max_concurrent` commands were started at the beginning, and a run of
`k ≤ max` terminations through `as_event_executor_complete`, every start
succeeding.  After the run `count = k`; the commands started by completions
are exactly `max_concurrent, ..., min (k + max_concurrent, max) - 1`, in order,
so after `max` completions every index below `max` has been started exactly
once; at most `max_concurrent` commands are in flight; `complete_fn` (with
`notify`) and the destroy have run exactly if `k = max`, once; and the next
completion, the `(k+1)`-th, starts exactly index `(k+1) + max_concurrent - 1`
when that is below `max`, and nothing otherwise. -/
theorem executor_complete_schedule (cs : List as_event_command) (w : World)
    (h0 : w.executor.count = 0) (hv : w.executor.valid = true)
    (h1 : 1 ≤ w.executor.max_concurrent) (h2 : w.executor.max_concurrent ≤ w.executor.max)
    (hs : w.sel Effect.is_command_execute = []) (hk : cs.length ≤ w.executor.max) :
    (terminate_all (cs.map (fun c => Termination.complete c none)) w).executor.count = cs.length ∧
    (terminate_all (cs.map (fun c => Termination.complete c none)) w).started =
      (List.range' w.executor.max_concurrent
        (min (cs.length + w.executor.max_concurrent) w.executor.max -
          w.executor.max_concurrent)).map Int.ofNat ∧
    (cs.length = w.executor.max →
      (List.range w.executor.max_concurrent).map Int.ofNat ++
        (terminate_all (cs.map (fun c => Termination.complete c none)) w).started =
      (List.range w.executor.max).map Int.ofNat) ∧
    (terminate_all (cs.map (fun c => Termination.complete c none)) w).in_flight cs.length ≤
      w.executor.max_concurrent ∧
    (terminate_all (cs.map (fun c => Termination.complete c none)) w).sel Effect.is_complete_fn =
      w.sel Effect.is_complete_fn ++
        (if cs.length = w.executor.max ∧ w.executor.notify = true then
          [Effect.complete_fn w.executor.err] else []) ∧
    (terminate_all (cs.map (fun c => Termination.complete c none)) w).sel
        Effect.is_executor_destroy =
      w.sel Effect.is_executor_destroy ++
        (if cs.length = w.executor.max then [Effect.executor_destroy] else []) ∧
    (∀ c : as_event_command, cs.length < w.executor.max →
      (terminate (Termination.complete c none)
        (terminate_all (cs.map (fun c => Termination.complete c none)) w)).started =
      (terminate_all (cs.map (fun c => Termination.complete c none)) w).started ++
        (if cs.length + w.executor.max_concurrent < w.executor.max then
          [((cs.length + 1 : Nat) : Int) + (w.executor.max_concurrent : Int) - 1] else [])) := by
  obtain ⟨r1, r2, r3, r4⟩ := complete_run cs w hv h1 (by omega)
  rw [h0] at r1 r2 r3 r4
  simp only [Nat.zero_add] at r1 r2 r3 r4
  generalize terminate_all (cs.map (fun c => Termination.complete c none)) w = r at r1 r2 r3 r4 ⊢
  have hstarted : r.started = (List.range' w.executor.max_concurrent
      (min (cs.length + w.executor.max_concurrent) w.executor.max -
        w.executor.max_concurrent)).map Int.ofNat := by
    unfold World.started
    rw [r2, hs, List.nil_append, started_index_map]
  have hnonempty : cs.length = w.executor.max → cs ≠ [] := by
    intro h hc
    rw [hc] at h
    simp only [List.length_nil] at h
    omega
  refine ⟨by rw [r1], hstarted, ?_, ?_, ?_, ?_, ?_⟩
  · intro hmax
    rw [hstarted, hmax, List.range_eq_range', List.range_eq_range', ← List.map_append]
    congr 1
    have e : min (w.executor.max + w.executor.max_concurrent) w.executor.max -
        w.executor.max_concurrent = w.executor.max - w.executor.max_concurrent := by omega
    rw [e]
    have := List.range'_append 0 w.executor.max_concurrent
      (w.executor.max - w.executor.max_concurrent) 1
    simp only [Nat.zero_add, Nat.one_mul] at this
    rw [this]
    congr 1
    omega
  · unfold World.in_flight
    rw [hstarted, r1]
    simp only [List.length_map, List.length_range']
    omega
  · rw [r3]
    congr 1
    by_cases hmax : cs.length = w.executor.max
    · simp [hmax, hnonempty hmax]
    · simp [hmax]
  · rw [r4]
    congr 1
    by_cases hmax : cs.length = w.executor.max
    · simp [hmax, hnonempty hmax]
    · simp [hmax]
  · intro c hlt
    have hvr : r.executor.valid = true := by rw [r1]; exact hv
    obtain ⟨_, s2, _, _⟩ := executor_complete_step c r hvr
    have hcr : r.executor.count = cs.length := by rw [r1]
    have hmr : r.executor.max = w.executor.max := by rw [r1]
    have hmcr : r.executor.max_concurrent = w.executor.max_concurrent := by rw [r1]
    rw [hcr, hmr, hmcr] at s2
    unfold terminate World.started
    simp only []
    rw [s2, List.filterMap_append]
    congr 1
    by_cases hl : cs.length + w.executor.max_concurrent < w.executor.max
    · have hne : cs.length + 1 ≠ w.executor.max := by omega
      rw [if_pos ⟨hne, hl⟩, if_pos hl]
      simp only [List.filterMap_cons, Effect.started_index, List.filterMap_nil]
      congr 1
      push_cast
      ring
    · have hno : ¬ (cs.length + 1 ≠ w.executor.max ∧
          cs.length + w.executor.max_concurrent < w.executor.max) := fun hc => hl hc.2
      rw [if_neg hno, if_neg hl]
      rfl

theorem executor_complete_schedule_witness :
    group_world.executor.count = 0 ∧ group_world.executor.valid = true ∧
    1 ≤ group_world.executor.max_concurrent ∧
    group_world.executor.max_concurrent ≤ group_world.executor.max ∧
    group_world.sel Effect.is_command_execute = [] ∧
    (List.replicate 10 group_command).length ≤ group_world.executor.max ∧
    (terminate_all ((List.replicate 10 group_command).map (fun c => Termination.complete c none))
      group_world).started = [3, 4, 5, 6, 7, 8, 9] :=
  ⟨rfl, rfl, by decide, by decide, rfl, by decide,
    (executor_complete_schedule (List.replicate 10 group_command) group_world rfl rfl
      (by decide) (by decide) rfl (by decide)).2.1⟩

/-! ## C10 -/

/-- What `as_event_response_error` does to the connection of a non-pipelined
command before it calls `as_event_error_callback`: the timer is stopped if
there is one, the watcher is stopped, and the connection is closed or put
back according to the error code. -/
theorem response_error_steps (err : as_error) (w : World) (hpipe : w.cmd.pipe_listener = false) :
    as_event_response_error err w =
      as_event_error_callback err
        (if err.code ∈ [AEROSPIKE_ERR_QUERY_ABORTED, AEROSPIKE_ERR_SCAN_ABORTED,
              AEROSPIKE_ERR_ASYNC_CONNECTION, AEROSPIKE_ERR_TLS_ERROR, AEROSPIKE_ERR_CLIENT_ABORT,
              AEROSPIKE_ERR_CLIENT, AEROSPIKE_NOT_AUTHENTICATED] then
          as_event_release_connection w.cmd.conn
            (as_event_stop_watcher (if w.cmd.flags.HAS_TIMER then as_event_stop_timer w else w))
        else
          as_event_put_connection
            (as_event_stop_watcher (if w.cmd.flags.HAS_TIMER then as_event_stop_timer w else w))) := by
  unfold as_event_response_error
  rw [if_neg (by simp [hpipe])]
  cases hc : err.code <;> cases ht : w.cmd.flags.HAS_TIMER <;>
    simp [as_event_stop_watcher, as_event_stop_timer]

theorem put_connection_put_or_close (w : World) :
    (as_event_put_connection w).sel Effect.is_put_or_close = w.sel Effect.is_put_or_close ++
      (if w.pool_accepts then [Effect.pool_put w.cmd.conn true]
       else [Effect.pool_put w.cmd.conn false, Effect.release_connection w.cmd.conn]) := by
  cases hc : w.cmd.conn <;> by_cases hq : w.pool.queue.length < w.pool.capacity <;>
    simp [as_event_put_connection, as_conn_pool_put, as_event_release_connection, hc, hq,
      World.pool_accepts, World.sel, World.effects, Effect.is_put_or_close]

/-- C10: for a non-pipelined command, `as_event_response_error` closes the
connection without offering it to the pool exactly when the error code is one
of the seven listed; for every other code it offers the connection to the pool
of the command's node and closes it only if the pool refuses; in both cases
the error then goes through `as_event_error_callback` once: one listener call
with the error for a single command (the executor takes it for a command of a
group) and one release of the command. -/
theorem response_error_closes_or_returns_connection (err : as_error) (w : World)
    (hpipe : w.cmd.pipe_listener = false) :
    (as_event_response_error err w).sel Effect.is_put_or_close =
      w.sel Effect.is_put_or_close ++
        (if err.code ∈ [AEROSPIKE_ERR_QUERY_ABORTED, AEROSPIKE_ERR_SCAN_ABORTED,
              AEROSPIKE_ERR_ASYNC_CONNECTION, AEROSPIKE_ERR_TLS_ERROR, AEROSPIKE_ERR_CLIENT_ABORT,
              AEROSPIKE_ERR_CLIENT, AEROSPIKE_NOT_AUTHENTICATED] then
          [Effect.release_connection w.cmd.conn]
        else if w.pool_accepts then
          [Effect.pool_put w.cmd.conn true]
        else
          [Effect.pool_put w.cmd.conn false, Effect.release_connection w.cmd.conn]) ∧
    (as_event_response_error err w).listener_calls =
      w.listener_calls ++ error_listener_call w.cmd.type err ∧
    (w.cmd.type = AS_ASYNC_TYPE_GROUP →
      (as_event_response_error err w).executor =
        (as_event_executor_error err (-1) w).executor) ∧
    (as_event_response_error err w).releases = w.releases + 1 := by
  refine ⟨?_, response_error_listener_calls err w hpipe, ?_, response_error_releases err w hpipe⟩
  · rw [response_error_steps err w hpipe]
    have hcb := error_callback_sel Effect.is_put_or_close
      (by intro e; cases e <;> simp [Effect.is_free, Effect.is_put_or_close])
      (by intro e; cases e <;> simp [Effect.is_group, Effect.is_put_or_close])
      (by intro e; cases e <;> simp [Effect.is_listener, Effect.is_put_or_close]) err
    unfold World.sel World.effects
    rw [hcb]
    have hacc : (as_event_stop_watcher
        (if w.cmd.flags.HAS_TIMER then as_event_stop_timer w else w)).pool_accepts =
        w.pool_accepts := by
      cases ht : w.cmd.flags.HAS_TIMER <;>
        simp [World.pool_accepts, World.pool, World.pool_key, as_event_stop_watcher,
          as_event_stop_timer]
    by_cases h1 : err.code ∈ [AEROSPIKE_ERR_QUERY_ABORTED, AEROSPIKE_ERR_SCAN_ABORTED,
              AEROSPIKE_ERR_ASYNC_CONNECTION, AEROSPIKE_ERR_TLS_ERROR, AEROSPIKE_ERR_CLIENT_ABORT,
              AEROSPIKE_ERR_CLIENT, AEROSPIKE_NOT_AUTHENTICATED]
    · simp only [h1, if_true]
      cases ht : w.cmd.flags.HAS_TIMER <;>
        simp [as_event_release_connection, as_event_stop_watcher, as_event_stop_timer,
          Effect.is_put_or_close]
    · simp only [h1, if_false]
      have hp := put_connection_put_or_close
        (as_event_stop_watcher (if w.cmd.flags.HAS_TIMER then as_event_stop_timer w else w))
      unfold World.sel World.effects at hp
      rw [hp, hacc]
      cases ht : w.cmd.flags.HAS_TIMER <;>
        simp [as_event_stop_watcher, as_event_stop_timer, Effect.is_put_or_close]
  · intro ht
    obtain ⟨w1, h, _, ht1, hex⟩ := response_error_quiet Effect.is_listener
      (by intro e; cases e <;> simp [Effect.is_response, Effect.is_listener]) err w hpipe
    rw [h, error_callback_executor, if_pos (ht1.trans ht), executor_error_executor,
      executor_error_executor, hex]

theorem response_error_closes_or_returns_connection_witness :
    response_world.cmd.pipe_listener = false ∧
    (as_event_response_error { code := AEROSPIKE_ERR_RECORD_NOT_FOUND, message := "" }
      response_world).releases = response_world.releases + 1 :=
  ⟨rfl, (response_error_closes_or_returns_connection
    { code := AEROSPIKE_ERR_RECORD_NOT_FOUND, message := "" } response_world rfl).2.2.2⟩

/-! ## C11 -/

/-- C11: `as_error_string` is total and names every status.  A status is
either one of the 67 listed in the `switch` or an unlisted numeric value; the
names returned for the listed statuses are, in order, their own identifiers
(pairwise different); an unlisted negative status gets "AEROSPIKE_ERR_CLIENT"
and an unlisted positive one "AEROSPIKE_ERR_SERVER". -/
theorem as_error_string_names_every_status :
    (∀ s : as_status, s ∈ listed_statuses ∨ ∃ n : Int, s = as_status.other n) ∧
    (∀ s : as_status, as_error_string s ≠ "") ∧
    listed_statuses.map as_error_string = listed_identifiers ∧
    listed_identifiers.Nodup ∧
    (∀ n : Int, n < 0 → as_error_string (as_status.other n) = "AEROSPIKE_ERR_CLIENT") ∧
    (∀ n : Int, 0 < n → as_error_string (as_status.other n) = "AEROSPIKE_ERR_SERVER") := by
  refine ⟨?_, ?_, ?_, ?_, ?_, ?_⟩
  · intro s
    cases s <;> first | exact Or.inr ⟨_, rfl⟩ | (left; simp [listed_statuses])
  · intro s
    cases s with
    | other n =>
      show (if n < 0 then "AEROSPIKE_ERR_CLIENT" else "AEROSPIKE_ERR_SERVER") ≠ ""
      split_ifs <;> decide
    | _ => decide
  · rfl
  · decide!
  · intro n hn
    show (if n < 0 then "AEROSPIKE_ERR_CLIENT" else "AEROSPIKE_ERR_SERVER") = _
    rw [if_pos hn]
  · intro n hn
    show (if n < 0 then "AEROSPIKE_ERR_CLIENT" else "AEROSPIKE_ERR_SERVER") = _
    rw [if_neg (by omega)]

/-! ## C12 -/

/-- C12 (counterexample): a command with socket timeout 30 ms and no total
timeout (`total_deadline = 0`) that starts in its loop on an open cluster gets
the socket timer and USING_SOCKET_TIMER, not the total timer; and a command
with neither timeout gets no timer at all. -/
theorem in_loop_start_without_deadline :
    socket_only_world.pending ≠ -1 ∧
    socket_only_world.cmd.total_deadline = 0 ∧
    (as_event_command_execute_in_loop socket_only_world).sel Effect.is_timer =
      [Effect.init_socket_timer] ∧
    (as_event_command_execute_in_loop socket_only_world).cmd.timer =
      some { kind := as_timer_kind.socket_timer, due := 30 } ∧
    (as_event_command_execute_in_loop socket_only_world).cmd.flags.USING_SOCKET_TIMER = true ∧
    (as_event_command_execute_in_loop untimed_world).sel Effect.is_timer = [] ∧
    (as_event_command_execute_in_loop untimed_world).cmd.timer = none := by
  decide!

/-- C12 (amended): at in-loop start on an open cluster, unless the command was
queued and its deadline has passed (then no timer is armed and "Register
timeout" is delivered), the state handed to `as_event_command_begin` has the
socket timer armed and USING_SOCKET_TIMER set exactly when `socket_timeout > 0`
and either there is no total deadline or `socket_timeout` is strictly less
than the time remaining to it; with a total deadline and otherwise, the total
timer is armed for the remaining time and USING_SOCKET_TIMER is left as it was;
with neither timeout no timer is armed. -/
theorem in_loop_start_timer_choice (w : World) (hopen : w.pending ≠ -1) :
    ((w.cmd.total_deadline > 0 ∧ w.cmd.state = AS_ASYNC_STATE_REGISTERED ∧
        w.now ≥ w.cmd.total_deadline) →
      (as_event_command_execute_in_loop w).sel Effect.is_timer = w.sel Effect.is_timer ∧
      (as_event_command_execute_in_loop w).cmd.timer = w.cmd.timer ∧
      (as_event_command_execute_in_loop w).listener_calls = w.listener_calls ++
        error_listener_call w.cmd.type
          { code := AEROSPIKE_ERR_TIMEOUT, message := "Register timeout" }) ∧
    (¬ (w.cmd.total_deadline > 0 ∧ w.cmd.state = AS_ASYNC_STATE_REGISTERED ∧
        w.now ≥ w.cmd.total_deadline) →
      ((w.cmd.socket_timeout > 0 ∧
          (w.cmd.total_deadline = 0 ∨ w.cmd.socket_timeout < time_to_deadline w)) →
        ∃ w1 : World, as_event_command_execute_in_loop w = as_event_command_begin w1 ∧
          w1.trace = w.trace ++ [(w.now, Effect.init_socket_timer)] ∧
          w1.cmd.timer =
            some { kind := as_timer_kind.socket_timer, due := w.now + w.cmd.socket_timeout } ∧
          w1.cmd.flags.HAS_TIMER = true ∧
          w1.cmd.flags.USING_SOCKET_TIMER = true) ∧
      ((w.cmd.total_deadline > 0 ∧
          ¬ (w.cmd.socket_timeout > 0 ∧ w.cmd.socket_timeout < time_to_deadline w)) →
        ∃ w1 : World, as_event_command_execute_in_loop w = as_event_command_begin w1 ∧
          w1.trace = w.trace ++ [(w.now, Effect.init_total_timer (time_to_deadline w))] ∧
          w1.cmd.timer =
            some { kind := as_timer_kind.total_timer, due := w.now + time_to_deadline w } ∧
          w1.cmd.flags.HAS_TIMER = true ∧
          w1.cmd.flags.USING_SOCKET_TIMER = w.cmd.flags.USING_SOCKET_TIMER) ∧
      ((w.cmd.total_deadline = 0 ∧ w.cmd.socket_timeout = 0) →
        ∃ w1 : World, as_event_command_execute_in_loop w = as_event_command_begin w1 ∧
          w1.trace = w.trace ∧
          w1.cmd.timer = w.cmd.timer ∧
          w1.cmd.flags = w.cmd.flags)) := by
  refine ⟨?_, ?_⟩
  · intro ⟨h1, h2, h3⟩
    unfold as_event_command_execute_in_loop
    simp only [hopen, if_false, h1, h2, h3, if_true, ge_iff_le]
    refine ⟨?_, ?_, ?_⟩
    · unfold World.sel World.effects
      rw [error_callback_sel _ (by intro e; cases e <;> simp [Effect.is_free, Effect.is_timer])
        (by intro e; cases e <;> simp [Effect.is_group, Effect.is_timer])
        (by intro e; cases e <;> simp [Effect.is_listener, Effect.is_timer])]
    · rw [error_callback_cmd]
    · rw [error_callback_listener_calls]; rfl
  · intro hne
    refine ⟨?_, ?_, ?_⟩
    · intro ⟨hs, hor⟩
      unfold as_event_command_execute_in_loop
      simp only [hopen, if_false]
      by_cases htd : w.cmd.total_deadline > 0
      · have hlt : w.cmd.socket_timeout < time_to_deadline w := by
          rcases hor with h | h
          · omega
          · exact h
        by_cases hreg : w.cmd.state = AS_ASYNC_STATE_REGISTERED
        · have hnot : ¬ w.now ≥ w.cmd.total_deadline := fun c => hne ⟨htd, hreg, c⟩
          simp only [time_to_deadline, hreg, if_true] at hlt
          simp only [htd, hreg, hnot, if_true, if_false]
          refine ⟨_, rfl, ?_⟩
          simp [start_timer, hs, hlt, as_event_init_socket_timer]
        · simp only [time_to_deadline, hreg, if_false] at hlt
          simp only [htd, hreg, if_true, if_false]
          refine ⟨_, rfl, ?_⟩
          simp [start_timer, hs, hlt, as_event_init_socket_timer]
      · simp only [htd, hs, if_true, if_false]
        refine ⟨_, rfl, ?_⟩
        simp [as_event_init_socket_timer]
    · intro ⟨htd, hns⟩
      unfold as_event_command_execute_in_loop
      simp only [hopen, if_false]
      by_cases hreg : w.cmd.state = AS_ASYNC_STATE_REGISTERED
      · have hnot : ¬ w.now ≥ w.cmd.total_deadline := fun c => hne ⟨htd, hreg, c⟩
        simp only [time_to_deadline, hreg, if_true] at hns ⊢
        simp only [htd, hreg, hnot, if_true, if_false]
        refine ⟨_, rfl, ?_⟩
        simp [start_timer, hns, as_event_init_total_timer]
      · simp only [time_to_deadline, hreg, if_false] at hns ⊢
        simp only [htd, hreg, if_true, if_false]
        refine ⟨_, rfl, ?_⟩
        simp [start_timer, hns, as_event_init_total_timer]
    · intro ⟨htd, hs⟩
      unfold as_event_command_execute_in_loop
      have h1 : ¬ w.cmd.total_deadline > 0 := by omega
      have h2 : ¬ w.cmd.socket_timeout > 0 := by omega
      simp only [hopen, if_false, h1, h2]
      exact ⟨_, rfl, rfl, rfl, rfl⟩

theorem in_loop_start_timer_choice_witness :
    read_world.pending ≠ -1 ∧
    ¬ (read_world.cmd.total_deadline > 0 ∧ read_world.cmd.state = AS_ASYNC_STATE_REGISTERED ∧
        read_world.now ≥ read_world.cmd.total_deadline) ∧
    (read_world.cmd.socket_timeout > 0 ∧
      (read_world.cmd.total_deadline = 0 ∨
        read_world.cmd.socket_timeout < time_to_deadline read_world)) ∧
    ∃ w1 : World, as_event_command_execute_in_loop read_world = as_event_command_begin w1 ∧
      w1.trace = read_world.trace ++ [(read_world.now, Effect.init_socket_timer)] ∧
      w1.cmd.timer = some { kind := as_timer_kind.socket_timer,
                            due := read_world.now + read_world.cmd.socket_timeout } ∧
      w1.cmd.flags.HAS_TIMER = true ∧
      w1.cmd.flags.USING_SOCKET_TIMER = true :=
  ⟨by decide, by decide, by decide,
    ((in_loop_start_timer_choice read_world (by decide)).2 (by decide)).1 (by decide)⟩

/-! ## C13 -/

theorem connection_timeout_fields (w : World) :
    (as_event_connection_timeout w).trace = w.trace ++ [(w.now, Effect.connection_timeout)] ∧
    (as_event_connection_timeout w).cmd.timer = w.cmd.timer ∧
    (as_event_connection_timeout w).cmd.flags = w.cmd.flags ∧
    (as_event_connection_timeout w).cmd.iteration = w.cmd.iteration ∧
    (as_event_connection_timeout w).cmd.type = w.cmd.type ∧
    (as_event_connection_timeout w).now = w.now := by
  cases hc : w.cmd.conn <;> simp [as_event_connection_timeout, hc]

theorem total_timeout_listener_calls (w : World) (hpipe : w.cmd.pipe_listener = false) :
    (as_event_total_timeout w).listener_calls =
      w.listener_calls ++ error_listener_call w.cmd.type (timeout_error w) ∧
    (as_event_total_timeout w).cmd.flags = w.cmd.flags ∧
    (as_event_total_timeout w).cmd.iteration = w.cmd.iteration ∧
    (as_event_total_timeout w).sel Effect.is_enqueue = w.sel Effect.is_enqueue ∧
    (as_event_total_timeout w).cmd.timer = w.cmd.timer ∧
    (as_event_total_timeout w).sel Effect.is_timer = w.sel Effect.is_timer := by
  obtain ⟨c1, c2, c3, c4, c5, _⟩ := connection_timeout_fields w
  unfold as_event_total_timeout
  rw [if_neg (by simp [hpipe])]
  simp only []
  refine ⟨?_, ?_, ?_, ?_, ?_, ?_⟩
  · rw [error_callback_listener_calls, c5]
    simp [World.listener_calls, World.sel, World.effects, c1, Effect.is_listener]
  · rw [error_callback_cmd, c3]
  · rw [error_callback_cmd, c4]
  · unfold World.sel World.effects
    rw [error_callback_sel _ (by intro e; cases e <;> simp [Effect.is_free, Effect.is_enqueue])
      (by intro e; cases e <;> simp [Effect.is_group, Effect.is_enqueue])
      (by intro e; cases e <;> simp [Effect.is_listener, Effect.is_enqueue])]
    simp [c1, Effect.is_enqueue]
  · rw [error_callback_cmd, c2]
  · unfold World.sel World.effects
    rw [error_callback_sel _ (by intro e; cases e <;> simp [Effect.is_free, Effect.is_timer])
      (by intro e; cases e <;> simp [Effect.is_group, Effect.is_timer])
      (by intro e; cases e <;> simp [Effect.is_listener, Effect.is_timer])]
    simp [c1, Effect.is_timer]

/-- C13: `as_event_socket_timeout` on a command with EVENT_RECEIVED set and a
total deadline.  EVENT_RECEIVED is cleared.  If the deadline has passed, the
iteration is incremented once, the timer stopped and the total-timeout path
taken: a non-pipelined command gets one listener call with
`AEROSPIKE_ERR_TIMEOUT`, a pipelined one goes to `as_pipe_timeout`.  Else, if
the remaining time is at most the socket timeout, the timer is stopped, the
total timer armed for exactly the remaining time and USING_SOCKET_TIMER
cleared.  Else the socket timer is re-armed and USING_SOCKET_TIMER left as it
is.  In no case is a retry made: nothing is queued, MASTER is untouched, and
the iteration is not incremented beyond the single increment of the first
case. -/
theorem socket_timeout_after_event (w : World) (hev : w.cmd.flags.EVENT_RECEIVED = true)
    (htd : w.cmd.total_deadline > 0) :
    (as_event_socket_timeout w).cmd.flags.EVENT_RECEIVED = false ∧
    (as_event_socket_timeout w).cmd.flags.MASTER = w.cmd.flags.MASTER ∧
    (as_event_socket_timeout w).sel Effect.is_enqueue = w.sel Effect.is_enqueue ∧
    (w.now ≥ w.cmd.total_deadline →
      (as_event_socket_timeout w).cmd.iteration = w.cmd.iteration + 1 ∧
      (as_event_socket_timeout w).cmd.timer = none ∧
      (w.cmd.pipe_listener = false →
        (as_event_socket_timeout w).sel Effect.is_timer =
          w.sel Effect.is_timer ++ [Effect.stop_timer] ∧
        (as_event_socket_timeout w).listener_calls = w.listener_calls ++
          error_listener_call w.cmd.type
            { code := AEROSPIKE_ERR_TIMEOUT,
              message := "Timeout: iterations=" ++ toString (w.cmd.iteration + 1) ++
                " lastNode=" ++ node_string w }) ∧
      (w.cmd.pipe_listener = true →
        (as_event_socket_timeout w).trace =
          w.trace ++ [(w.now, Effect.stop_timer), (w.now, Effect.pipe_timeout false)])) ∧
    ((w.now < w.cmd.total_deadline ∧ w.cmd.total_deadline - w.now ≤ w.cmd.socket_timeout) →
      (as_event_socket_timeout w).trace = w.trace ++
        [(w.now, Effect.stop_timer),
         (w.now, Effect.set_total_timer (w.cmd.total_deadline - w.now))] ∧
      (as_event_socket_timeout w).cmd.timer =
        some { kind := as_timer_kind.total_timer,
               due := w.now + (w.cmd.total_deadline - w.now) } ∧
      (as_event_socket_timeout w).cmd.flags.USING_SOCKET_TIMER = false ∧
      (as_event_socket_timeout w).cmd.iteration = w.cmd.iteration) ∧
    ((w.now < w.cmd.total_deadline ∧ ¬ w.cmd.total_deadline - w.now ≤ w.cmd.socket_timeout) →
      (as_event_socket_timeout w).trace = w.trace ++ [(w.now, Effect.repeat_socket_timer)] ∧
      (as_event_socket_timeout w).cmd.timer =
        some { kind := as_timer_kind.socket_timer, due := w.now + w.cmd.socket_timeout } ∧
      (as_event_socket_timeout w).cmd.flags.USING_SOCKET_TIMER =
        w.cmd.flags.USING_SOCKET_TIMER ∧
      (as_event_socket_timeout w).cmd.iteration = w.cmd.iteration) := by
  unfold as_event_socket_timeout
  simp only [hev, if_true, htd]
  by_cases hexp : w.now ≥ w.cmd.total_deadline
  · simp only [hexp, if_true]
    have hnot1 : ¬ (w.now < w.cmd.total_deadline ∧
        w.cmd.total_deadline - w.now ≤ w.cmd.socket_timeout) := by omega
    have hnot2 : ¬ (w.now < w.cmd.total_deadline ∧
        ¬ w.cmd.total_deadline - w.now ≤ w.cmd.socket_timeout) := by omega
    cases hpipe : w.cmd.pipe_listener
    · generalize hws : as_event_stop_timer _ = ws
      have hws_cmd : ws.cmd = { w.cmd with
          flags := { w.cmd.flags with EVENT_RECEIVED := false },
          iteration := w.cmd.iteration + 1, timer := none } := by
        rw [← hws]; simp [as_event_stop_timer, hpipe]
      have hws_trace : ws.trace = w.trace ++ [(w.now, Effect.stop_timer)] := by
        rw [← hws]; simp [as_event_stop_timer]
      obtain ⟨t1, t2, t3, t4, t5a, t6⟩ :=
        total_timeout_listener_calls ws (by rw [hws_cmd]; exact hpipe)
      have t5 : (as_event_total_timeout ws).cmd.timer = none := by rw [t5a, hws_cmd]
      refine ⟨?_, ?_, ?_, ?_, fun h => absurd h hnot1, fun h => absurd h hnot2⟩
      · rw [t2, hws_cmd]
      · rw [t2, hws_cmd]
      · rw [t4]; simp [World.sel, World.effects, hws_trace, Effect.is_enqueue]
      · intro _
        refine ⟨?_, t5, ?_, ?_⟩
        · rw [t3, hws_cmd]
        · intro _
          refine ⟨?_, ?_⟩
          · rw [t6]; simp [World.sel, World.effects, hws_trace, Effect.is_timer]
          · rw [t1]
            simp [World.listener_calls, World.sel, World.effects, hws_trace, hws_cmd,
              Effect.is_listener, timeout_error, node_string]
        · intro h; exact absurd h (by simp)
    · refine ⟨?_, ?_, ?_, ?_, fun h => absurd h hnot1, fun h => absurd h hnot2⟩ <;>
        simp [as_event_total_timeout, as_event_stop_timer, hpipe, World.sel, World.effects,
          Effect.is_enqueue]
  · have hlt : w.now < w.cmd.total_deadline := by omega
    simp only [hexp, if_false]
    by_cases hrem : w.cmd.total_deadline - w.now ≤ w.cmd.socket_timeout
    · simp only [hrem, if_true]
      refine ⟨?_, ?_, ?_, fun h => h.elim, ?_, fun h => absurd trivial h.2⟩
      · simp [as_event_set_total_timer, as_event_stop_timer]
      · simp [as_event_set_total_timer, as_event_stop_timer]
      · simp [as_event_set_total_timer, as_event_stop_timer, World.sel, World.effects,
          Effect.is_enqueue]
      · intro _
        simp [as_event_set_total_timer, as_event_stop_timer]
    · simp only [hrem, if_false]
      refine ⟨?_, ?_, ?_, fun h => h.elim, fun h => h.2.elim, ?_⟩
      · simp [as_event_repeat_socket_timer]
      · simp [as_event_repeat_socket_timer]
      · simp [as_event_repeat_socket_timer, World.sel, World.effects, Effect.is_enqueue]
      · intro _
        simp [as_event_repeat_socket_timer]

theorem socket_timeout_after_event_witness :
    event_world.cmd.flags.EVENT_RECEIVED = true ∧ event_world.cmd.total_deadline > 0 ∧
    (as_event_socket_timeout event_world).cmd.flags.EVENT_RECEIVED = false :=
  ⟨rfl, by decide, (socket_timeout_after_event event_world rfl (by decide)).1⟩

/-! ## C14 -/

/-- A firing well before the deadline only re-arms the socket timer. -/
theorem firing_rearms (j : Nat) (w : World) (htd : w.cmd.total_deadline > 0)
    (hlt : j * w.cmd.socket_timeout < w.cmd.total_deadline)
    (hrem : ¬ w.cmd.total_deadline - j * w.cmd.socket_timeout ≤ w.cmd.socket_timeout) :
    (socket_timer_firing j w).trace =
      w.trace ++ [(j * w.cmd.socket_timeout, Effect.repeat_socket_timer)] ∧
    (socket_timer_firing j w).cmd.total_deadline = w.cmd.total_deadline ∧
    (socket_timer_firing j w).cmd.socket_timeout = w.cmd.socket_timeout ∧
    (socket_timer_firing j w).cmd.flags.USING_SOCKET_TIMER = w.cmd.flags.USING_SOCKET_TIMER ∧
    (socket_timer_firing j w).cmd.timer =
      some { kind := as_timer_kind.socket_timer,
             due := j * w.cmd.socket_timeout + w.cmd.socket_timeout } := by
  have hexp : ¬ j * w.cmd.socket_timeout ≥ w.cmd.total_deadline := by omega
  unfold socket_timer_firing as_event_socket_timeout
  simp [htd, hexp, hrem, as_event_repeat_socket_timer]

/-- The firing at which at most one socket timeout remains switches to the
total timer. -/
theorem firing_switches (j : Nat) (w : World) (htd : w.cmd.total_deadline > 0)
    (hlt : j * w.cmd.socket_timeout < w.cmd.total_deadline)
    (hrem : w.cmd.total_deadline - j * w.cmd.socket_timeout ≤ w.cmd.socket_timeout) :
    (socket_timer_firing j w).trace =
      w.trace ++ [(j * w.cmd.socket_timeout, Effect.stop_timer),
        (j * w.cmd.socket_timeout,
          Effect.set_total_timer (w.cmd.total_deadline - j * w.cmd.socket_timeout))] ∧
    (socket_timer_firing j w).cmd.flags.USING_SOCKET_TIMER = false ∧
    (socket_timer_firing j w).cmd.timer =
      some { kind := as_timer_kind.total_timer,
             due := j * w.cmd.socket_timeout +
               (w.cmd.total_deadline - j * w.cmd.socket_timeout) } := by
  have hexp : ¬ j * w.cmd.socket_timeout ≥ w.cmd.total_deadline := by omega
  unfold socket_timer_firing as_event_socket_timeout
  simp [htd, hexp, hrem, as_event_set_total_timer, as_event_stop_timer]

/-- As long as more than one socket timeout remains at each firing, the
firings only re-arm the socket timer. -/
theorem firings_rearm (T S : Nat) (w : World) (hT : 0 < T)
    (htd : w.cmd.total_deadline = T) (hst : w.cmd.socket_timeout = S) (n : Nat)
    (hn : ∀ j, 1 ≤ j → j ≤ n → j * S + S < T) :
    (socket_timer_firings n w).trace =
      w.trace ++ (List.range' 1 n).map (fun j : Nat => (j * S, Effect.repeat_socket_timer)) ∧
    (socket_timer_firings n w).cmd.total_deadline = T ∧
    (socket_timer_firings n w).cmd.socket_timeout = S ∧
    (socket_timer_firings n w).cmd.flags.USING_SOCKET_TIMER = w.cmd.flags.USING_SOCKET_TIMER := by
  induction n with
  | zero => simp [socket_timer_firings, htd, hst]
  | succ n ih =>
    obtain ⟨i1, i2, i3, i4⟩ := ih (fun j h1 h2 => hn j h1 (by omega))
    have hj := hn (n + 1) (by omega) (le_refl _)
    obtain ⟨f1, f2, f3, f4, _⟩ := firing_rearms (n + 1) (socket_timer_firings n w)
      (by rw [i2]; exact hT) (by rw [i2, i3]; omega) (by rw [i2, i3]; omega)
    unfold socket_timer_firings
    rw [i3] at f1
    refine ⟨?_, by rw [f2, i2], by rw [f3, i3], by rw [f4, i4]⟩
    rw [f1, i1, List.range'_concat, List.map_append, List.append_assoc]
    simp [Nat.add_comm]

/-- C14: a command with total deadline `T` (started at time 0) and socket
timeout `S`, `0 < S < T`, with the socket timer in use, whose socket timer
fires exactly every `S` ms with EVENT_RECEIVED set at each firing.  With
`k = (T - 1) / S`: `k ≥ 1` is the least firing number with `k * S ≥ T - S`, and
`T - S ≤ k * S < T`; each of the firings before the `k`-th only re-arms the
socket timer; the `k`-th stops it, arms the total timer for `T - k * S` ms and
clears USING_SOCKET_TIMER; and no firing up to the `k`-th calls a listener. -/
theorem socket_timer_switches_to_total_timer (T S : Nat) (w : World) (hS : 0 < S) (hST : S < T)
    (htd : w.cmd.total_deadline = T) (hst : w.cmd.socket_timeout = S)
    (hu : w.cmd.flags.USING_SOCKET_TIMER = true) :
    1 ≤ (T - 1) / S ∧
    T - S ≤ (T - 1) / S * S ∧
    (T - 1) / S * S < T ∧
    (∀ j, j < (T - 1) / S → j * S < T - S) ∧
    (∀ n, n < (T - 1) / S →
      (socket_timer_firings n w).trace =
        w.trace ++ (List.range' 1 n).map (fun j : Nat => (j * S, Effect.repeat_socket_timer)) ∧
      (socket_timer_firings n w).cmd.flags.USING_SOCKET_TIMER = true) ∧
    (socket_timer_firings ((T - 1) / S) w).trace =
      w.trace ++
        (List.range' 1 ((T - 1) / S - 1)).map
          (fun j : Nat => (j * S, Effect.repeat_socket_timer)) ++
        [((T - 1) / S * S, Effect.stop_timer),
         ((T - 1) / S * S, Effect.set_total_timer (T - (T - 1) / S * S))] ∧
    (socket_timer_firings ((T - 1) / S) w).cmd.flags.USING_SOCKET_TIMER = false ∧
    (socket_timer_firings ((T - 1) / S) w).cmd.timer =
      some { kind := as_timer_kind.total_timer,
             due := (T - 1) / S * S + (T - (T - 1) / S * S) } ∧
    (∀ n, n ≤ (T - 1) / S → (socket_timer_firings n w).listener_calls = w.listener_calls) := by
  have hdm := Nat.div_add_mod (T - 1) S
  have hmod := Nat.mod_lt (T - 1) hS
  have hk1 : 1 ≤ (T - 1) / S := Nat.div_pos (by omega) hS
  rw [Nat.mul_comm] at hdm
  generalize (T - 1) / S = k at hdm hk1 ⊢
  generalize (T - 1) % S = r at hdm hmod
  have hbefore : ∀ j, j < k → j * S + S ≤ k * S := by
    intro j hj
    have := Nat.mul_le_mul_right S (Nat.succ_le_of_lt hj)
    rw [Nat.succ_mul] at this
    exact this
  have hrearm : ∀ n, n < k →
      (socket_timer_firings n w).trace =
        w.trace ++ (List.range' 1 n).map (fun j : Nat => (j * S, Effect.repeat_socket_timer)) ∧
      (socket_timer_firings n w).cmd.total_deadline = T ∧
      (socket_timer_firings n w).cmd.socket_timeout = S ∧
      (socket_timer_firings n w).cmd.flags.USING_SOCKET_TIMER = true := by
    intro n hn
    obtain ⟨a, b, c, d⟩ := firings_rearm T S w (by omega) htd hst n (by
      intro j _ hjn
      have := hbefore j (by omega)
      omega)
    exact ⟨a, b, c, by rw [d, hu]⟩
  obtain ⟨p1, p2, p3, _⟩ := hrearm (k - 1) (by omega)
  obtain ⟨s1, s2, s3⟩ := firing_switches k (socket_timer_firings (k - 1) w)
    (by rw [p2]; omega) (by rw [p2, p3]; omega) (by rw [p2, p3]; omega)
  rw [p2, p3] at s1 s3
  have hk : socket_timer_firings k w = socket_timer_firing k (socket_timer_firings (k - 1) w) := by
    obtain ⟨k', rfl⟩ : ∃ k', k = k' + 1 := ⟨k - 1, by omega⟩
    rfl
  have hktrace : (socket_timer_firings k w).trace =
      w.trace ++
        (List.range' 1 (k - 1)).map (fun j : Nat => (j * S, Effect.repeat_socket_timer)) ++
        [(k * S, Effect.stop_timer), (k * S, Effect.set_total_timer (T - k * S))] := by
    rw [hk, s1, p1]
  refine ⟨hk1, by omega, by omega, ?_, ?_, hktrace, by rw [hk, s2], by rw [hk, s3], ?_⟩
  · intro j hj
    have := hbefore j hj
    omega
  · intro n hn
    obtain ⟨a, _, _, d⟩ := hrearm n hn
    exact ⟨a, d⟩
  · intro n hn
    unfold World.listener_calls World.sel World.effects
    by_cases hlt : n < k
    · rw [(hrearm n hlt).1]
      simp [List.filter_map, Function.comp_def, Effect.is_listener]
    · have hnk : n = k := by omega
      rw [hnk, hktrace]
      simp [List.filter_map, Function.comp_def, Effect.is_listener]

theorem socket_timer_switches_to_total_timer_witness :
    0 < 30 ∧ 30 < 100 ∧ event_world.cmd.total_deadline = 100 ∧
    event_world.cmd.socket_timeout = 30 ∧ event_world.cmd.flags.USING_SOCKET_TIMER = true ∧
    (socket_timer_firings ((100 - 1) / 30) event_world).cmd.flags.USING_SOCKET_TIMER = false :=
  ⟨by decide, by decide, rfl, rfl, rfl,
    (socket_timer_switches_to_total_timer 100 30 event_world (by decide) (by decide)
      rfl rfl rfl).2.2.2.2.2.2.1⟩

/-! ## C15 -/

/-- On every full registry `as_event_set_external_loop` returns null and
leaves the size one above the capacity. -/
theorem refused_registration_size (loop self : Nat) (r : Registry)
    (hfull : r.as_event_loop_size = r.as_event_loop_capacity)
    (hmax : r.as_event_loop_size ≠ 4294967295) :
    (as_event_set_external_loop loop self r).1 = none ∧
    (as_event_set_external_loop loop self r).2.as_event_loop_size = r.as_event_loop_capacity + 1 ∧
    (as_event_set_external_loop loop self r).2.as_event_loop_capacity = r.as_event_loop_capacity ∧
    (as_event_set_external_loop loop self r).2.as_event_loops = r.as_event_loops := by
  have hcap : r.as_event_loop_capacity ≠ 4294967295 := hfull ▸ hmax
  simp [as_event_set_external_loop, ck_pr_faa_32_one, hcap, hfull]

/-- C16 (failing input): the full registry of capacity 1 satisfies the
invariant `as_event_loop_size ≤ as_event_loop_capacity`;
`as_event_set_external_loop` refuses one more registration and returns null,
but leaves `as_event_loop_size` at 2 with one element allocated, so the
invariant is lost; `as_event_loop_find` for a handle that is not registered
then reads `as_event_loops[1]`, past the end of the array. -/
theorem refused_registration_breaks_invariant :
    registry_invariant full_registry ∧
    as_event_loop_find 7 full_registry = Lookup.found 0 ∧
    as_event_loop_find 9 full_registry = Lookup.null ∧
    (as_event_set_external_loop 8 1 full_registry).1 = none ∧
    (as_event_set_external_loop 8 1 full_registry).2.as_event_loop_size = 2 ∧
    (as_event_set_external_loop 8 1 full_registry).2.as_event_loop_capacity = 1 ∧
    (as_event_set_external_loop 8 1 full_registry).2.as_event_loops.length = 1 ∧
    ¬ registry_invariant (as_event_set_external_loop 8 1 full_registry).2 ∧
    as_event_loop_find 9 (as_event_set_external_loop 8 1 full_registry).2 = Lookup.outside 1 := by
  unfold registry_invariant
  decide

end Aerospike
